import Mathlib

/-!
# Credential lifecycle of `nassabiq/golang-template`

A shallow embedding of the authentication core (`internal/modules/auth`) and
of the collaborators it is wired to.

Conventions of the embedding

* A Go pointer result `*T` is an `Option T`; a Go `error` is an `Option Err`
  (`none` is `nil`).  A Go pair `(*T, error)` is the pair of the two options,
  so the four combinations nil/non-nil are all representable.
* Every collaborator is an interface in the Go code.  A method that may have
  an effect is a function `σ → result × σ` on a world state `σ`; the calls
  are threaded in the order in which Go evaluates them.
* `time.Time` is an integer count of nanoseconds, `time.Duration` likewise.
* Rows cross the repository boundary by value, as they do in the SQL
  repository: `FindUserByID` hands out a copy of the row.
* `log.Printf` output is not part of any result and is not modelled.
-/

namespace AuthService

/-! ## `time` -/

/-- Instants (`time.Time`), in nanoseconds. -/
abbrev Time := Int

/-- Durations (`time.Duration`), in nanoseconds. -/
abbrev Duration := Int

/-- The constant `time.Minute`. -/
def Minute : Duration := 60 * 1000000000

/-- The constant `time.Hour`. -/
def Hour : Duration := 60 * Minute

/-- The method `Time.Add`. -/
def Time.Add (t : Time) (d : Duration) : Time := t + d

/-- The method `Time.Before`: strictly earlier. -/
def Time.Before (t u : Time) : Bool := decide (t < u)

/-- The method `Time.After`: strictly later. -/
def Time.After (t u : Time) : Bool := decide (u < t)

/-! ## `domain` -/

namespace domain

/-- The sentinel errors of `domain/errors.go`; `other` is any error value
that is none of the sentinels (a driver, hasher or issuer failure). -/
inductive Err where
  | ErrInvalidCredentials
  | ErrUserNotFound
  | ErrUserAlreadyExists
  | ErrInvalidRefreshToken
  | ErrInvalidToken
  | ErrTokenExpired
  | ErrTokenRevoked
  | ErrPasswordResetExpired
  | ErrPasswordResetUsed
  | ErrPasswordUpdateFailed
  | ErrPasswordNotMatch
  | ErrEmailAlreadyUsed
  | ErrWeakPassword
  | other (msg : String)
deriving DecidableEq, Repr

/-- The text `err.Error()`. -/
def Err.Error : Err → String
  | .ErrInvalidCredentials => "invalid credentials"
  | .ErrUserNotFound => "user not found"
  | .ErrUserAlreadyExists => "user already exists"
  | .ErrInvalidRefreshToken => "invalid refresh token"
  | .ErrInvalidToken => "invalid token"
  | .ErrTokenExpired => "token expired"
  | .ErrTokenRevoked => "token revoked"
  | .ErrPasswordResetExpired => "password reset expired"
  | .ErrPasswordResetUsed => "password reset used"
  | .ErrPasswordUpdateFailed => "password update failed"
  | .ErrPasswordNotMatch => "password not match"
  | .ErrEmailAlreadyUsed => "email already registered"
  | .ErrWeakPassword => "weak password"
  | .other msg => msg

/-- Role identifier of the default role (`domain/roles.go`). -/
def RoleIDUser : String := "00000000-0000-0000-0000-000000000001"

structure User where
  ID : String
  Name : String
  Email : String
  PasswordHash : String
  RoleID : String
  CreatedAt : Time
  UpdatedAt : Time
deriving DecidableEq, Repr

structure RefreshToken where
  ID : String
  UserID : String
  TokenHash : String
  Revoked : Bool
  ExpiresAt : Time
  CreatedAt : Time
  UpdatedAt : Time
deriving DecidableEq, Repr

structure PasswordReset where
  ID : String
  UserID : String
  TokenHash : String
  Used : Bool
  ExpiresAt : Time
  CreatedAt : Time
  UpdatedAt : Time
deriving DecidableEq, Repr

structure RegisterInput where
  Name : String
  Email : String
  Password : String
  PasswordConfirmation : String
deriving DecidableEq, Repr

structure LoginInput where
  Email : String
  Password : String
deriving DecidableEq, Repr

structure AuthOutput where
  AccessToken : String
  RefreshToken : String
deriving DecidableEq, Repr

structure ResetPasswordInput where
  Token : String
  NewPassword : String
deriving DecidableEq, Repr

/-- The interface `domain.AuthRepository` (`domain/repository.go`). -/
structure AuthRepository (σ : Type) where
  CreateUser : User → σ → Option Err × σ
  FindUserByEmail : String → σ → (Option User × Option Err) × σ
  FindUserByID : String → σ → (Option User × Option Err) × σ
  StoreRefreshToken : RefreshToken → σ → Option Err × σ
  FindValidRefreshToken : String → σ → (Option RefreshToken × Option Err) × σ
  RevokeRefreshToken : String → σ → Option Err × σ
  RevokeAllRefreshTokens : String → σ → Option Err × σ
  StorePasswordReset : PasswordReset → σ → Option Err × σ
  FindValidPasswordReset : String → σ → (Option PasswordReset × Option Err) × σ
  MarkPasswordResetUsed : String → σ → Option Err × σ
  UpdateUserPassword : String → String → σ → Option Err × σ

end domain

open domain

/-! ## `messaging` and `event` -/

namespace messaging

/-- The interface `messaging.EventBus`. -/
structure EventBus (σ : Type) where
  Publish : String → String → σ → Option Err × σ

end messaging

namespace event

/-- The constant `event.ForgotPasswordSubject`. -/
def ForgotPasswordSubject : String := "auth.forgot_password"

structure ForgotPasswordEvent where
  Email : String
  Token : String
  ExpiredAt : Time
deriving DecidableEq, Repr

/-- The struct `event.Publisher`.  `marshal` stands for `json.Marshal` on a
`ForgotPasswordEvent` (library code): the encoded bytes and its error. -/
structure Publisher (σ : Type) where
  bus : messaging.EventBus σ
  marshal : ForgotPasswordEvent → String × Option Err

/-- The method `Publisher.ForgotPassword` (`event/publisher.go`). -/
def Publisher.ForgotPassword {σ : Type} (publisher : Publisher σ)
    (payload : ForgotPasswordEvent) (s : σ) : Option Err × σ :=
  match publisher.marshal payload with
  | (_, some err) => (some err, s)
  | (data, none) => publisher.bus.Publish ForgotPasswordSubject data s

end event

/-! ## `helper` -/

namespace helper

/-- The interface `helper.UUIDGeneratorInterface`. -/
structure UUIDGeneratorInterface (σ : Type) where
  GenerateID : σ → String × σ

end helper

/-! ## `usecase` -/

namespace usecase

/-- The interface `usecase.TokenService`.  `GenerateRefreshToken` returns
`(plain, hash, err)`. -/
structure TokenService (σ : Type) where
  GenerateAccessToken : String → String → σ → (String × Option Err) × σ
  GenerateRefreshToken : σ → (String × String × Option Err) × σ

/-- The interface `usecase.PasswordHasher`.  `VerifyPassword` and `HashToken`
return no error and are functions of their arguments. -/
structure PasswordHasher (σ : Type) where
  HashPassword : String → σ → (String × Option Err) × σ
  VerifyPassword : String → String → Bool
  GenerateRandomToken : σ → (String × Option Err) × σ
  HashToken : String → String

/-- The struct `usecase.AuthUsecase` with all its dependencies attached. -/
structure AuthUsecase (σ : Type) where
  repository : AuthRepository σ
  token : TokenService σ
  now : σ → Time × σ
  passwordHasher : PasswordHasher σ
  uuid : helper.UUIDGeneratorInterface σ
  eventPub : event.Publisher σ

/-- What a Go call ends in: it returns a value, or it panics (here always a
nil-pointer dereference). -/
inductive Outcome (α : Type) where
  | returned (a : α)
  | panicked
deriving DecidableEq, Repr

variable {σ : Type}

/-- The method `AuthUsecase.Register`. -/
def AuthUsecase.Register (usecase : AuthUsecase σ) (req : RegisterInput) (s : σ) :
    Option Err × σ :=
  match usecase.repository.FindUserByEmail req.Email s with
  | ((some _, _), s1) => (some Err.ErrEmailAlreadyUsed, s1)
  | ((none, _), s1) =>
    if req.Password ≠ req.PasswordConfirmation then
      (some Err.ErrPasswordNotMatch, s1)
    else
      match usecase.passwordHasher.HashPassword req.Password s1 with
      | ((_, some err), s2) => (some err, s2)
      | ((hash, none), s2) =>
        match usecase.uuid.GenerateID s2 with
        | (id, s3) =>
          match usecase.now s3 with
          | (createdAt, s4) =>
            match usecase.now s4 with
            | (updatedAt, s5) =>
              usecase.repository.CreateUser
                { ID := id
                  Name := req.Name
                  Email := req.Email
                  PasswordHash := hash
                  RoleID := RoleIDUser
                  CreatedAt := createdAt
                  UpdatedAt := updatedAt } s5

/-- The tail of `AuthUsecase.Login` and of `AuthUsecase.RefreshToken`: the
refresh-token row literal, whose fields Go evaluates in source order
(`GenerateID`, then three readings of `now`). -/
def newRefreshTokenRow (usecase : AuthUsecase σ) (userID tokenHash : String) (s : σ) :
    RefreshToken × σ :=
  match usecase.uuid.GenerateID s with
  | (id, s1) =>
    match usecase.now s1 with
    | (t1, s2) =>
      match usecase.now s2 with
      | (t2, s3) =>
        match usecase.now s3 with
        | (t3, s4) =>
          ({ ID := id
             UserID := userID
             TokenHash := tokenHash
             Revoked := false
             ExpiresAt := Time.Add t1 (Hour * 24 * 7)
             CreatedAt := t2
             UpdatedAt := t3 }, s4)

/-- The method `AuthUsecase.Login`. -/
def AuthUsecase.Login (usecase : AuthUsecase σ) (req : LoginInput) (s : σ) :
    (Option AuthOutput × Option Err) × σ :=
  match usecase.repository.FindUserByEmail req.Email s with
  | ((_, some _), s1) => ((none, some Err.ErrInvalidCredentials), s1)
  | ((none, none), s1) => ((none, some Err.ErrInvalidCredentials), s1)
  | ((some user, none), s1) =>
    if !usecase.passwordHasher.VerifyPassword req.Password user.PasswordHash then
      ((none, some Err.ErrInvalidCredentials), s1)
    else
      match usecase.token.GenerateAccessToken user.ID user.RoleID s1 with
      | ((_, some err), s2) => ((none, some err), s2)
      | ((accessToken, none), s2) =>
        match usecase.token.GenerateRefreshToken s2 with
        | ((_, _, some err), s3) => ((none, some err), s3)
        | ((refreshToken, refreshTokenHash, none), s3) =>
          match newRefreshTokenRow usecase user.ID refreshTokenHash s3 with
          | (row, s4) =>
            match usecase.repository.StoreRefreshToken row s4 with
            | (some err, s5) => ((none, some err), s5)
            | (none, s5) =>
              ((some { AccessToken := accessToken, RefreshToken := refreshToken }, none), s5)

/-- The method `AuthUsecase.RefreshToken`.  The results of
`RevokeRefreshToken` and of `StoreRefreshToken` are discarded, as in the
source. -/
def AuthUsecase.RefreshToken (usecase : AuthUsecase σ) (token : String) (s : σ) :
    (Option AuthOutput × Option Err) × σ :=
  match usecase.repository.FindValidRefreshToken (usecase.passwordHasher.HashToken token) s with
  | ((_, some _), s1) => ((none, some Err.ErrInvalidToken), s1)
  | ((none, none), s1) => ((none, some Err.ErrInvalidToken), s1)
  | ((some refreshToken, none), s1) =>
    match usecase.repository.RevokeRefreshToken refreshToken.TokenHash s1 with
    | (_, s2) =>
      match usecase.token.GenerateAccessToken refreshToken.UserID "" s2 with
      | ((_, some err), s3) => ((none, some err), s3)
      | ((accessToken, none), s3) =>
        match usecase.token.GenerateRefreshToken s3 with
        | ((_, _, some err), s4) => ((none, some err), s4)
        | ((plain, hashNew, none), s4) =>
          match newRefreshTokenRow usecase refreshToken.UserID hashNew s4 with
          | (row, s5) =>
            match usecase.repository.StoreRefreshToken row s5 with
            | (_, s6) =>
              ((some { AccessToken := accessToken, RefreshToken := plain }, none), s6)

/-- The method `AuthUsecase.ForgotPassword`.  The publisher's result is
discarded, as in the source. -/
def AuthUsecase.ForgotPassword (usecase : AuthUsecase σ) (email : String) (s : σ) :
    Option Err × σ :=
  match usecase.repository.FindUserByEmail email s with
  | ((_, some _), s1) => (some Err.ErrUserNotFound, s1)
  | ((none, none), s1) => (some Err.ErrUserNotFound, s1)
  | ((some user, none), s1) =>
    match usecase.passwordHasher.GenerateRandomToken s1 with
    | ((_, some err), s2) => (some err, s2)
    | ((token, none), s2) =>
      match usecase.uuid.GenerateID s2 with
      | (id, s3) =>
        match usecase.now s3 with
        | (t1, s4) =>
          match usecase.now s4 with
          | (t2, s5) =>
            match usecase.now s5 with
            | (t3, s6) =>
              match usecase.repository.StorePasswordReset
                  { ID := id
                    UserID := user.ID
                    TokenHash := usecase.passwordHasher.HashToken token
                    Used := false
                    ExpiresAt := Time.Add t1 (15 * Minute)
                    CreatedAt := t2
                    UpdatedAt := t3 } s6 with
              | (some err, s7) => (some err, s7)
              | (none, s7) =>
                match usecase.now s7 with
                | (t4, s8) =>
                  match usecase.eventPub.ForgotPassword
                      { Email := user.Email
                        Token := token
                        ExpiredAt := Time.Add t4 (15 * Minute) } s8 with
                  | (_, s9) => (none, s9)

/-- The method `AuthUsecase.ResetPassword`.  The assignment
`user.PasswordHash = hashedPassword` dereferences `user`; it panics when the
repository returned a nil user with a nil error.  The results of the three
store writes are discarded, as in the source. -/
def AuthUsecase.ResetPassword (usecase : AuthUsecase σ) (req : ResetPasswordInput) (s : σ) :
    Outcome (Option Err) × σ :=
  match usecase.repository.FindValidPasswordReset (usecase.passwordHasher.HashToken req.Token) s with
  | ((_, some _), s1) => (.returned (some Err.ErrInvalidToken), s1)
  | ((none, none), s1) => (.returned (some Err.ErrInvalidToken), s1)
  | ((some passwordReset, none), s1) =>
    match usecase.now s1 with
    | (now, s2) =>
      if Time.Before passwordReset.ExpiresAt now then
        (.returned (some Err.ErrPasswordResetExpired), s2)
      else if passwordReset.Used then
        (.returned (some Err.ErrPasswordResetUsed), s2)
      else
        match usecase.repository.FindUserByID passwordReset.UserID s2 with
        | ((_, some _), s3) => (.returned (some Err.ErrUserNotFound), s3)
        | ((user, none), s3) =>
          match usecase.passwordHasher.HashPassword req.NewPassword s3 with
          | ((_, some err), s4) => (.returned (some err), s4)
          | ((hashedPassword, none), s4) =>
            match user with
            | none => (.panicked, s4)
            | some user =>
              match usecase.repository.UpdateUserPassword user.ID hashedPassword s4 with
              | (_, s5) =>
                match usecase.repository.MarkPasswordResetUsed user.ID s5 with
                | (_, s6) =>
                  match usecase.repository.RevokeRefreshToken passwordReset.TokenHash s6 with
                  | (_, s7) => (.returned none, s7)

/-- The method `AuthUsecase.Logout`. -/
def AuthUsecase.Logout (usecase : AuthUsecase σ) (refreshToken : String) (s : σ) :
    Option Err × σ :=
  match usecase.repository.FindValidRefreshToken
      (usecase.passwordHasher.HashToken refreshToken) s with
  | ((_, some _), s1) => (some Err.ErrInvalidToken, s1)
  | ((none, none), s1) => (some Err.ErrInvalidToken, s1)
  | ((some _, none), s1) =>
    usecase.repository.RevokeRefreshToken (usecase.passwordHasher.HashToken refreshToken) s1

end usecase

/-! ## `helper/hasher.go` -/

namespace helper

/-- The alphabet of `hex.EncodeToString`. -/
def hextable : List Char := "0123456789abcdef".toList

/-- One hex digit. -/
def hexDigit (n : Nat) : Char := hextable.getD (n % 16) (Char.ofNat 48)

/-- The function `hex.EncodeToString`: two lowercase hex digits per byte, high
nibble first. -/
def hexEncodeToString (src : List Nat) : String :=
  String.mk (src.flatMap (fun b => [hexDigit (b / 16), hexDigit (b % 16)]))

/-- The alphabet of `base64.URLEncoding`. -/
def encodeURL : List Char :=
  "ABCDEFGHIJKLMNOPQRSTUVWXYZabcdefghijklmnopqrstuvwxyz0123456789-_".toList

/-- One base64 digit. -/
def base64Digit (n : Nat) : Char := encodeURL.getD (n % 64) (Char.ofNat 65)

/-- The method `base64.RawURLEncoding.EncodeToString`: four digits for every
three bytes, and no padding for a last group of one or two bytes. -/
def rawURLEncode : List Nat → List Char
  | a :: b :: c :: rest =>
    base64Digit (a / 4) :: base64Digit (a % 4 * 16 + b / 16) ::
      base64Digit (b % 16 * 4 + c / 64) :: base64Digit (c % 64) :: rawURLEncode rest
  | [a, b] => [base64Digit (a / 4), base64Digit (a % 4 * 16 + b / 16), base64Digit (b % 16 * 4)]
  | [a] => [base64Digit (a / 4), base64Digit (a % 4 * 16)]
  | [] => []

/-- The method `base64.URLEncoding.EncodeToString`: the same alphabet, and a
last group of one or two bytes padded with `=` to four characters. -/
def urlEncode : List Nat → List Char
  | a :: b :: c :: rest =>
    base64Digit (a / 4) :: base64Digit (a % 4 * 16 + b / 16) ::
      base64Digit (b % 16 * 4 + c / 64) :: base64Digit (c % 64) :: urlEncode rest
  | [a, b] =>
    [base64Digit (a / 4), base64Digit (a % 4 * 16 + b / 16), base64Digit (b % 16 * 4),
     Char.ofNat 61]
  | [a] => [base64Digit (a / 4), base64Digit (a % 4 * 16), Char.ofNat 61, Char.ofNat 61]
  | [] => []

/-- The library functions `helper.BcryptHasher` calls.  `randRead` is
`rand.Read` on a 32-byte buffer, `sha256Sum256` is `sha256.Sum256` on the
bytes of a string; both yield 32 bytes, as their Go types say. -/
structure Libraries (σ : Type) where
  bcryptGenerateFromPassword : String → σ → (String × Option Err) × σ
  bcryptCompareHashAndPassword : String → String → Option Err
  randRead : σ → ((Fin 32 → Nat) × Option Err) × σ
  sha256Sum256 : String → Fin 32 → Nat

/-- The struct `helper.BcryptHasher` with its four methods. -/
def BcryptHasher {σ : Type} (lib : Libraries σ) : usecase.PasswordHasher σ where
  HashPassword password s := lib.bcryptGenerateFromPassword password s
  VerifyPassword password hash := (lib.bcryptCompareHashAndPassword hash password).isNone
  GenerateRandomToken s :=
    match lib.randRead s with
    | ((_, some err), s1) => (("", some err), s1)
    | ((bytes, none), s1) => ((String.mk (rawURLEncode (List.ofFn bytes)), none), s1)
  HashToken token := hexEncodeToString (List.ofFn (lib.sha256Sum256 token))

end helper

/-! ## `infrastructure/token/service.go` -/

namespace token

/-- The claims `GenerateAccessToken` puts in the token: `sub`, `role`, and
`exp` and `iat` in Unix seconds. -/
structure MapClaims where
  sub : String
  role : String
  exp : Int
  iat : Int
deriving DecidableEq, Repr

/-- The library functions `token.Service` calls besides those of
`helper.Libraries`: `time.Now`, and `jwt.NewWithClaims(jwt.SigningMethodHS256,
claims).SignedString(secret)`. -/
structure Jwt (σ : Type) where
  timeNow : σ → Time × σ
  SignedString : String → MapClaims → σ → (String × Option Err) × σ

/-- The method `Time.Unix`: whole seconds. -/
def Unix (t : Time) : Int := t / 1000000000

/-- The struct `token.Service`. -/
structure Service where
  secret : String
  accessTokenTTL : Duration
  refreshTokenTTL : Duration
deriving DecidableEq, Repr

/-- The constructor `token.NewService`. -/
def NewService (secret : String) : Service :=
  { secret := secret
    accessTokenTTL := 15 * Minute
    refreshTokenTTL := 7 * 24 * Hour }

/-- The method `Service.GenerateAccessToken`: the clock is read for `exp`,
then for `iat`. -/
def Service.GenerateAccessToken {σ : Type} (s : Service) (jwt : Jwt σ) (userID role : String)
    (st : σ) : (String × Option Err) × σ :=
  match jwt.timeNow st with
  | (t1, st1) =>
    match jwt.timeNow st1 with
    | (t2, st2) =>
      jwt.SignedString s.secret
        { sub := userID
          role := role
          exp := Unix (Time.Add t1 s.accessTokenTTL)
          iat := Unix t2 } st2

/-- The method `Service.GenerateRefreshToken`: 32 random bytes in padded
base64url, and the hex SHA-256 of that text. -/
def Service.GenerateRefreshToken {σ : Type} (_s : Service) (lib : helper.Libraries σ) (st : σ) :
    (String × String × Option Err) × σ :=
  match lib.randRead st with
  | ((_, some err), st1) => (("", "", some err), st1)
  | ((bytes, none), st1) =>
    ((String.mk (helper.urlEncode (List.ofFn bytes)),
      helper.hexEncodeToString
        (List.ofFn (lib.sha256Sum256 (String.mk (helper.urlEncode (List.ofFn bytes))))),
      none), st1)

/-- The struct `token.Service` as a `usecase.TokenService`. -/
def Service.TokenService {σ : Type} (s : Service) (lib : helper.Libraries σ) (jwt : Jwt σ) :
    usecase.TokenService σ where
  GenerateAccessToken := s.GenerateAccessToken jwt
  GenerateRefreshToken := s.GenerateRefreshToken lib

end token

/-! ## `repository/postgres` -/

namespace postgres

/-- The database behind `postgres.AuthRepository`: the rows of the tables
`users`, `refresh_tokens` and `password_resets` in insertion order, and the
clock of the database server. -/
structure DB where
  users : List User
  refresh_tokens : List RefreshToken
  password_resets : List PasswordReset
  now : Time
deriving DecidableEq, Repr

namespace Query

/-- Modelled from the spec: the statement `CreateUser` of the embedded query
file (not under src/): "persists the user", one row added to `users`. -/
def CreateUser (user : User) (db : DB) : DB :=
  { db with users := db.users ++ [user] }

/-- Modelled from the spec: the statement `FindUserByEmail` of the embedded
query file (not under src/): the user with that email, if any. -/
def FindUserByEmail (email : String) (db : DB) : Option User :=
  db.users.find? (fun u => decide (u.Email = email))

/-- Modelled from the spec: the statement `FindUserByID` of the embedded
query file (not under src/): the user with that id, if any. -/
def FindUserByID (id : String) (db : DB) : Option User :=
  db.users.find? (fun u => decide (u.ID = id))

/-- Modelled from the spec: the statement `StoreRefreshToken` of the embedded
query file (not under src/): "persists the refresh-token row", one row
added to `refresh_tokens`. -/
def StoreRefreshToken (token : RefreshToken) (db : DB) : DB :=
  { db with refresh_tokens := db.refresh_tokens ++ [token] }

/-- Modelled from the spec: the statement `FindValidRefreshToken` of the
embedded query file (not under src/): "looks up a valid (non-revoked,
non-expired) refresh-token row" by lookup hash. -/
def FindValidRefreshToken (tokenHash : String) (db : DB) : Option RefreshToken :=
  db.refresh_tokens.find? (fun t =>
    decide (t.TokenHash = tokenHash) && !t.Revoked && Time.After t.ExpiresAt db.now)

/-- Modelled from the spec: the statement `RevokeRefreshToken` of the
embedded query file (not under src/): sets `revoked` on the rows with that
lookup hash; "revoking an already-revoked row is a no-op". -/
def RevokeRefreshToken (tokenHash : String) (db : DB) : DB :=
  { db with refresh_tokens := db.refresh_tokens.map (fun t =>
      if t.TokenHash = tokenHash then { t with Revoked := true } else t) }

/-- Modelled from the spec: the statement `RevokeAllRefreshTokens` of the
embedded query file (not under src/): sets `revoked` on every refresh-token
row of the user. -/
def RevokeAllRefreshTokens (userID : String) (db : DB) : DB :=
  { db with refresh_tokens := db.refresh_tokens.map (fun t =>
      if t.UserID = userID then { t with Revoked := true } else t) }

/-- Modelled from the spec: the statement `StorePasswordReset` of the
embedded query file (not under src/): "persists a PasswordReset row".  The
repository passes no `used` argument, so the row starts unused. -/
def StorePasswordReset (pr : PasswordReset) (db : DB) : DB :=
  { db with password_resets := db.password_resets ++ [{ pr with Used := false }] }

/-- Modelled from the spec: the statement `FindValidPasswordReset` of the
embedded query file (not under src/): "looks up a PasswordReset row by
lookup hash"; expiry and the used flag are left to the controller, which
checks them in that order. -/
def FindValidPasswordReset (tokenHash : String) (db : DB) : Option PasswordReset :=
  db.password_resets.find? (fun pr => decide (pr.TokenHash = tokenHash))

/-- Modelled from the spec: the statement `MarkPasswordResetUsed` of the
embedded query file (not under src/): `markPasswordResetUsed(id)` sets
`used` on the PasswordReset row whose id is `id`. -/
def MarkPasswordResetUsed (id : String) (db : DB) : DB :=
  { db with password_resets := db.password_resets.map (fun pr =>
      if pr.ID = id then { pr with Used := true } else pr) }

/-- Modelled from the spec: the statement `UpdateUserPassword` of the
embedded query file (not under src/): `updateUserPassword(userID, newHash)`
"updates the user's password hash". -/
def UpdateUserPassword (newHash userID : String) (db : DB) : DB :=
  { db with users := db.users.map (fun u =>
      if u.ID = userID then { u with PasswordHash := newHash } else u) }

end Query

/-- The error `sql.ErrNoRows`, which is none of the domain sentinels. -/
def ErrNoRows : Err := Err.other "sql: no rows in result set"

/-- One statement the repository sends to the database, with its arguments. -/
inductive Statement where
  | CreateUser (user : User)
  | FindUserByEmail (email : String)
  | FindUserByID (id : String)
  | StoreRefreshToken (token : RefreshToken)
  | FindValidRefreshToken (tokenHash : String)
  | RevokeRefreshToken (tokenHash : String)
  | RevokeAllRefreshTokens (userID : String)
  | StorePasswordReset (passwordReset : PasswordReset)
  | FindValidPasswordReset (tokenHash : String)
  | MarkPasswordResetUsed (id : String)
  | UpdateUserPassword (newHash userID : String)
deriving DecidableEq, Repr

/-- The handle `*sql.DB` of the repository.  `fault stmt db` is the error the
driver answers with when the statement does not run on the database `db`
(connection lost, constraint violated, a column that does not scan), and
`none` when the statement runs. -/
structure Conn where
  fault : Statement → DB → Option Err

/-- A handle on which every statement runs. -/
def Conn.healthy : Conn := { fault := fun _ _ => none }

/-- The method `db.ExecContext` as the repository uses it: the driver's error
and nothing written, or the statement's effect. -/
def Conn.Exec (conn : Conn) (stmt : Statement) (effect : DB → DB) (db : DB) : Option Err × DB :=
  match conn.fault stmt db with
  | some err => (some err, db)
  | none => (none, effect db)

/-- The calls `db.QueryRowContext(...).Scan(...)`: the driver's error,
`sql.ErrNoRows` when the statement selects no row, or the row. -/
def Conn.Scan {α : Type} (conn : Conn) (stmt : Statement) (row : Option α) (db : DB) :
    Except Err α :=
  match conn.fault stmt db with
  | some err => Except.error err
  | none =>
    match row with
    | none => Except.error ErrNoRows
    | some r => Except.ok r

/-- The method `AuthRepository.FindUserByEmail`: `sql.ErrNoRows` is
`(nil, nil)`, any other error is returned. -/
def FindUserByEmail (conn : Conn) (email : String) (db : DB) : (Option User × Option Err) × DB :=
  match conn.Scan (Statement.FindUserByEmail email) (Query.FindUserByEmail email db) db with
  | Except.error err => if err = ErrNoRows then ((none, none), db) else ((none, some err), db)
  | Except.ok user => ((some user, none), db)

/-- The method `AuthRepository.CreateUser`: the error of the lookup is
discarded, the error of the insert is returned. -/
def CreateUser (conn : Conn) (user : User) (db : DB) : Option Err × DB :=
  match FindUserByEmail conn user.Email db with
  | ((some _, _), db1) => (some Err.ErrEmailAlreadyUsed, db1)
  | ((none, _), db1) => conn.Exec (Statement.CreateUser user) (Query.CreateUser user) db1

/-- The method `AuthRepository.FindUserByID`: every error of `Scan`,
`sql.ErrNoRows` included, is returned. -/
def FindUserByID (conn : Conn) (id : String) (db : DB) : (Option User × Option Err) × DB :=
  match conn.Scan (Statement.FindUserByID id) (Query.FindUserByID id db) db with
  | Except.error err => ((none, some err), db)
  | Except.ok user => ((some user, none), db)

/-- The method `AuthRepository.StoreRefreshToken`. -/
def StoreRefreshToken (conn : Conn) (token : RefreshToken) (db : DB) : Option Err × DB :=
  conn.Exec (Statement.StoreRefreshToken token) (Query.StoreRefreshToken token) db

/-- The method `AuthRepository.FindValidRefreshToken`: `sql.ErrNoRows` is
`(nil, nil)`, any other error is returned. -/
def FindValidRefreshToken (conn : Conn) (tokenHash : String) (db : DB) :
    (Option RefreshToken × Option Err) × DB :=
  match conn.Scan (Statement.FindValidRefreshToken tokenHash)
      (Query.FindValidRefreshToken tokenHash db) db with
  | Except.error err => if err = ErrNoRows then ((none, none), db) else ((none, some err), db)
  | Except.ok token => ((some token, none), db)

/-- The method `AuthRepository.RevokeRefreshToken`. -/
def RevokeRefreshToken (conn : Conn) (tokenHash : String) (db : DB) : Option Err × DB :=
  conn.Exec (Statement.RevokeRefreshToken tokenHash) (Query.RevokeRefreshToken tokenHash) db

/-- The method `AuthRepository.RevokeAllRefreshTokens`. -/
def RevokeAllRefreshTokens (conn : Conn) (userID : String) (db : DB) : Option Err × DB :=
  conn.Exec (Statement.RevokeAllRefreshTokens userID) (Query.RevokeAllRefreshTokens userID) db

/-- The method `AuthRepository.StorePasswordReset`. -/
def StorePasswordReset (conn : Conn) (passwordReset : PasswordReset) (db : DB) :
    Option Err × DB :=
  conn.Exec (Statement.StorePasswordReset passwordReset)
    (Query.StorePasswordReset passwordReset) db

/-- The method `AuthRepository.FindValidPasswordReset`: `sql.ErrNoRows` is
`(nil, nil)`, any other error is returned. -/
def FindValidPasswordReset (conn : Conn) (tokenHash : String) (db : DB) :
    (Option PasswordReset × Option Err) × DB :=
  match conn.Scan (Statement.FindValidPasswordReset tokenHash)
      (Query.FindValidPasswordReset tokenHash db) db with
  | Except.error err => if err = ErrNoRows then ((none, none), db) else ((none, some err), db)
  | Except.ok passwordReset => ((some passwordReset, none), db)

/-- The method `AuthRepository.MarkPasswordResetUsed`. -/
def MarkPasswordResetUsed (conn : Conn) (id : String) (db : DB) : Option Err × DB :=
  conn.Exec (Statement.MarkPasswordResetUsed id) (Query.MarkPasswordResetUsed id) db

/-- The method `AuthRepository.UpdateUserPassword`: the statement takes the
hash first and the user id second. -/
def UpdateUserPassword (conn : Conn) (userID newHash : String) (db : DB) : Option Err × DB :=
  conn.Exec (Statement.UpdateUserPassword newHash userID)
    (Query.UpdateUserPassword newHash userID) db

end postgres

/-! ## Wiring (`cmd/grpc/main.go`) -/

/-- The state of the running service: the database, and the state `env` of
the other collaborators (random sources, wall clock, message bus). -/
structure World (γ : Type) where
  db : postgres.DB
  env : γ

/-- A repository call, seen on the whole service state. -/
def World.onDB {γ α : Type} (f : postgres.DB → α × postgres.DB) (w : World γ) : α × World γ :=
  ((f w.db).1, { w with db := (f w.db).2 })

/-- A call to any other collaborator, seen on the whole service state. -/
def World.onEnv {γ α : Type} (f : γ → α × γ) (w : World γ) : α × World γ :=
  ((f w.env).1, { w with env := (f w.env).2 })

/-- The constructor `postgres.NewAuthRepository` over the handle `conn`, as a
`domain.AuthRepository`. -/
def postgres.NewAuthRepository (γ : Type) (conn : postgres.Conn) : AuthRepository (World γ) where
  CreateUser user := World.onDB (postgres.CreateUser conn user)
  FindUserByEmail email := World.onDB (postgres.FindUserByEmail conn email)
  FindUserByID id := World.onDB (postgres.FindUserByID conn id)
  StoreRefreshToken token := World.onDB (postgres.StoreRefreshToken conn token)
  FindValidRefreshToken tokenHash := World.onDB (postgres.FindValidRefreshToken conn tokenHash)
  RevokeRefreshToken tokenHash := World.onDB (postgres.RevokeRefreshToken conn tokenHash)
  RevokeAllRefreshTokens userID := World.onDB (postgres.RevokeAllRefreshTokens conn userID)
  StorePasswordReset pr := World.onDB (postgres.StorePasswordReset conn pr)
  FindValidPasswordReset tokenHash := World.onDB (postgres.FindValidPasswordReset conn tokenHash)
  MarkPasswordResetUsed id := World.onDB (postgres.MarkPasswordResetUsed conn id)
  UpdateUserPassword userID newHash :=
    World.onDB (postgres.UpdateUserPassword conn userID newHash)

/-- The collaborators of the controller other than the repository, acting on
their own state `γ`. -/
structure Collaborators (γ : Type) where
  token : usecase.TokenService γ
  now : γ → Time × γ
  passwordHasher : usecase.PasswordHasher γ
  uuid : helper.UUIDGeneratorInterface γ
  eventPub : event.Publisher γ

/-- The value `authUC` of `main`, over the database handle `conn`: the
controller over the SQL repository. -/
def authUCOn {γ : Type} (conn : postgres.Conn) (c : Collaborators γ) :
    usecase.AuthUsecase (World γ) where
  repository := postgres.NewAuthRepository γ conn
  token :=
    { GenerateAccessToken := fun userID role => World.onEnv (c.token.GenerateAccessToken userID role)
      GenerateRefreshToken := World.onEnv c.token.GenerateRefreshToken }
  now := World.onEnv c.now
  passwordHasher :=
    { HashPassword := fun password => World.onEnv (c.passwordHasher.HashPassword password)
      VerifyPassword := c.passwordHasher.VerifyPassword
      GenerateRandomToken := World.onEnv c.passwordHasher.GenerateRandomToken
      HashToken := c.passwordHasher.HashToken }
  uuid := { GenerateID := World.onEnv c.uuid.GenerateID }
  eventPub :=
    { bus := { Publish := fun subject payload => World.onEnv (c.eventPub.bus.Publish subject payload) }
      marshal := c.eventPub.marshal }

/-- The value `authUC` of `main` while every statement runs on the database:
the controller over the SQL repository on a handle without faults. -/
def authUC {γ : Type} (c : Collaborators γ) : usecase.AuthUsecase (World γ) :=
  authUCOn postgres.Conn.healthy c

/-! ## `handler` -/

namespace handler

/-- The gRPC status codes the handlers use (`google.golang.org/grpc/codes`). -/
inductive Code where
  | InvalidArgument
  | AlreadyExists
  | Unauthenticated
  | PermissionDenied
  | Internal
deriving DecidableEq, Repr

/-- A gRPC error `status.Error(code, message)`. -/
structure Status where
  code : Code
  message : String
deriving DecidableEq, Repr

structure MessageResponse where
  Message : String
deriving DecidableEq, Repr

structure ForgotPasswordRequest where
  Email : String
deriving DecidableEq, Repr

/-- The interface `handler.AuthUsecaseInterface`. -/
structure AuthUsecaseInterface (σ : Type) where
  Register : RegisterInput → σ → Option Err × σ
  Login : LoginInput → σ → (Option AuthOutput × Option Err) × σ
  RefreshToken : String → σ → (Option AuthOutput × Option Err) × σ
  Logout : String → σ → Option Err × σ
  ForgotPassword : String → σ → Option Err × σ
  ResetPassword : ResetPasswordInput → σ → usecase.Outcome (Option Err) × σ

/-- The struct `handler.AuthHandler`. -/
structure AuthHandler (σ : Type) where
  authUC : AuthUsecaseInterface σ

/-- The method `AuthHandler.ForgotPassword`. -/
def AuthHandler.ForgotPassword {σ : Type} (h : AuthHandler σ) (req : ForgotPasswordRequest)
    (s : σ) : (Option MessageResponse × Option Status) × σ :=
  if req.Email = "" then
    ((none, some { code := Code.InvalidArgument, message := "email is required" }), s)
  else
    match h.authUC.ForgotPassword req.Email s with
    | (some Err.ErrUserNotFound, s1) =>
      ((some { Message := "If your email is registered, you will receive a password reset link" },
        none), s1)
    | (some _, s1) => ((none, some { code := Code.Internal, message := "internal error" }), s1)
    | (none, s1) =>
      ((some { Message := "If your email is registered, you will receive a password reset link" },
        none), s1)

structure RegisterRequest where
  Name : String
  Email : String
  Password : String
  PasswordConfirmation : String
deriving DecidableEq, Repr

structure LoginRequest where
  Email : String
  Password : String
deriving DecidableEq, Repr

structure RefreshRequest where
  RefreshToken : String
deriving DecidableEq, Repr

structure LogoutRequest where
  RefreshToken : String
deriving DecidableEq, Repr

structure ResetPasswordRequest where
  Token : String
  NewPassword : String
deriving DecidableEq, Repr

structure AuthResponse where
  AccessToken : String
  RefreshToken : String
deriving DecidableEq, Repr

/-- The method `AuthHandler.Register`. -/
def AuthHandler.Register {σ : Type} (h : AuthHandler σ) (req : RegisterRequest) (s : σ) :
    (Option MessageResponse × Option Status) × σ :=
  if req.Email = "" ∨ req.Password = "" then
    ((none, some { code := Code.InvalidArgument, message := "email and password required" }), s)
  else
    match h.authUC.Register
        { Name := req.Name, Email := req.Email, Password := req.Password,
          PasswordConfirmation := req.PasswordConfirmation } s with
    | (some Err.ErrUserAlreadyExists, s1) =>
      ((none, some { code := Code.AlreadyExists, message := Err.ErrUserAlreadyExists.Error }), s1)
    | (some Err.ErrEmailAlreadyUsed, s1) =>
      ((none, some { code := Code.AlreadyExists, message := Err.ErrEmailAlreadyUsed.Error }), s1)
    | (some Err.ErrPasswordNotMatch, s1) =>
      ((none, some { code := Code.InvalidArgument, message := Err.ErrPasswordNotMatch.Error }),
        s1)
    | (some _, s1) => ((none, some { code := Code.Internal, message := "internal error" }), s1)
    | (none, s1) => ((some { Message := "Registration successful" }, none), s1)

/-- The method `AuthHandler.Login`.  After a nil error the handler reads the
fields of `result`; it panics when the controller returned a nil result with
a nil error. -/
def AuthHandler.Login {σ : Type} (h : AuthHandler σ) (req : LoginRequest) (s : σ) :
    usecase.Outcome (Option AuthResponse × Option Status) × σ :=
  if req.Email = "" ∨ req.Password = "" then
    (.returned (none,
      some { code := Code.InvalidArgument, message := "email and password required" }), s)
  else
    match h.authUC.Login { Email := req.Email, Password := req.Password } s with
    | ((_, some Err.ErrInvalidCredentials), s1) =>
      (.returned (none,
        some { code := Code.Unauthenticated, message := Err.ErrInvalidCredentials.Error }), s1)
    | ((_, some _), s1) =>
      (.returned (none, some { code := Code.Internal, message := "internal error" }), s1)
    | ((none, none), s1) => (.panicked, s1)
    | ((some result, none), s1) =>
      (.returned (some { AccessToken := result.AccessToken,
                         RefreshToken := result.RefreshToken }, none), s1)

/-- The method `AuthHandler.Refresh`.  It panics when the controller returned
a nil result with a nil error. -/
def AuthHandler.Refresh {σ : Type} (h : AuthHandler σ) (req : RefreshRequest) (s : σ) :
    usecase.Outcome (Option AuthResponse × Option Status) × σ :=
  if req.RefreshToken = "" then
    (.returned (none,
      some { code := Code.InvalidArgument, message := "refresh token required" }), s)
  else
    match h.authUC.RefreshToken req.RefreshToken s with
    | ((_, some Err.ErrInvalidRefreshToken), s1) =>
      (.returned (none,
        some { code := Code.Unauthenticated, message := Err.ErrInvalidRefreshToken.Error }), s1)
    | ((_, some Err.ErrTokenExpired), s1) =>
      (.returned (none,
        some { code := Code.Unauthenticated, message := Err.ErrTokenExpired.Error }), s1)
    | ((_, some _), s1) =>
      (.returned (none, some { code := Code.Internal, message := "internal error" }), s1)
    | ((none, none), s1) => (.panicked, s1)
    | ((some result, none), s1) =>
      (.returned (some { AccessToken := result.AccessToken,
                         RefreshToken := result.RefreshToken }, none), s1)

/-- The method `AuthHandler.Logout`: every controller error is answered as an
internal error. -/
def AuthHandler.Logout {σ : Type} (h : AuthHandler σ) (req : LogoutRequest) (s : σ) :
    (Option MessageResponse × Option Status) × σ :=
  if req.RefreshToken = "" then
    ((none, some { code := Code.InvalidArgument, message := "refresh token required" }), s)
  else
    match h.authUC.Logout req.RefreshToken s with
    | (some _, s1) => ((none, some { code := Code.Internal, message := "internal error" }), s1)
    | (none, s1) => ((some { Message := "Logout successful" }, none), s1)

/-- The method `AuthHandler.ResetPassword`.  A panic of the controller is not
recovered by the handler. -/
def AuthHandler.ResetPassword {σ : Type} (h : AuthHandler σ) (req : ResetPasswordRequest)
    (s : σ) : usecase.Outcome (Option MessageResponse × Option Status) × σ :=
  if req.Token = "" ∨ req.NewPassword = "" then
    (.returned (none,
      some { code := Code.InvalidArgument, message := "token and new_password are required" }),
      s)
  else
    match h.authUC.ResetPassword { Token := req.Token, NewPassword := req.NewPassword } s with
    | (.panicked, s1) => (.panicked, s1)
    | (.returned (some Err.ErrInvalidToken), s1) =>
      (.returned (none,
        some { code := Code.InvalidArgument, message := Err.ErrInvalidToken.Error }), s1)
    | (.returned (some Err.ErrPasswordResetExpired), s1) =>
      (.returned (none,
        some { code := Code.InvalidArgument, message := Err.ErrPasswordResetExpired.Error }), s1)
    | (.returned (some Err.ErrPasswordResetUsed), s1) =>
      (.returned (none,
        some { code := Code.InvalidArgument, message := Err.ErrPasswordResetUsed.Error }), s1)
    | (.returned (some _), s1) =>
      (.returned (none, some { code := Code.Internal, message := "internal error" }), s1)
    | (.returned none, s1) =>
      (.returned (some { Message := "Password reset successful" }, none), s1)

/-- The constructor `handler.NewAuthHandler` applied to a controller, as
`main` does. -/
def NewAuthHandler {σ : Type} (authUC : usecase.AuthUsecase σ) : AuthHandler σ where
  authUC :=
    { Register := authUC.Register
      Login := authUC.Login
      RefreshToken := authUC.RefreshToken
      Logout := authUC.Logout
      ForgotPassword := authUC.ForgotPassword
      ResetPassword := authUC.ResetPassword }

end handler

/-! ## `domain/roles.go` and `middleware/auth` -/

namespace domain

/-- Role identifier of the admin role. -/
def RoleIDAdmin : String := "00000000-0000-0000-0000-000000000002"

/-- Role identifier of the super-admin role. -/
def RoleIDSuperAdmin : String := "00000000-0000-0000-0000-000000000003"

/-- The constant `RoleNameUser`. -/
def RoleNameUser : String := "user"

/-- The constant `RoleNameAdmin`. -/
def RoleNameAdmin : String := "admin"

/-- The constant `RoleNameSuperAdmin`. -/
def RoleNameSuperAdmin : String := "super_admin"

/-- The map `RoleIDToName`: the lookup `RoleIDToName[id]`, `none` when the
key is absent. -/
def RoleIDToName (id : String) : Option String :=
  if id = RoleIDUser then some RoleNameUser
  else if id = RoleIDAdmin then some RoleNameAdmin
  else if id = RoleIDSuperAdmin then some RoleNameSuperAdmin
  else none

end domain

namespace middleware

/-- A value carried by a `context.Context`: a string, or a value of some other
type. -/
inductive Value where
  | string (s : String)
  | other
deriving DecidableEq, Repr

/-- A `context.Context`, as far as this package reads it: what `ctx.Value`
returns under the keys `userIDKey` and `roleKey` (`none` is the nil
interface). -/
structure Context where
  user_id : Option Value
  role : Option Value
deriving DecidableEq, Repr

/-- The function `WithUser`. -/
def WithUser (ctx : Context) (userID role : String) : Context :=
  { { ctx with user_id := some (Value.string userID) } with role := some (Value.string role) }

/-- The function `FromContext`: both values must be strings. -/
def FromContext (ctx : Context) : String × String × Bool :=
  match ctx.user_id, ctx.role with
  | some (Value.string userID), some (Value.string role) => (userID, role, true)
  | _, _ => ("", "", false)

/-- The loop of `RequireRole` over `allowedRoles`. -/
def RequireRole.loop (roleName : String) : List String → Option handler.Status
  | [] => some { code := handler.Code.PermissionDenied, message := "forbidden" }
  | r :: rest => if roleName = r then none else RequireRole.loop roleName rest

/-- The function `RequireRole(allowedRoles...)`, applied to a context. -/
def RequireRole (allowedRoles : List String) (ctx : Context) : Option handler.Status :=
  match FromContext ctx with
  | (_, _, false) => some { code := handler.Code.Unauthenticated, message := "unauthorized" }
  | (_, roleID, true) =>
    match RoleIDToName roleID with
    | none => some { code := handler.Code.PermissionDenied, message := "invalid role id" }
    | some roleName => RequireRole.loop roleName allowedRoles

end middleware

/-! ## Test doubles (`usecase/auth_usecase_test.go`) -/

namespace mock

/-- The struct `mockEventBus`: the last published subject and payload. -/
structure mockEventBus where
  publishedSubject : String
  publishedData : String
deriving DecidableEq, Repr

/-- The defaults of `mockTokenService`. -/
def mockTokenService : usecase.TokenService mockEventBus where
  GenerateAccessToken userID _ g := (("access-token-" ++ userID, none), g)
  GenerateRefreshToken g := (("refresh-token-plain", "refresh-token-hash", none), g)

/-- The defaults of `mockPasswordHasher`. -/
def mockPasswordHasher : usecase.PasswordHasher mockEventBus where
  HashPassword password g := (("hashed-" ++ password, none), g)
  VerifyPassword password hash := decide (hash = "hashed-" ++ password)
  GenerateRandomToken g := (("random-token", none), g)
  HashToken token := "sha256-" ++ token

/-- The clock of `setupTestUsecase`: 2024-01-01 00:00:00 UTC. -/
def fixedTime : Time := 1704067200 * 1000000000

/-- The collaborators of `setupTestUsecase`, with the event bus of the
forgot-password test; the payload encoding is a stand-in for `json.Marshal`. -/
def collaborators : Collaborators mockEventBus where
  token := mockTokenService
  now g := (fixedTime, g)
  passwordHasher := mockPasswordHasher
  uuid := { GenerateID := fun g => ("test-uuid-123", g) }
  eventPub :=
    { bus := { Publish := fun subject payload _ =>
        (none, { publishedSubject := subject, publishedData := payload }) }
      marshal := fun e => (e.Email ++ " " ++ e.Token, none) }

/-- An event bus on which nothing was published. -/
def bus0 : mockEventBus := { publishedSubject := "", publishedData := "" }

/-- A publisher whose bus is down: every `Publish` returns an error and
delivers nothing. -/
def failingPublisher (σ : Type) : event.Publisher σ where
  bus := { Publish := fun _ _ s => (some (Err.other "nats: no servers available"), s) }
  marshal := fun e => (e.Email ++ " " ++ e.Token, none)

/-- The struct `mockAuthUsecase` of the handler tests, with every function set
to return `err` (`errors.New("database error")` in the "internal error"
tests). -/
def mockAuthUsecase (err : Option Err) : handler.AuthUsecaseInterface Unit where
  Register _ s := (err, s)
  Login _ s := ((none, err), s)
  RefreshToken _ s := ((none, err), s)
  Logout _ s := (err, s)
  ForgotPassword _ s := (err, s)
  ResetPassword _ s := (usecase.Outcome.returned err, s)

/-- The SQL repository while the database refuses writes: the four update
statements return the driver's error and change nothing. -/
def brokenWrites (γ : Type) : AuthRepository (World γ) :=
  { postgres.NewAuthRepository γ postgres.Conn.healthy with
    RevokeRefreshToken := fun _ w => (some (Err.other "database error"), w)
    StoreRefreshToken := fun _ w => (some (Err.other "database error"), w)
    UpdateUserPassword := fun _ _ w => (some (Err.other "database error"), w)
    MarkPasswordResetUsed := fun _ w => (some (Err.other "database error"), w) }

/-- A repository that reports a missing user as the empty result, nil user
with nil error, also from `FindUserByID` (as `FindUserByEmail` does). -/
def emptyResult (γ : Type) : AuthRepository (World γ) :=
  { postgres.NewAuthRepository γ postgres.Conn.healthy with
    FindUserByID := fun id =>
      World.onDB (fun db => ((postgres.Query.FindUserByID id db, none), db)) }

/-- A database handle on which the two writes to `refresh_tokens` fail: the
driver answers `RevokeRefreshToken` and `StoreRefreshToken` with an error,
and every other statement runs. -/
def tokenWritesFail : postgres.Conn where
  fault
    | postgres.Statement.RevokeRefreshToken _, _ => some (Err.other "driver: bad connection")
    | postgres.Statement.StoreRefreshToken _, _ => some (Err.other "driver: bad connection")
    | _, _ => none

/-- The test doubles with an issuer whose access-token signing fails. -/
def failingAccessToken : Collaborators mockEventBus :=
  { collaborators with
    token :=
      { GenerateAccessToken := fun _ _ g => (("", some (Err.other "signing failed")), g)
        GenerateRefreshToken := mockTokenService.GenerateRefreshToken } }

/-- The test doubles with an issuer whose random source fails when a refresh
token is generated. -/
def failingRefreshToken : Collaborators mockEventBus :=
  { collaborators with
    token :=
      { GenerateAccessToken := mockTokenService.GenerateAccessToken
        GenerateRefreshToken := fun g => (("", "", some (Err.other "entropy failed")), g) } }

/-- The user of the login tests. -/
def user123 : User :=
  { ID := "user-123", Name := "Test User", Email := "test@example.com",
    PasswordHash := "hashed-password123", RoleID := "user",
    CreatedAt := fixedTime, UpdatedAt := fixedTime }

/-- A live refresh token of `user123` for the plaintext `valid-refresh-token`. -/
def token123 : RefreshToken :=
  { ID := "token-123", UserID := "user-123", TokenHash := "sha256-valid-refresh-token",
    Revoked := false, ExpiresAt := fixedTime + 24 * Hour,
    CreatedAt := fixedTime, UpdatedAt := fixedTime }

/-- A pending password reset of `user123` for the plaintext `valid-token`. -/
def reset123 : PasswordReset :=
  { ID := "reset-123", UserID := "user-123", TokenHash := "sha256-valid-token",
    Used := false, ExpiresAt := fixedTime + 1 * Hour,
    CreatedAt := fixedTime, UpdatedAt := fixedTime }

/-- A service state with one user, one live refresh token and one pending
password reset. -/
def world0 : World mockEventBus :=
  { db := { users := [user123], refresh_tokens := [token123],
            password_resets := [reset123], now := fixedTime }
    env := bus0 }

end mock

/-! ## A counting issuer -/

namespace counting

/-- The plaintext of the `n`-th refresh token of the counting issuer. -/
def plain (n : Nat) : String := "rt-" ++ String.mk (List.replicate n (Char.ofNat 120))

/-- Collaborators whose state is the number of refresh tokens issued so far.
The issuer returns a different plaintext at every call, with the lookup hash
the hasher computes for it; the rest behaves as the test doubles do. -/
def collaborators : Collaborators Nat where
  token :=
    { GenerateAccessToken := fun userID _ n => (("access-token-" ++ userID, none), n)
      GenerateRefreshToken := fun n => ((plain n, "sha256-" ++ plain n, none), n + 1) }
  now n := (mock.fixedTime, n)
  passwordHasher :=
    { HashPassword := fun password n => (("hashed-" ++ password, none), n)
      VerifyPassword := fun password hash => decide (hash = "hashed-" ++ password)
      GenerateRandomToken := fun n => (("random-token", none), n)
      HashToken := fun token => "sha256-" ++ token }
  uuid := { GenerateID := fun n => ("test-uuid-123", n) }
  eventPub :=
    { bus := { Publish := fun _ _ n => (none, n) }
      marshal := fun e => (e.Email ++ " " ++ e.Token, none) }

/-- Stand-ins for the libraries, for running `helper.BcryptHasher` and
`token.Service`: the random source yields the bytes `n, n + 1, ...` at its
`n`-th call, the digest is a function of the length of the text, and the
password check accepts `hashed-` followed by the password. -/
def libraries : helper.Libraries Nat where
  bcryptGenerateFromPassword password n := (("hashed-" ++ password, none), n)
  bcryptCompareHashAndPassword hash password :=
    if hash = "hashed-" ++ password then none else some (Err.other "mismatch")
  randRead n := ((fun i => (n + i.val) % 256, none), n + 1)
  sha256Sum256 text := fun i => (text.length * 7 + i.val * 13) % 256

/-- Stand-ins for the clock and the signer of `token.Service`. -/
def jwt : token.Jwt Nat where
  timeNow n := (mock.fixedTime, n)
  SignedString _ claims n := (("jwt." ++ claims.sub ++ "." ++ claims.role, none), n)

/-- The collaborators as `main` sets them, `token.NewService(jwtSecret)` and
`&helper.BcryptHasher{}`, over the stand-in libraries. -/
def wired : Collaborators Nat :=
  { collaborators with
    token := (token.NewService "secret").TokenService libraries jwt
    passwordHasher := helper.BcryptHasher libraries }

/-- A service state with one user and no token issued yet. -/
def world0 : World Nat :=
  { db := { users := [mock.user123], refresh_tokens := [], password_resets := [],
            now := mock.fixedTime }
    env := 0 }

end counting

/-! ## Histories of the running service -/

/-- One thing that happens to the running service: a call of one of the six
controller operations, or the clock of the database moving to a new reading. -/
inductive Call where
  | Register (req : RegisterInput)
  | Login (req : LoginInput)
  | RefreshToken (token : String)
  | Logout (refreshToken : String)
  | ForgotPassword (email : String)
  | ResetPassword (req : ResetPasswordInput)
  | Tick (now : Time)
deriving DecidableEq, Repr

/-- The service state after one `Call`. -/
def Call.exec {γ : Type} (c : Collaborators γ) : Call → World γ → World γ
  | .Register req, w => ((authUC c).Register req w).2
  | .Login req, w => ((authUC c).Login req w).2
  | .RefreshToken token, w => ((authUC c).RefreshToken token w).2
  | .Logout refreshToken, w => ((authUC c).Logout refreshToken w).2
  | .ForgotPassword email, w => ((authUC c).ForgotPassword email w).2
  | .ResetPassword req, w => ((authUC c).ResetPassword req w).2
  | .Tick now, w => { w with db := { w.db with now := now } }

/-- The service state after a history of calls, oldest first. -/
def run {γ : Type} (c : Collaborators γ) (calls : List Call) (w : World γ) : World γ :=
  calls.foldl (fun w call => call.exec c w) w

/-- The controller as one request sees it while a second request is served:
the whole second request, `other`, takes place between this request's lookup
`FindValidRefreshToken` and its next statement, `RevokeRefreshToken`. -/
def usecase.AuthUsecase.overlappedBy {σ : Type} (uc : usecase.AuthUsecase σ) (other : σ → σ) :
    usecase.AuthUsecase σ :=
  { uc with
    repository :=
      { uc.repository with
        RevokeRefreshToken := fun tokenHash s =>
          uc.repository.RevokeRefreshToken tokenHash (other s) } }

/-- Every refresh-token row stored under the lookup hash `h` is revoked. -/
def postgres.DB.AllRevoked (h : String) (db : postgres.DB) : Prop :=
  ∀ t ∈ db.refresh_tokens, t.TokenHash = h → t.Revoked = true

instance (h : String) (db : postgres.DB) : Decidable (db.AllRevoked h) := by
  unfold postgres.DB.AllRevoked
  infer_instance

/-- The predicate `I` on the collaborators' state is kept by every call the
controller can make to a collaborator other than the repository. -/
structure Collaborators.Keeps {γ : Type} (c : Collaborators γ) (I : γ → Prop) : Prop where
  GenerateAccessToken : ∀ userID role g, I g → I (c.token.GenerateAccessToken userID role g).2
  GenerateRefreshToken : ∀ g, I g → I (c.token.GenerateRefreshToken g).2
  now : ∀ g, I g → I (c.now g).2
  HashPassword : ∀ password g, I g → I (c.passwordHasher.HashPassword password g).2
  GenerateRandomToken : ∀ g, I g → I (c.passwordHasher.GenerateRandomToken g).2
  GenerateID : ∀ g, I g → I (c.uuid.GenerateID g).2
  Publish : ∀ subject payload g, I g → I (c.eventPub.bus.Publish subject payload g).2

/-- The predicate `P` on the service state is kept by every collaborator call
the controller can make; for `StoreRefreshToken` only when the row carries a
lookup hash that the issuer returned in a state satisfying `P`. -/
structure usecase.AuthUsecase.Keeps {σ : Type} (uc : usecase.AuthUsecase σ) (P : σ → Prop) :
    Prop where
  CreateUser : ∀ user s, P s → P (uc.repository.CreateUser user s).2
  FindUserByEmail : ∀ email s, P s → P (uc.repository.FindUserByEmail email s).2
  FindUserByID : ∀ id s, P s → P (uc.repository.FindUserByID id s).2
  StoreRefreshToken : ∀ s0 row s, P s0 → P s →
    row.TokenHash = (uc.token.GenerateRefreshToken s0).1.2.1 →
    P (uc.repository.StoreRefreshToken row s).2
  FindValidRefreshToken : ∀ tokenHash s, P s → P (uc.repository.FindValidRefreshToken tokenHash s).2
  RevokeRefreshToken : ∀ tokenHash s, P s → P (uc.repository.RevokeRefreshToken tokenHash s).2
  StorePasswordReset : ∀ pr s, P s → P (uc.repository.StorePasswordReset pr s).2
  FindValidPasswordReset : ∀ tokenHash s, P s →
    P (uc.repository.FindValidPasswordReset tokenHash s).2
  MarkPasswordResetUsed : ∀ id s, P s → P (uc.repository.MarkPasswordResetUsed id s).2
  UpdateUserPassword : ∀ userID newHash s, P s →
    P (uc.repository.UpdateUserPassword userID newHash s).2
  GenerateAccessToken : ∀ userID role s, P s → P (uc.token.GenerateAccessToken userID role s).2
  GenerateRefreshToken : ∀ s, P s → P (uc.token.GenerateRefreshToken s).2
  now : ∀ s, P s → P (uc.now s).2
  HashPassword : ∀ password s, P s → P (uc.passwordHasher.HashPassword password s).2
  GenerateRandomToken : ∀ s, P s → P (uc.passwordHasher.GenerateRandomToken s).2
  GenerateID : ∀ s, P s → P (uc.uuid.GenerateID s).2
  Publish : ∀ subject payload s, P s → P (uc.eventPub.bus.Publish subject payload s).2

/-! ## Call traces -/

/-- One call of the controller to a collaborator, with the arguments passed:
the eleven methods of `domain.AuthRepository`, the two of `TokenService`, the
clock, the two effectful methods of `PasswordHasher`, the id generator and
`EventBus.Publish`. -/
inductive Invocation where
  | CreateUser (user : User)
  | FindUserByEmail (email : String)
  | FindUserByID (id : String)
  | StoreRefreshToken (token : RefreshToken)
  | FindValidRefreshToken (tokenHash : String)
  | RevokeRefreshToken (tokenHash : String)
  | RevokeAllRefreshTokens (userID : String)
  | StorePasswordReset (pr : PasswordReset)
  | FindValidPasswordReset (tokenHash : String)
  | MarkPasswordResetUsed (id : String)
  | UpdateUserPassword (userID newHash : String)
  | GenerateAccessToken (userID role : String)
  | GenerateRefreshToken
  | now
  | HashPassword (password : String)
  | GenerateRandomToken
  | GenerateID
  | Publish (subject payload : String)
deriving DecidableEq, Repr

/-- Whether the call goes to the repository (the credential store). -/
def Invocation.isStore : Invocation → Bool
  | .CreateUser _ => true
  | .FindUserByEmail _ => true
  | .FindUserByID _ => true
  | .StoreRefreshToken _ => true
  | .FindValidRefreshToken _ => true
  | .RevokeRefreshToken _ => true
  | .RevokeAllRefreshTokens _ => true
  | .StorePasswordReset _ => true
  | .FindValidPasswordReset _ => true
  | .MarkPasswordResetUsed _ => true
  | .UpdateUserPassword _ _ => true
  | _ => false

/-- Whether the call is a publish on the event bus. -/
def Invocation.isPublish : Invocation → Bool
  | .Publish _ _ => true
  | _ => false

/-- The text arguments of a call; a row argument contributes its text
columns. -/
def Invocation.strings : Invocation → List String
  | .CreateUser user => [user.ID, user.Name, user.Email, user.PasswordHash, user.RoleID]
  | .FindUserByEmail email => [email]
  | .FindUserByID id => [id]
  | .StoreRefreshToken token => [token.ID, token.UserID, token.TokenHash]
  | .FindValidRefreshToken tokenHash => [tokenHash]
  | .RevokeRefreshToken tokenHash => [tokenHash]
  | .RevokeAllRefreshTokens userID => [userID]
  | .StorePasswordReset pr => [pr.ID, pr.UserID, pr.TokenHash]
  | .FindValidPasswordReset tokenHash => [tokenHash]
  | .MarkPasswordResetUsed id => [id]
  | .UpdateUserPassword userID newHash => [userID, newHash]
  | .GenerateAccessToken userID role => [userID, role]
  | .GenerateRefreshToken => []
  | .now => []
  | .HashPassword password => [password]
  | .GenerateRandomToken => []
  | .GenerateID => []
  | .Publish subject payload => [subject, payload]

/-- A collaborator call that also appends itself to the trace. -/
def record {σ α : Type} (call : Invocation) (f : σ → α × σ) (sl : σ × List Invocation) :
    α × (σ × List Invocation) :=
  ((f sl.1).1, ((f sl.1).2, sl.2 ++ [call]))

/-- The controller `uc` with every collaborator call recorded: the state
carries, next to the state of `uc`, the trace of the calls made so far, oldest
first.  The collaborators answer exactly as they do for `uc`. -/
def usecase.AuthUsecase.traced {σ : Type} (uc : usecase.AuthUsecase σ) :
    usecase.AuthUsecase (σ × List Invocation) where
  repository :=
    { CreateUser := fun user => record (.CreateUser user) (uc.repository.CreateUser user)
      FindUserByEmail := fun email =>
        record (.FindUserByEmail email) (uc.repository.FindUserByEmail email)
      FindUserByID := fun id => record (.FindUserByID id) (uc.repository.FindUserByID id)
      StoreRefreshToken := fun token =>
        record (.StoreRefreshToken token) (uc.repository.StoreRefreshToken token)
      FindValidRefreshToken := fun tokenHash =>
        record (.FindValidRefreshToken tokenHash) (uc.repository.FindValidRefreshToken tokenHash)
      RevokeRefreshToken := fun tokenHash =>
        record (.RevokeRefreshToken tokenHash) (uc.repository.RevokeRefreshToken tokenHash)
      RevokeAllRefreshTokens := fun userID =>
        record (.RevokeAllRefreshTokens userID) (uc.repository.RevokeAllRefreshTokens userID)
      StorePasswordReset := fun pr =>
        record (.StorePasswordReset pr) (uc.repository.StorePasswordReset pr)
      FindValidPasswordReset := fun tokenHash =>
        record (.FindValidPasswordReset tokenHash)
          (uc.repository.FindValidPasswordReset tokenHash)
      MarkPasswordResetUsed := fun id =>
        record (.MarkPasswordResetUsed id) (uc.repository.MarkPasswordResetUsed id)
      UpdateUserPassword := fun userID newHash =>
        record (.UpdateUserPassword userID newHash)
          (uc.repository.UpdateUserPassword userID newHash) }
  token :=
    { GenerateAccessToken := fun userID role =>
        record (.GenerateAccessToken userID role) (uc.token.GenerateAccessToken userID role)
      GenerateRefreshToken := record .GenerateRefreshToken uc.token.GenerateRefreshToken }
  now := record .now uc.now
  passwordHasher :=
    { HashPassword := fun password =>
        record (.HashPassword password) (uc.passwordHasher.HashPassword password)
      VerifyPassword := uc.passwordHasher.VerifyPassword
      GenerateRandomToken := record .GenerateRandomToken uc.passwordHasher.GenerateRandomToken
      HashToken := uc.passwordHasher.HashToken }
  uuid := { GenerateID := record .GenerateID uc.uuid.GenerateID }
  eventPub :=
    { bus :=
        { Publish := fun subject payload =>
            record (.Publish subject payload) (uc.eventPub.bus.Publish subject payload) }
      marshal := uc.eventPub.marshal }

/-! ## Theorems -/

/-! ### The repository on a handle without faults -/

section healthy_store

theorem postgres.FindUserByEmail_healthy (email : String) (db : postgres.DB) :
    postgres.FindUserByEmail postgres.Conn.healthy email db
      = match postgres.Query.FindUserByEmail email db with
        | none => ((none, none), db)
        | some user => ((some user, none), db) := by
  cases h : postgres.Query.FindUserByEmail email db <;>
    simp [postgres.FindUserByEmail, postgres.Conn.Scan, postgres.Conn.healthy, h]

theorem postgres.CreateUser_healthy (user : User) (db : postgres.DB) :
    postgres.CreateUser postgres.Conn.healthy user db
      = match postgres.FindUserByEmail postgres.Conn.healthy user.Email db with
        | ((some _, _), db1) => (some Err.ErrEmailAlreadyUsed, db1)
        | ((none, _), db1) => (none, postgres.Query.CreateUser user db1) := by
  rfl

theorem postgres.FindUserByID_healthy (id : String) (db : postgres.DB) :
    postgres.FindUserByID postgres.Conn.healthy id db
      = match postgres.Query.FindUserByID id db with
        | none => ((none, some postgres.ErrNoRows), db)
        | some user => ((some user, none), db) := by
  cases h : postgres.Query.FindUserByID id db <;>
    simp [postgres.FindUserByID, postgres.Conn.Scan, postgres.Conn.healthy, h]

theorem postgres.StoreRefreshToken_healthy (token : RefreshToken) (db : postgres.DB) :
    postgres.StoreRefreshToken postgres.Conn.healthy token db
      = (none, postgres.Query.StoreRefreshToken token db) := rfl

theorem postgres.FindValidRefreshToken_healthy (tokenHash : String) (db : postgres.DB) :
    postgres.FindValidRefreshToken postgres.Conn.healthy tokenHash db
      = match postgres.Query.FindValidRefreshToken tokenHash db with
        | none => ((none, none), db)
        | some token => ((some token, none), db) := by
  cases h : postgres.Query.FindValidRefreshToken tokenHash db <;>
    simp [postgres.FindValidRefreshToken, postgres.Conn.Scan, postgres.Conn.healthy, h]

theorem postgres.RevokeRefreshToken_healthy (tokenHash : String) (db : postgres.DB) :
    postgres.RevokeRefreshToken postgres.Conn.healthy tokenHash db
      = (none, postgres.Query.RevokeRefreshToken tokenHash db) := rfl

theorem postgres.RevokeAllRefreshTokens_healthy (userID : String) (db : postgres.DB) :
    postgres.RevokeAllRefreshTokens postgres.Conn.healthy userID db
      = (none, postgres.Query.RevokeAllRefreshTokens userID db) := rfl

theorem postgres.StorePasswordReset_healthy (passwordReset : PasswordReset)
    (db : postgres.DB) :
    postgres.StorePasswordReset postgres.Conn.healthy passwordReset db
      = (none, postgres.Query.StorePasswordReset passwordReset db) := rfl

theorem postgres.FindValidPasswordReset_healthy (tokenHash : String) (db : postgres.DB) :
    postgres.FindValidPasswordReset postgres.Conn.healthy tokenHash db
      = match postgres.Query.FindValidPasswordReset tokenHash db with
        | none => ((none, none), db)
        | some passwordReset => ((some passwordReset, none), db) := by
  cases h : postgres.Query.FindValidPasswordReset tokenHash db <;>
    simp [postgres.FindValidPasswordReset, postgres.Conn.Scan, postgres.Conn.healthy, h]

theorem postgres.MarkPasswordResetUsed_healthy (id : String) (db : postgres.DB) :
    postgres.MarkPasswordResetUsed postgres.Conn.healthy id db
      = (none, postgres.Query.MarkPasswordResetUsed id db) := rfl

theorem postgres.UpdateUserPassword_healthy (userID newHash : String) (db : postgres.DB) :
    postgres.UpdateUserPassword postgres.Conn.healthy userID newHash db
      = (none, postgres.Query.UpdateUserPassword newHash userID db) := rfl

end healthy_store

section invariants

variable {σ γ : Type}

open usecase

theorem newRefreshTokenRow_TokenHash (uc : AuthUsecase σ) (userID tokenHash : String) (s : σ) :
    (newRefreshTokenRow uc userID tokenHash s).1.TokenHash = tokenHash := rfl

theorem newRefreshTokenRow_keeps {uc : AuthUsecase σ} {P : σ → Prop} (hP : uc.Keeps P)
    (userID tokenHash : String) (s : σ) (hs : P s) :
    P (newRefreshTokenRow uc userID tokenHash s).2 :=
  hP.now _ (hP.now _ (hP.now _ (hP.GenerateID _ hs)))

theorem Register_keeps {uc : AuthUsecase σ} {P : σ → Prop} (hP : uc.Keeps P)
    (req : RegisterInput) (s : σ) (hs : P s) : P (uc.Register req s).2 := by
  unfold AuthUsecase.Register
  have h1 := hP.FindUserByEmail req.Email s hs
  generalize uc.repository.FindUserByEmail req.Email s = r1 at h1 ⊢
  rcases r1 with ⟨⟨_ | user, e⟩, s1⟩
  · simp only
    split
    · exact h1
    · have h2 := hP.HashPassword req.Password s1 h1
      generalize uc.passwordHasher.HashPassword req.Password s1 = r2 at h2 ⊢
      rcases r2 with ⟨⟨hash, _ | err⟩, s2⟩
      · exact hP.CreateUser _ _ (hP.now _ (hP.now _ (hP.GenerateID _ h2)))
      · exact h2
  · exact h1

theorem Login_keeps {uc : AuthUsecase σ} {P : σ → Prop} (hP : uc.Keeps P)
    (req : LoginInput) (s : σ) (hs : P s) : P (uc.Login req s).2 := by
  unfold AuthUsecase.Login
  have h1 := hP.FindUserByEmail req.Email s hs
  generalize uc.repository.FindUserByEmail req.Email s = r1 at h1 ⊢
  rcases r1 with ⟨⟨_ | user, _ | e⟩, s1⟩
  · exact h1
  · exact h1
  · simp only
    split
    · exact h1
    · have h2 := hP.GenerateAccessToken user.ID user.RoleID s1 h1
      generalize uc.token.GenerateAccessToken user.ID user.RoleID s1 = r2 at h2 ⊢
      rcases r2 with ⟨⟨accessToken, _ | err⟩, s2⟩
      · simp only
        have h3 := hP.GenerateRefreshToken s2 h2
        have hh : ∀ row s, P s → row.TokenHash = (uc.token.GenerateRefreshToken s2).1.2.1 →
            P (uc.repository.StoreRefreshToken row s).2 :=
          fun row s hs hrow => hP.StoreRefreshToken s2 row s h2 hs hrow
        generalize uc.token.GenerateRefreshToken s2 = r3 at h3 hh ⊢
        rcases r3 with ⟨⟨plain, hash, _ | err⟩, s3⟩
        · have h4 := hh _ _ (newRefreshTokenRow_keeps hP user.ID hash s3 h3)
            (newRefreshTokenRow_TokenHash uc user.ID hash s3)
          simp only
          generalize uc.repository.StoreRefreshToken _ _ = r4 at h4 ⊢
          rcases r4 with ⟨_ | err, s5⟩
          · exact h4
          · exact h4
        · exact h3
      · exact h2
  · exact h1

/-- The part of `RefreshToken` after a row was found: it keeps any predicate
that holds once the row is revoked. -/
theorem RefreshToken_keeps_of_found {uc : AuthUsecase σ} {P : σ → Prop} (hP : uc.Keeps P)
    (token : String) (s s1 : σ) (refreshToken : RefreshToken)
    (hfind : uc.repository.FindValidRefreshToken (uc.passwordHasher.HashToken token) s
      = ((some refreshToken, none), s1))
    (h1 : P (uc.repository.RevokeRefreshToken refreshToken.TokenHash s1).2) :
    P (uc.RefreshToken token s).2 := by
  unfold AuthUsecase.RefreshToken
  rw [hfind]
  simp only
  have h2 := hP.GenerateAccessToken refreshToken.UserID "" _ h1
  generalize uc.token.GenerateAccessToken refreshToken.UserID ""
    (uc.repository.RevokeRefreshToken refreshToken.TokenHash s1).2 = r2 at h2 ⊢
  rcases r2 with ⟨⟨accessToken, _ | err⟩, s3⟩
  · simp only
    have h3 := hP.GenerateRefreshToken s3 h2
    have hh : ∀ row s, P s → row.TokenHash = (uc.token.GenerateRefreshToken s3).1.2.1 →
        P (uc.repository.StoreRefreshToken row s).2 :=
      fun row s hs hrow => hP.StoreRefreshToken s3 row s h2 hs hrow
    generalize uc.token.GenerateRefreshToken s3 = r3 at h3 hh ⊢
    rcases r3 with ⟨⟨plain, hashNew, _ | err⟩, s4⟩
    · exact hh _ _ (newRefreshTokenRow_keeps hP refreshToken.UserID hashNew s4 h3)
        (newRefreshTokenRow_TokenHash uc refreshToken.UserID hashNew s4)
    · exact h3
  · exact h2

theorem RefreshToken_keeps {uc : AuthUsecase σ} {P : σ → Prop} (hP : uc.Keeps P)
    (token : String) (s : σ) (hs : P s) : P (uc.RefreshToken token s).2 := by
  have h1 := hP.FindValidRefreshToken (uc.passwordHasher.HashToken token) s hs
  rcases hr : uc.repository.FindValidRefreshToken (uc.passwordHasher.HashToken token) s
    with ⟨⟨_ | refreshToken, _ | e⟩, s1⟩
  · rw [hr] at h1
    simpa [AuthUsecase.RefreshToken, hr] using h1
  · rw [hr] at h1
    simpa [AuthUsecase.RefreshToken, hr] using h1
  · rw [hr] at h1
    exact RefreshToken_keeps_of_found hP token s s1 refreshToken hr
      (hP.RevokeRefreshToken _ _ h1)
  · rw [hr] at h1
    simpa [AuthUsecase.RefreshToken, hr] using h1

theorem ForgotPassword_keeps {uc : AuthUsecase σ} {P : σ → Prop} (hP : uc.Keeps P)
    (email : String) (s : σ) (hs : P s) : P (uc.ForgotPassword email s).2 := by
  unfold AuthUsecase.ForgotPassword
  have h1 := hP.FindUserByEmail email s hs
  generalize uc.repository.FindUserByEmail email s = r1 at h1 ⊢
  rcases r1 with ⟨⟨_ | user, _ | e⟩, s1⟩
  · exact h1
  · exact h1
  · simp only
    have h2 := hP.GenerateRandomToken s1 h1
    generalize uc.passwordHasher.GenerateRandomToken s1 = r2 at h2 ⊢
    rcases r2 with ⟨⟨token, _ | err⟩, s2⟩
    · simp only
      have h3 := hP.StorePasswordReset
        { ID := (uc.uuid.GenerateID s2).1
          UserID := user.ID
          TokenHash := uc.passwordHasher.HashToken token
          Used := false
          ExpiresAt := Time.Add (uc.now (uc.uuid.GenerateID s2).2).1 (15 * Minute)
          CreatedAt := (uc.now (uc.now (uc.uuid.GenerateID s2).2).2).1
          UpdatedAt := (uc.now (uc.now (uc.now (uc.uuid.GenerateID s2).2).2).2).1 }
        _ (hP.now _ (hP.now _ (hP.now _ (hP.GenerateID _ h2))))
      generalize uc.repository.StorePasswordReset _ _ = r3 at h3 ⊢
      rcases r3 with ⟨_ | err, s7⟩
      · simp only [event.Publisher.ForgotPassword]
        split
        · exact hP.now _ h3
        · exact hP.Publish _ _ _ (hP.now _ h3)
      · exact h3
    · exact h2
  · exact h1

theorem ResetPassword_keeps {uc : AuthUsecase σ} {P : σ → Prop} (hP : uc.Keeps P)
    (req : ResetPasswordInput) (s : σ) (hs : P s) : P (uc.ResetPassword req s).2 := by
  unfold AuthUsecase.ResetPassword
  have h1 := hP.FindValidPasswordReset (uc.passwordHasher.HashToken req.Token) s hs
  generalize uc.repository.FindValidPasswordReset (uc.passwordHasher.HashToken req.Token) s = r1
    at h1 ⊢
  rcases r1 with ⟨⟨_ | passwordReset, _ | e⟩, s1⟩
  · exact h1
  · exact h1
  · simp only
    have h2 := hP.now s1 h1
    split
    · exact h2
    · split
      · exact h2
      · have h3 := hP.FindUserByID passwordReset.UserID _ h2
        generalize uc.repository.FindUserByID passwordReset.UserID _ = r3 at h3 ⊢
        rcases r3 with ⟨⟨user, _ | e⟩, s3⟩
        · simp only
          have h4 := hP.HashPassword req.NewPassword s3 h3
          generalize uc.passwordHasher.HashPassword req.NewPassword s3 = r4 at h4 ⊢
          rcases r4 with ⟨⟨hashedPassword, _ | err⟩, s4⟩
          · rcases user with _ | user
            · exact h4
            · exact hP.RevokeRefreshToken _ _ (hP.MarkPasswordResetUsed _ _
                (hP.UpdateUserPassword _ _ _ h4))
          · exact h4
        · exact h3
  · exact h1

theorem Logout_keeps {uc : AuthUsecase σ} {P : σ → Prop} (hP : uc.Keeps P)
    (refreshToken : String) (s : σ) (hs : P s) : P (uc.Logout refreshToken s).2 := by
  unfold AuthUsecase.Logout
  have h1 := hP.FindValidRefreshToken (uc.passwordHasher.HashToken refreshToken) s hs
  generalize uc.repository.FindValidRefreshToken (uc.passwordHasher.HashToken refreshToken) s
    = r1 at h1 ⊢
  rcases r1 with ⟨⟨_ | row, _ | e⟩, s1⟩
  · exact h1
  · exact h1
  · exact hP.RevokeRefreshToken _ _ h1
  · exact h1

/-! ### The refresh-token table under the SQL repository -/

theorem AllRevoked_StoreRefreshToken {h : String} {db : postgres.DB} (row : RefreshToken)
    (hdb : db.AllRevoked h) (hrow : row.TokenHash ≠ h) :
    (postgres.Query.StoreRefreshToken row db).AllRevoked h := by
  intro t ht hh
  simp only [postgres.Query.StoreRefreshToken, List.mem_append, List.mem_singleton] at ht
  rcases ht with ht | rfl
  · exact hdb t ht hh
  · exact absurd hh hrow

theorem AllRevoked_RevokeRefreshToken {h : String} {db : postgres.DB} (tokenHash : String)
    (hdb : db.AllRevoked h) : (postgres.Query.RevokeRefreshToken tokenHash db).AllRevoked h := by
  intro t ht hh
  simp only [postgres.Query.RevokeRefreshToken, List.mem_map] at ht
  obtain ⟨t0, ht0, rfl⟩ := ht
  by_cases hc : t0.TokenHash = tokenHash
  · simp [hc]
  · simp only [hc, if_false] at hh ⊢
    exact hdb t0 ht0 hh

theorem AllRevoked_RevokeRefreshToken_self (h : String) (db : postgres.DB) :
    (postgres.Query.RevokeRefreshToken h db).AllRevoked h := by
  intro t ht hh
  simp only [postgres.Query.RevokeRefreshToken, List.mem_map] at ht
  obtain ⟨t0, _, rfl⟩ := ht
  by_cases hc : t0.TokenHash = h
  · simp [hc]
  · simp only [hc, if_false] at hh

theorem FindValidRefreshToken_of_AllRevoked {h : String} {db : postgres.DB}
    (hdb : db.AllRevoked h) : postgres.Query.FindValidRefreshToken h db = none := by
  simp only [postgres.Query.FindValidRefreshToken, List.find?_eq_none]
  intro t ht
  by_cases hc : t.TokenHash = h
  · simp [hdb t ht hc]
  · simp [hc]

theorem FindValidRefreshToken_some {h : String} {db : postgres.DB} {row : RefreshToken}
    (hq : postgres.Query.FindValidRefreshToken h db = some row) :
    row ∈ db.refresh_tokens ∧ row.TokenHash = h := by
  unfold postgres.Query.FindValidRefreshToken at hq
  refine ⟨List.mem_of_find?_eq_some hq, ?_⟩
  have := List.find?_some hq
  simp only [Bool.and_eq_true, decide_eq_true_eq] at this
  exact this.1.1

/-- With no live row under `HashToken(token)`, `RefreshToken` is rejected and
the service state is unchanged. -/
theorem RefreshToken_of_no_row (c : Collaborators γ) (token : String) (w : World γ)
    (hrow : postgres.Query.FindValidRefreshToken (c.passwordHasher.HashToken token) w.db = none) :
    (authUC c).RefreshToken token w = ((none, some Err.ErrInvalidToken), w) := by
  simp [AuthUsecase.RefreshToken, authUC, authUCOn, postgres.NewAuthRepository, World.onDB,
    postgres.FindValidRefreshToken_healthy, hrow]

/-- With no live row under `HashToken(token)`, `Logout` is rejected and the
service state is unchanged. -/
theorem Logout_of_no_row (c : Collaborators γ) (token : String) (w : World γ)
    (hrow : postgres.Query.FindValidRefreshToken (c.passwordHasher.HashToken token) w.db = none) :
    (authUC c).Logout token w = (some Err.ErrInvalidToken, w) := by
  simp [AuthUsecase.Logout, authUC, authUCOn, postgres.NewAuthRepository, World.onDB,
    postgres.FindValidRefreshToken_healthy, hrow]

/-- Over the SQL repository, "no live row under `h`" together with an
invariant of the collaborators is kept by every collaborator call, provided
the issuer never returns the lookup hash `h` while the invariant holds. -/
theorem authUC_keeps_AllRevoked (c : Collaborators γ) (I : γ → Prop) (hI : c.Keeps I)
    (h : String) (hfresh : ∀ g, I g → (c.token.GenerateRefreshToken g).1.2.1 ≠ h) :
    (authUC c).Keeps (fun w => w.db.AllRevoked h ∧ I w.env) where
  CreateUser user s hs := by
    refine ⟨?_, hs.2⟩
    simp only [authUC, authUCOn, postgres.NewAuthRepository, World.onDB, postgres.CreateUser_healthy,
      postgres.FindUserByEmail_healthy]
    cases postgres.Query.FindUserByEmail user.Email s.db <;> exact hs.1
  FindUserByEmail email s hs := by
    refine ⟨?_, hs.2⟩
    simp only [authUC, authUCOn, postgres.NewAuthRepository, World.onDB, postgres.FindUserByEmail_healthy]
    cases postgres.Query.FindUserByEmail email s.db <;> exact hs.1
  FindUserByID id s hs := by
    refine ⟨?_, hs.2⟩
    simp only [authUC, authUCOn, postgres.NewAuthRepository, World.onDB, postgres.FindUserByID_healthy]
    cases postgres.Query.FindUserByID id s.db <;> exact hs.1
  StoreRefreshToken s0 row s hs0 hs hrow :=
    ⟨AllRevoked_StoreRefreshToken row hs.1 (hrow ▸ hfresh s0.env hs0.2), hs.2⟩
  FindValidRefreshToken tokenHash s hs := by
    refine ⟨?_, hs.2⟩
    simp only [authUC, authUCOn, postgres.NewAuthRepository, World.onDB, postgres.FindValidRefreshToken_healthy]
    cases postgres.Query.FindValidRefreshToken tokenHash s.db <;> exact hs.1
  RevokeRefreshToken tokenHash s hs := ⟨AllRevoked_RevokeRefreshToken tokenHash hs.1, hs.2⟩
  StorePasswordReset pr s hs := ⟨hs.1, hs.2⟩
  FindValidPasswordReset tokenHash s hs := by
    refine ⟨?_, hs.2⟩
    simp only [authUC, authUCOn, postgres.NewAuthRepository, World.onDB, postgres.FindValidPasswordReset_healthy]
    cases postgres.Query.FindValidPasswordReset tokenHash s.db <;> exact hs.1
  MarkPasswordResetUsed id s hs := ⟨hs.1, hs.2⟩
  UpdateUserPassword userID newHash s hs := ⟨hs.1, hs.2⟩
  GenerateAccessToken userID role s hs := ⟨hs.1, hI.GenerateAccessToken userID role _ hs.2⟩
  GenerateRefreshToken s hs := ⟨hs.1, hI.GenerateRefreshToken _ hs.2⟩
  now s hs := ⟨hs.1, hI.now _ hs.2⟩
  HashPassword password s hs := ⟨hs.1, hI.HashPassword password _ hs.2⟩
  GenerateRandomToken s hs := ⟨hs.1, hI.GenerateRandomToken _ hs.2⟩
  GenerateID s hs := ⟨hs.1, hI.GenerateID _ hs.2⟩
  Publish subject payload s hs := ⟨hs.1, hI.Publish subject payload _ hs.2⟩

/-- Every `Call` keeps "no live row under `h`" and the collaborators'
invariant. -/
theorem exec_keeps_AllRevoked (c : Collaborators γ) (I : γ → Prop) (hI : c.Keeps I)
    (h : String) (hfresh : ∀ g, I g → (c.token.GenerateRefreshToken g).1.2.1 ≠ h)
    (call : Call) (w : World γ) (hw : w.db.AllRevoked h ∧ I w.env) :
    (call.exec c w).db.AllRevoked h ∧ I (call.exec c w).env := by
  have hP := authUC_keeps_AllRevoked c I hI h hfresh
  cases call with
  | Register req => exact Register_keeps hP req w hw
  | Login req => exact Login_keeps hP req w hw
  | RefreshToken token => exact RefreshToken_keeps hP token w hw
  | Logout refreshToken => exact Logout_keeps hP refreshToken w hw
  | ForgotPassword email => exact ForgotPassword_keeps hP email w hw
  | ResetPassword req => exact ResetPassword_keeps hP req w hw
  | Tick now => exact hw

/-- Every history keeps "no live row under `h`" and the collaborators'
invariant. -/
theorem run_keeps_AllRevoked (c : Collaborators γ) (I : γ → Prop) (hI : c.Keeps I)
    (h : String) (hfresh : ∀ g, I g → (c.token.GenerateRefreshToken g).1.2.1 ≠ h)
    (calls : List Call) (w : World γ) (hw : w.db.AllRevoked h ∧ I w.env) :
    (run c calls w).db.AllRevoked h ∧ I (run c calls w).env := by
  induction calls generalizing w with
  | nil => exact hw
  | cons call calls ih =>
    exact ih (call.exec c w) (exec_keeps_AllRevoked c I hI h hfresh call w hw)

/-- The SQL lookup of a refresh token, as the controller sees it. -/
theorem authUC_FindValidRefreshToken (c : Collaborators γ) (tokenHash : String) (w : World γ) :
    (authUC c).repository.FindValidRefreshToken tokenHash w
      = ((postgres.Query.FindValidRefreshToken tokenHash w.db, none), w) := by
  simp only [authUC, authUCOn, postgres.NewAuthRepository, World.onDB, postgres.FindValidRefreshToken_healthy]
  cases postgres.Query.FindValidRefreshToken tokenHash w.db <;> rfl

/-- After a successful `RefreshToken(t)` no live row is left under
`HashToken(t)`, if the issuer does not return that hash again. -/
theorem RefreshToken_success_AllRevoked (c : Collaborators γ) (I : γ → Prop) (hI : c.Keeps I)
    (t : String)
    (hfresh : ∀ g, I g → (c.token.GenerateRefreshToken g).1.2.1 ≠ c.passwordHasher.HashToken t)
    (w : World γ) (h0 : I w.env) (hsucc : ((authUC c).RefreshToken t w).1.2 = none) :
    ((authUC c).RefreshToken t w).2.db.AllRevoked (c.passwordHasher.HashToken t) ∧
    I ((authUC c).RefreshToken t w).2.env := by
  cases hq : postgres.Query.FindValidRefreshToken (c.passwordHasher.HashToken t) w.db with
  | none =>
    rw [RefreshToken_of_no_row c t w hq] at hsucc
    simp at hsucc
  | some row =>
    have hfind := authUC_FindValidRefreshToken c (c.passwordHasher.HashToken t) w
    rw [hq] at hfind
    refine RefreshToken_keeps_of_found
      (authUC_keeps_AllRevoked c I hI (c.passwordHasher.HashToken t) hfresh) t w w row hfind ?_
    rw [(FindValidRefreshToken_some hq).2]
    exact ⟨AllRevoked_RevokeRefreshToken_self _ _, h0⟩

/-- After a successful `Logout(t)` a row is stored under `HashToken(t)` and
every such row is revoked. -/
theorem Logout_success_AllRevoked (c : Collaborators γ) (t : String) (w : World γ)
    (hsucc : ((authUC c).Logout t w).1 = none) :
    ((authUC c).Logout t w).2.db.AllRevoked (c.passwordHasher.HashToken t) ∧
    (∃ row ∈ ((authUC c).Logout t w).2.db.refresh_tokens,
      row.TokenHash = c.passwordHasher.HashToken t) ∧
    ((authUC c).Logout t w).2.env = w.env := by
  cases hq : postgres.Query.FindValidRefreshToken (c.passwordHasher.HashToken t) w.db with
  | none =>
    rw [Logout_of_no_row c t w hq] at hsucc
    simp at hsucc
  | some row =>
    have hfind : (authUC c).repository.FindValidRefreshToken
        ((authUC c).passwordHasher.HashToken t) w = ((some row, none), w) := by
      have h := authUC_FindValidRefreshToken c (c.passwordHasher.HashToken t) w
      rw [hq] at h
      exact h
    have hres : (authUC c).Logout t w
        = (none, ⟨postgres.Query.RevokeRefreshToken (c.passwordHasher.HashToken t) w.db,
            w.env⟩) := by
      unfold AuthUsecase.Logout
      rw [hfind]
      rfl
    rw [hres]
    refine ⟨AllRevoked_RevokeRefreshToken_self _ _, ?_, rfl⟩
    refine ⟨{ row with Revoked := true }, ?_, (FindValidRefreshToken_some hq).2⟩
    simp only [postgres.Query.RevokeRefreshToken, List.mem_map]
    exact ⟨row, (FindValidRefreshToken_some hq).1, by simp [(FindValidRefreshToken_some hq).2]⟩

end invariants

section temporal

variable {γ : Type}

open usecase

/-- The test doubles keep the trivial invariant. -/
theorem mock_keeps : mock.collaborators.Keeps (fun _ => True) :=
  ⟨fun _ _ _ _ => trivial, fun _ _ => trivial, fun _ _ => trivial, fun _ _ _ => trivial,
   fun _ _ => trivial, fun _ _ => trivial, fun _ _ _ _ => trivial⟩

/-- The counting issuer only counts upwards. -/
theorem counting_keeps (k : Nat) : counting.collaborators.Keeps (fun n => k < n) :=
  ⟨fun _ _ _ h => h, fun _ h => Nat.lt_succ_of_lt h, fun _ h => h, fun _ _ h => h,
   fun _ h => h, fun _ h => h, fun _ _ _ h => h⟩

theorem counting_plain_length (n : Nat) : (counting.plain n).length = 3 + n := by
  simp [counting.plain, String.length_append]
  rfl

/-- The counting issuer never returns the lookup hash of an earlier token. -/
theorem counting_fresh (k n : Nat) (h : k < n) :
    (counting.collaborators.token.GenerateRefreshToken n).1.2.1
      ≠ counting.collaborators.passwordHasher.HashToken (counting.plain k) := by
  intro heq
  have hlen := congrArg String.length heq
  simp only [counting.collaborators, String.length_append, counting_plain_length] at hlen
  omega

/-- C1: rotation invalidates the consumed token.  Over the SQL repository,
whose lookup returns only non-revoked, non-expired rows and whose revoke sets
`revoked` on the rows with that hash, and with an issuer that (while the
invariant `I` of its state holds) never returns the lookup hash of `t`
again: once `RefreshToken(t)` has returned success, `RefreshToken(t)`
returns `(nil, ErrInvalidToken)` after every later history of calls and
clock movements. -/
theorem refresh_token_rotation_invalidates (c : Collaborators γ) (I : γ → Prop)
    (hI : c.Keeps I) (t : String)
    (hfresh : ∀ g, I g → (c.token.GenerateRefreshToken g).1.2.1 ≠ c.passwordHasher.HashToken t)
    (w : World γ) (h0 : I w.env)
    (hsucc : ((authUC c).RefreshToken t w).1.2 = none) (later : List Call) :
    ((authUC c).RefreshToken t (run c later ((authUC c).RefreshToken t w).2)).1
      = (none, some Err.ErrInvalidToken) := by
  have h1 := RefreshToken_success_AllRevoked c I hI t hfresh w h0 hsucc
  have h2 := run_keeps_AllRevoked c I hI _ hfresh later _ h1
  rw [RefreshToken_of_no_row c t _ (FindValidRefreshToken_of_AllRevoked h2.1)]

/-- Witness of C1 with the counting issuer: the token handed out by `Login`
is rotated once; after a second login, a rotation of the new token, a day
passing and a logout, it is still rejected. -/
theorem refresh_token_rotation_invalidates_witness :
    ((authUC counting.collaborators).RefreshToken (counting.plain 0)
      (run counting.collaborators
        [Call.Login { Email := "test@example.com", Password := "password123" },
         Call.RefreshToken (counting.plain 1),
         Call.Tick (mock.fixedTime + 24 * Hour),
         Call.Logout (counting.plain 2)]
        ((authUC counting.collaborators).RefreshToken (counting.plain 0)
          ((authUC counting.collaborators).Login
            { Email := "test@example.com", Password := "password123" } counting.world0).2).2)).1
      = (none, some Err.ErrInvalidToken) :=
  refresh_token_rotation_invalidates counting.collaborators (fun n => 0 < n)
    (counting_keeps 0) (counting.plain 0) (counting_fresh 0)
    ((authUC counting.collaborators).Login
      { Email := "test@example.com", Password := "password123" } counting.world0).2
    (by decide) (by rfl) _

/-- C9: logout kills the token.  Over the SQL repository and with an issuer
that never returns the lookup hash of `t` again: once `Logout(t)` has
returned success, a row is stored under `HashToken(t)` and every such row is
revoked, and after every later history of calls and clock movements both
`Logout(t)` and `RefreshToken(t)` return `ErrInvalidToken`. -/
theorem logout_kills_token (c : Collaborators γ) (I : γ → Prop)
    (hI : c.Keeps I) (t : String)
    (hfresh : ∀ g, I g → (c.token.GenerateRefreshToken g).1.2.1 ≠ c.passwordHasher.HashToken t)
    (w : World γ) (h0 : I w.env)
    (hsucc : ((authUC c).Logout t w).1 = none) (later : List Call) :
    ((authUC c).Logout t w).2.db.AllRevoked (c.passwordHasher.HashToken t) ∧
    (∃ row ∈ ((authUC c).Logout t w).2.db.refresh_tokens,
      row.TokenHash = c.passwordHasher.HashToken t) ∧
    ((authUC c).Logout t (run c later ((authUC c).Logout t w).2)).1
      = some Err.ErrInvalidToken ∧
    ((authUC c).RefreshToken t (run c later ((authUC c).Logout t w).2)).1
      = (none, some Err.ErrInvalidToken) := by
  have h1 := Logout_success_AllRevoked c t w hsucc
  have h2 := run_keeps_AllRevoked c I hI _ hfresh later _ ⟨h1.1, by rw [h1.2.2]; exact h0⟩
  have h3 := FindValidRefreshToken_of_AllRevoked h2.1
  exact ⟨h1.1, h1.2.1, by rw [Logout_of_no_row c t _ h3], by rw [RefreshToken_of_no_row c t _ h3]⟩

/-- Witness of C9 with the counting issuer: the token handed out by `Login`
is logged out; after a second login and an hour passing it is rejected by
`Logout` and by `RefreshToken`. -/
theorem logout_kills_token_witness :
    (((authUC counting.collaborators).Logout (counting.plain 0)
        ((authUC counting.collaborators).Login
          { Email := "test@example.com", Password := "password123" }
          counting.world0).2).2.db.AllRevoked "sha256-rt-") ∧
    ((authUC counting.collaborators).Logout (counting.plain 0)
      (run counting.collaborators
        [Call.Login { Email := "test@example.com", Password := "password123" },
         Call.Tick (mock.fixedTime + 1 * Hour)]
        ((authUC counting.collaborators).Logout (counting.plain 0)
          ((authUC counting.collaborators).Login
            { Email := "test@example.com", Password := "password123" } counting.world0).2).2)).1
      = some Err.ErrInvalidToken ∧
    ((authUC counting.collaborators).RefreshToken (counting.plain 0)
      (run counting.collaborators
        [Call.Login { Email := "test@example.com", Password := "password123" },
         Call.Tick (mock.fixedTime + 1 * Hour)]
        ((authUC counting.collaborators).Logout (counting.plain 0)
          ((authUC counting.collaborators).Login
            { Email := "test@example.com", Password := "password123" } counting.world0).2).2)).1
      = (none, some Err.ErrInvalidToken) :=
  have h := logout_kills_token counting.collaborators (fun n => 0 < n)
    (counting_keeps 0) (counting.plain 0) (counting_fresh 0)
    ((authUC counting.collaborators).Login
      { Email := "test@example.com", Password := "password123" } counting.world0).2
    (by decide) (by rfl)
    [Call.Login { Email := "test@example.com", Password := "password123" },
     Call.Tick (mock.fixedTime + 1 * Hour)]
  ⟨h.1, h.2.2.1, h.2.2.2⟩

/-- C4 (the code departs from the claim): a reset token can be consumed
twice.  `ResetPassword` passes `user.ID` to `MarkPasswordResetUsed`, so over
a store that marks the row whose id is the argument the consumed row
`reset-123` of user `user-123` stays unused: the first call succeeds and
leaves the row as it was, and a second call with the same token succeeds
again and overwrites the password hash. -/
theorem reset_password_token_consumed_twice :
    ((authUC mock.collaborators).ResetPassword
        { Token := "valid-token", NewPassword := "newpassword123" } mock.world0).1
      = Outcome.returned none ∧
    ((authUC mock.collaborators).ResetPassword
        { Token := "valid-token", NewPassword := "newpassword123" } mock.world0).2.db
      = { mock.world0.db with
          users := [{ mock.user123 with PasswordHash := "hashed-newpassword123" }] } ∧
    ((authUC mock.collaborators).ResetPassword
        { Token := "valid-token", NewPassword := "another-password" }
        ((authUC mock.collaborators).ResetPassword
          { Token := "valid-token", NewPassword := "newpassword123" } mock.world0).2).1
      = Outcome.returned none ∧
    ((authUC mock.collaborators).ResetPassword
        { Token := "valid-token", NewPassword := "another-password" }
        ((authUC mock.collaborators).ResetPassword
          { Token := "valid-token", NewPassword := "newpassword123" } mock.world0).2).2.db.users
      = [{ mock.user123 with PasswordHash := "hashed-another-password" }] := by
  refine ⟨by rfl, by decide, by rfl, by decide⟩

/-- C5 (the code departs from the claim): a password reset leaves the user's
refresh tokens live.  `ResetPassword` revokes by the lookup hash of the
reset token, not by user: after the reset of `user-123` succeeds, the
refresh-token row `token-123` of that user is still not revoked, and
`RefreshToken` accepts its plaintext and returns a new token pair. -/
theorem reset_password_keeps_refresh_tokens :
    ((authUC mock.collaborators).ResetPassword
        { Token := "valid-token", NewPassword := "newpassword123" } mock.world0).1
      = Outcome.returned none ∧
    ((authUC mock.collaborators).ResetPassword
        { Token := "valid-token", NewPassword := "newpassword123" }
        mock.world0).2.db.refresh_tokens
      = [mock.token123] ∧
    mock.token123.UserID = mock.user123.ID ∧
    mock.token123.Revoked = false ∧
    ((authUC mock.collaborators).RefreshToken "valid-refresh-token"
        ((authUC mock.collaborators).ResetPassword
          { Token := "valid-token", NewPassword := "newpassword123" } mock.world0).2).1
      = (some { AccessToken := "access-token-user-123", RefreshToken := "refresh-token-plain" },
          none) := by
  refine ⟨by rfl, by decide, by decide, by rfl, by rfl⟩

end temporal

section single_call

variable {σ γ : Type}

open usecase

/-- C2: `Login` answers a missing user and a wrong password alike.  If in
state `sA` the store finds no user for the email, and in state `sB` it finds
one whose password hash does not verify, then both calls return exactly
`(nil, ErrInvalidCredentials)`, hence the same result. -/
theorem login_enumeration_safe (uc : AuthUsecase σ) (req : LoginInput)
    (sA sA1 sB sB1 : σ) (e : Option Err) (user : User)
    (hA : uc.repository.FindUserByEmail req.Email sA = ((none, e), sA1))
    (hB : uc.repository.FindUserByEmail req.Email sB = ((some user, none), sB1))
    (hpw : uc.passwordHasher.VerifyPassword req.Password user.PasswordHash = false) :
    (uc.Login req sA).1 = (none, some Err.ErrInvalidCredentials) ∧
    (uc.Login req sB).1 = (none, some Err.ErrInvalidCredentials) ∧
    (uc.Login req sA).1 = (uc.Login req sB).1 := by
  have h1 : (uc.Login req sA).1 = (none, some Err.ErrInvalidCredentials) := by
    cases e <;> simp [AuthUsecase.Login, hA]
  have h2 : (uc.Login req sB).1 = (none, some Err.ErrInvalidCredentials) := by
    simp [AuthUsecase.Login, hB, hpw]
  exact ⟨h1, h2, h1.trans h2.symm⟩

/-- Witness of C2 on the test doubles: an unknown email against a known
email with a wrong password. -/
theorem login_enumeration_safe_witness :
    ((authUC mock.collaborators).Login { Email := "test@example.com", Password := "wrongpassword" }
        { mock.world0 with db := { mock.world0.db with users := [] } }).1
      = (none, some Err.ErrInvalidCredentials) ∧
    ((authUC mock.collaborators).Login { Email := "test@example.com", Password := "wrongpassword" }
        mock.world0).1
      = (none, some Err.ErrInvalidCredentials) ∧
    ((authUC mock.collaborators).Login { Email := "test@example.com", Password := "wrongpassword" }
        { mock.world0 with db := { mock.world0.db with users := [] } }).1
      = ((authUC mock.collaborators).Login
          { Email := "test@example.com", Password := "wrongpassword" } mock.world0).1 :=
  login_enumeration_safe (authUC mock.collaborators)
    { Email := "test@example.com", Password := "wrongpassword" }
    { mock.world0 with db := { mock.world0.db with users := [] } }
    { mock.world0 with db := { mock.world0.db with users := [] } }
    mock.world0 mock.world0 none mock.user123 (by rfl) (by rfl) (by decide)

/-- C3: `ResetPassword` classifies its failures in a fixed order.  With no
reset row found for `HashToken(token)` it returns `ErrInvalidToken`; with a
row whose `ExpiresAt` is before `now` it returns `ErrPasswordResetExpired`
whatever `Used` is; with a row that is not expired and has `Used` set it
returns `ErrPasswordResetUsed`. -/
theorem reset_password_failure_order (uc : AuthUsecase σ) (req : ResetPasswordInput) (s : σ) :
    (∀ (e : Option Err) (s1 : σ),
      uc.repository.FindValidPasswordReset (uc.passwordHasher.HashToken req.Token) s
          = ((none, e), s1) →
      (uc.ResetPassword req s).1 = Outcome.returned (some Err.ErrInvalidToken)) ∧
    (∀ (pr : PasswordReset) (s1 : σ),
      uc.repository.FindValidPasswordReset (uc.passwordHasher.HashToken req.Token) s
          = ((some pr, none), s1) →
      Time.Before pr.ExpiresAt (uc.now s1).1 = true →
      (uc.ResetPassword req s).1 = Outcome.returned (some Err.ErrPasswordResetExpired)) ∧
    (∀ (pr : PasswordReset) (s1 : σ),
      uc.repository.FindValidPasswordReset (uc.passwordHasher.HashToken req.Token) s
          = ((some pr, none), s1) →
      Time.Before pr.ExpiresAt (uc.now s1).1 = false →
      pr.Used = true →
      (uc.ResetPassword req s).1 = Outcome.returned (some Err.ErrPasswordResetUsed)) := by
  refine ⟨?_, ?_, ?_⟩
  · intro e s1 h
    cases e <;> simp [AuthUsecase.ResetPassword, h]
  · intro pr s1 h hexp
    simp [AuthUsecase.ResetPassword, h, hexp]
  · intro pr s1 h hexp hused
    simp [AuthUsecase.ResetPassword, h, hexp, hused]

/-- Witness of C3 on the test doubles: an unknown token; an expired row that
is unused; an unexpired row that is used. -/
theorem reset_password_failure_order_witness :
    ((authUC mock.collaborators).ResetPassword
        { Token := "no-such-token", NewPassword := "newpassword123" } mock.world0).1
      = Outcome.returned (some Err.ErrInvalidToken) ∧
    ((authUC mock.collaborators).ResetPassword
        { Token := "valid-token", NewPassword := "newpassword123" }
        { mock.world0 with db := { mock.world0.db with password_resets :=
            [{ mock.reset123 with ExpiresAt := mock.fixedTime - 1 * Hour }] } }).1
      = Outcome.returned (some Err.ErrPasswordResetExpired) ∧
    ((authUC mock.collaborators).ResetPassword
        { Token := "valid-token", NewPassword := "newpassword123" }
        { mock.world0 with db := { mock.world0.db with password_resets :=
            [{ mock.reset123 with Used := true }] } }).1
      = Outcome.returned (some Err.ErrPasswordResetUsed) :=
  ⟨(reset_password_failure_order (authUC mock.collaborators)
      { Token := "no-such-token", NewPassword := "newpassword123" } mock.world0).1
      none mock.world0 (by rfl),
   (reset_password_failure_order (authUC mock.collaborators)
      { Token := "valid-token", NewPassword := "newpassword123" }
      { mock.world0 with db := { mock.world0.db with password_resets :=
          [{ mock.reset123 with ExpiresAt := mock.fixedTime - 1 * Hour }] } }).2.1
      { mock.reset123 with ExpiresAt := mock.fixedTime - 1 * Hour } _ (by rfl) (by decide),
   (reset_password_failure_order (authUC mock.collaborators)
      { Token := "valid-token", NewPassword := "newpassword123" }
      { mock.world0 with db := { mock.world0.db with password_resets :=
          [{ mock.reset123 with Used := true }] } }).2.2
      { mock.reset123 with Used := true } _ (by rfl) (by decide) (by rfl)⟩

/-- C6: `AuthHandler.ForgotPassword` hides whether the email is registered.
For a non-empty email, a controller that returns `ErrUserNotFound` and a
controller that returns `nil` produce the same response: no gRPC error and
the same `MessageResponse`. -/
theorem forgot_password_handler_enumeration_safe (hA hB : handler.AuthHandler σ)
    (req : handler.ForgotPasswordRequest) (sA sA1 sB sB1 : σ)
    (hreq : req.Email ≠ "")
    (hnotfound : hA.authUC.ForgotPassword req.Email sA = (some Err.ErrUserNotFound, sA1))
    (hok : hB.authUC.ForgotPassword req.Email sB = (none, sB1)) :
    (hA.ForgotPassword req sA).1 = (hB.ForgotPassword req sB).1 ∧
    (hA.ForgotPassword req sA).1 =
      (some { Message := "If your email is registered, you will receive a password reset link" },
        none) := by
  have h1 : (hA.ForgotPassword req sA).1 =
      (some { Message := "If your email is registered, you will receive a password reset link" },
        none) := by
    unfold handler.AuthHandler.ForgotPassword
    rw [if_neg hreq, hnotfound]
  have h2 : (hB.ForgotPassword req sB).1 =
      (some { Message := "If your email is registered, you will receive a password reset link" },
        none) := by
    unfold handler.AuthHandler.ForgotPassword
    rw [if_neg hreq, hok]
  exact ⟨h1.trans h2.symm, h1⟩

/-- Witness of C6 on the test doubles: the handler over the controller, for an
email that is not registered and for one that is. -/
theorem forgot_password_handler_enumeration_safe_witness :
    ((handler.NewAuthHandler (authUC mock.collaborators)).ForgotPassword
        { Email := "test@example.com" }
        { mock.world0 with db := { mock.world0.db with users := [] } }).1
      = ((handler.NewAuthHandler (authUC mock.collaborators)).ForgotPassword
          { Email := "test@example.com" } mock.world0).1 ∧
    ((handler.NewAuthHandler (authUC mock.collaborators)).ForgotPassword
        { Email := "test@example.com" }
        { mock.world0 with db := { mock.world0.db with users := [] } }).1
      = (some { Message := "If your email is registered, you will receive a password reset link" },
          none) :=
  forgot_password_handler_enumeration_safe
    (handler.NewAuthHandler (authUC mock.collaborators))
    (handler.NewAuthHandler (authUC mock.collaborators))
    { Email := "test@example.com" }
    { mock.world0 with db := { mock.world0.db with users := [] } } _ mock.world0 _
    (by decide) (by rfl) (by rfl)

/-- C7: `Register` with an email the store already knows returns
`ErrEmailAlreadyUsed` and writes nothing.  Over any repository the state
returned is the one the `FindUserByEmail` call left, so no later collaborator
call (in particular no `CreateUser`) was made; over the SQL repository the
whole service state, with the existing user row, is unchanged. -/
theorem register_existing_email_no_write (uc : AuthUsecase σ) (c : Collaborators γ)
    (req : RegisterInput) (s s1 : σ) (u : User) (e : Option Err)
    (w : World γ) (u1 : User)
    (hfind : uc.repository.FindUserByEmail req.Email s = ((some u, e), s1))
    (hrow : postgres.Query.FindUserByEmail req.Email w.db = some u1) :
    uc.Register req s = (some Err.ErrEmailAlreadyUsed, s1) ∧
    (authUC c).Register req w = (some Err.ErrEmailAlreadyUsed, w) := by
  constructor
  · simp [AuthUsecase.Register, hfind]
  · simp [AuthUsecase.Register, authUC, authUCOn, postgres.NewAuthRepository, World.onDB,
      postgres.FindUserByEmail_healthy, hrow]

/-- Witness of C7 on the test doubles: registering the email of the stored
user. -/
theorem register_existing_email_no_write_witness :
    (authUC mock.collaborators).Register
        { Name := "Test User", Email := "test@example.com", Password := "password123",
          PasswordConfirmation := "password123" } mock.world0
      = (some Err.ErrEmailAlreadyUsed, mock.world0) ∧
    (authUC mock.collaborators).Register
        { Name := "Test User", Email := "test@example.com", Password := "password123",
          PasswordConfirmation := "password123" } mock.world0
      = (some Err.ErrEmailAlreadyUsed, mock.world0) :=
  register_existing_email_no_write (authUC mock.collaborators) mock.collaborators
    { Name := "Test User", Email := "test@example.com", Password := "password123",
      PasswordConfirmation := "password123" }
    mock.world0 mock.world0 mock.user123 none mock.world0 mock.user123 (by rfl) (by rfl)

/-- C8: a presented token with no valid refresh-token row is rejected without
any effect.  When the lookup under `HashToken(token)` yields no row, both
`RefreshToken` and `Logout` return `ErrInvalidToken`, `RefreshToken` yields
no token pair, and the state returned is the one the lookup left (no issuer
call, no revoke, no new row); over the SQL repository the whole service
state is unchanged. -/
theorem invalid_refresh_token_rejected (uc : AuthUsecase σ) (c : Collaborators γ)
    (token : String) (s s1 : σ) (e : Option Err) (w : World γ)
    (hfind : uc.repository.FindValidRefreshToken (uc.passwordHasher.HashToken token) s
      = ((none, e), s1))
    (hrow : postgres.Query.FindValidRefreshToken (c.passwordHasher.HashToken token) w.db = none) :
    uc.RefreshToken token s = ((none, some Err.ErrInvalidToken), s1) ∧
    uc.Logout token s = (some Err.ErrInvalidToken, s1) ∧
    (authUC c).RefreshToken token w = ((none, some Err.ErrInvalidToken), w) ∧
    (authUC c).Logout token w = (some Err.ErrInvalidToken, w) := by
  refine ⟨?_, ?_, ?_, ?_⟩
  · cases e <;> simp [AuthUsecase.RefreshToken, hfind]
  · cases e <;> simp [AuthUsecase.Logout, hfind]
  · simp [AuthUsecase.RefreshToken, authUC, authUCOn, postgres.NewAuthRepository, World.onDB,
      postgres.FindValidRefreshToken_healthy, hrow]
  · simp [AuthUsecase.Logout, authUC, authUCOn, postgres.NewAuthRepository, World.onDB,
      postgres.FindValidRefreshToken_healthy, hrow]

/-- Witness of C8 on the test doubles: a token that was never issued. -/
theorem invalid_refresh_token_rejected_witness :
    (authUC mock.collaborators).RefreshToken "invalid-token" mock.world0
      = ((none, some Err.ErrInvalidToken), mock.world0) ∧
    (authUC mock.collaborators).Logout "invalid-token" mock.world0
      = (some Err.ErrInvalidToken, mock.world0) ∧
    (authUC mock.collaborators).RefreshToken "invalid-token" mock.world0
      = ((none, some Err.ErrInvalidToken), mock.world0) ∧
    (authUC mock.collaborators).Logout "invalid-token" mock.world0
      = (some Err.ErrInvalidToken, mock.world0) :=
  invalid_refresh_token_rejected (authUC mock.collaborators) mock.collaborators
    "invalid-token" mock.world0 mock.world0 none mock.world0 (by rfl) (by rfl)

/-- C10: a successful `Login`.  With an existing user whose password
verifies, and the issuer and the store succeeding, `Login` returns the access
token minted for `(user.ID, user.RoleID)` and the issuer's plaintext refresh
token; its one store write is `StoreRefreshToken` of the row with
`UserID = user.ID`, the issuer's hash, `Revoked = false` and
`ExpiresAt = now + 7 days`.  Over the SQL repository the table
`refresh_tokens` grows by exactly that row and the other tables are
unchanged. -/
theorem login_success (uc : AuthUsecase σ) (c : Collaborators γ) (req : LoginInput)
    (user : User) (accessToken plain hash id : String) (t1 t2 t3 : Time)
    (s s1 s2 s3 s4 s5 s6 s7 s8 : σ) (w : World γ) (g1 g2 g3 g4 g5 g6 : γ)
    (hfind : uc.repository.FindUserByEmail req.Email s = ((some user, none), s1))
    (hpw : uc.passwordHasher.VerifyPassword req.Password user.PasswordHash = true)
    (haccess : uc.token.GenerateAccessToken user.ID user.RoleID s1 = ((accessToken, none), s2))
    (hrefresh : uc.token.GenerateRefreshToken s2 = ((plain, hash, none), s3))
    (hid : uc.uuid.GenerateID s3 = (id, s4))
    (hnow1 : uc.now s4 = (t1, s5)) (hnow2 : uc.now s5 = (t2, s6)) (hnow3 : uc.now s6 = (t3, s7))
    (hstore : uc.repository.StoreRefreshToken
      { ID := id, UserID := user.ID, TokenHash := hash, Revoked := false,
        ExpiresAt := t1 + 7 * (24 * Hour), CreatedAt := t2, UpdatedAt := t3 } s7 = (none, s8))
    (hfindW : postgres.Query.FindUserByEmail req.Email w.db = some user)
    (hpwW : c.passwordHasher.VerifyPassword req.Password user.PasswordHash = true)
    (haccessW : c.token.GenerateAccessToken user.ID user.RoleID w.env = ((accessToken, none), g1))
    (hrefreshW : c.token.GenerateRefreshToken g1 = ((plain, hash, none), g2))
    (hidW : c.uuid.GenerateID g2 = (id, g3))
    (hnow1W : c.now g3 = (t1, g4)) (hnow2W : c.now g4 = (t2, g5)) (hnow3W : c.now g5 = (t3, g6)) :
    uc.Login req s
      = ((some { AccessToken := accessToken, RefreshToken := plain }, none), s8) ∧
    (authUC c).Login req w
      = ((some { AccessToken := accessToken, RefreshToken := plain }, none),
         { db := { w.db with refresh_tokens := w.db.refresh_tokens ++
                    [{ ID := id, UserID := user.ID, TokenHash := hash, Revoked := false,
                       ExpiresAt := t1 + 7 * (24 * Hour), CreatedAt := t2, UpdatedAt := t3 }] }
           env := g6 }) := by
  have hdur : Hour * 24 * 7 = 7 * (24 * Hour) := by ring
  constructor
  · simp [AuthUsecase.Login, newRefreshTokenRow, hfind, hpw, haccess, hrefresh, hid, hnow1,
      hnow2, hnow3, Time.Add, hdur, hstore]
  · simp [AuthUsecase.Login, newRefreshTokenRow, authUC, authUCOn, postgres.NewAuthRepository, World.onDB,
      World.onEnv, postgres.FindUserByEmail_healthy, postgres.StoreRefreshToken_healthy,
      postgres.Query.StoreRefreshToken, hfindW, hpwW, haccessW, hrefreshW, hidW, hnow1W,
      hnow2W, hnow3W, Time.Add, hdur]

/-- Seven days in nanoseconds, the refresh-token window of `Login`. -/
theorem seven_days : 7 * (24 * Hour) = 604800 * 1000000000 := by decide

/-- Witness of C10 on the test doubles (the "valid credentials" test). -/
theorem login_success_witness :
    (authUC mock.collaborators).Login
        { Email := "test@example.com", Password := "password123" } mock.world0
      = ((some { AccessToken := "access-token-user-123",
                 RefreshToken := "refresh-token-plain" }, none),
         { db := { mock.world0.db with refresh_tokens := mock.world0.db.refresh_tokens ++
                    [{ ID := "test-uuid-123", UserID := "user-123",
                       TokenHash := "refresh-token-hash", Revoked := false,
                       ExpiresAt := mock.fixedTime + 7 * (24 * Hour),
                       CreatedAt := mock.fixedTime, UpdatedAt := mock.fixedTime }] }
           env := mock.bus0 }) ∧
    (authUC mock.collaborators).Login
        { Email := "test@example.com", Password := "password123" } mock.world0
      = ((some { AccessToken := "access-token-user-123",
                 RefreshToken := "refresh-token-plain" }, none),
         { db := { mock.world0.db with refresh_tokens := mock.world0.db.refresh_tokens ++
                    [{ ID := "test-uuid-123", UserID := "user-123",
                       TokenHash := "refresh-token-hash", Revoked := false,
                       ExpiresAt := mock.fixedTime + 7 * (24 * Hour),
                       CreatedAt := mock.fixedTime, UpdatedAt := mock.fixedTime }] }
           env := mock.bus0 }) :=
  login_success (authUC mock.collaborators) mock.collaborators
    { Email := "test@example.com", Password := "password123" } mock.user123
    "access-token-user-123" "refresh-token-plain" "refresh-token-hash" "test-uuid-123"
    mock.fixedTime mock.fixedTime mock.fixedTime
    mock.world0 mock.world0 mock.world0 mock.world0 mock.world0 mock.world0 mock.world0
    mock.world0 _ mock.world0 mock.bus0 mock.bus0 mock.bus0 mock.bus0 mock.bus0 mock.bus0
    (by rfl) (by decide) (by rfl) (by rfl) (by rfl) (by rfl) (by rfl) (by rfl) (by rfl)
    (by rfl) (by decide) (by rfl) (by rfl) (by rfl) (by rfl) (by rfl) (by rfl)

end single_call

section traces

variable {σ γ : Type}

open usecase

/-- Recording does not change what `Register` returns or does to the state. -/
theorem traced_Register (uc : AuthUsecase σ) (req : RegisterInput) (s : σ)
    (l : List Invocation) :
    (uc.traced.Register req (s, l)).1 = (uc.Register req s).1 ∧
    (uc.traced.Register req (s, l)).2.1 = (uc.Register req s).2 := by
  simp only [AuthUsecase.Register, AuthUsecase.traced, record]
  generalize uc.repository.FindUserByEmail req.Email s = r1
  rcases r1 with ⟨⟨_ | user, e⟩, s1⟩
  · simp only
    split
    · exact ⟨rfl, rfl⟩
    · generalize uc.passwordHasher.HashPassword req.Password s1 = r2
      rcases r2 with ⟨⟨hash, _ | err⟩, s2⟩
      · exact ⟨rfl, rfl⟩
      · exact ⟨rfl, rfl⟩
  · exact ⟨rfl, rfl⟩

/-- Recording does not change what `Login` returns or does to the state. -/
theorem traced_Login (uc : AuthUsecase σ) (req : LoginInput) (s : σ) (l : List Invocation) :
    (uc.traced.Login req (s, l)).1 = (uc.Login req s).1 ∧
    (uc.traced.Login req (s, l)).2.1 = (uc.Login req s).2 := by
  simp only [AuthUsecase.Login, newRefreshTokenRow, AuthUsecase.traced, record]
  generalize uc.repository.FindUserByEmail req.Email s = r1
  rcases r1 with ⟨⟨_ | user, _ | e⟩, s1⟩ <;> try exact ⟨rfl, rfl⟩
  simp only
  split
  · exact ⟨rfl, rfl⟩
  · generalize uc.token.GenerateAccessToken user.ID user.RoleID s1 = r2
    rcases r2 with ⟨⟨accessToken, _ | err⟩, s2⟩ <;> try exact ⟨rfl, rfl⟩
    simp only
    generalize uc.token.GenerateRefreshToken s2 = r3
    rcases r3 with ⟨⟨plain, hash, _ | err⟩, s3⟩ <;> try exact ⟨rfl, rfl⟩
    simp only
    generalize uc.repository.StoreRefreshToken _ _ = r4
    rcases r4 with ⟨_ | err, s5⟩ <;> exact ⟨rfl, rfl⟩

/-- Recording does not change what `RefreshToken` returns or does to the
state. -/
theorem traced_RefreshToken (uc : AuthUsecase σ) (token : String) (s : σ)
    (l : List Invocation) :
    (uc.traced.RefreshToken token (s, l)).1 = (uc.RefreshToken token s).1 ∧
    (uc.traced.RefreshToken token (s, l)).2.1 = (uc.RefreshToken token s).2 := by
  simp only [AuthUsecase.RefreshToken, newRefreshTokenRow, AuthUsecase.traced, record]
  generalize uc.repository.FindValidRefreshToken (uc.passwordHasher.HashToken token) s = r1
  rcases r1 with ⟨⟨_ | row, _ | e⟩, s1⟩ <;> try exact ⟨rfl, rfl⟩
  simp only
  generalize uc.token.GenerateAccessToken row.UserID ""
    (uc.repository.RevokeRefreshToken row.TokenHash s1).2 = r2
  rcases r2 with ⟨⟨accessToken, _ | err⟩, s3⟩ <;> try exact ⟨rfl, rfl⟩
  simp only
  generalize uc.token.GenerateRefreshToken s3 = r3
  rcases r3 with ⟨⟨plain, hash, _ | err⟩, s4⟩ <;> exact ⟨rfl, rfl⟩

/-- Recording does not change what `ForgotPassword` returns or does to the
state. -/
theorem traced_ForgotPassword (uc : AuthUsecase σ) (email : String) (s : σ)
    (l : List Invocation) :
    (uc.traced.ForgotPassword email (s, l)).1 = (uc.ForgotPassword email s).1 ∧
    (uc.traced.ForgotPassword email (s, l)).2.1 = (uc.ForgotPassword email s).2 := by
  simp only [AuthUsecase.ForgotPassword, AuthUsecase.traced, record,
    event.Publisher.ForgotPassword]
  generalize uc.repository.FindUserByEmail email s = r1
  rcases r1 with ⟨⟨_ | user, _ | e⟩, s1⟩ <;> try exact ⟨rfl, rfl⟩
  simp only
  generalize uc.passwordHasher.GenerateRandomToken s1 = r2
  rcases r2 with ⟨⟨token, _ | err⟩, s2⟩ <;> try exact ⟨rfl, rfl⟩
  simp only
  generalize uc.repository.StorePasswordReset _ _ = r3
  rcases r3 with ⟨_ | err, s7⟩ <;> try exact ⟨rfl, rfl⟩
  simp only
  generalize uc.eventPub.marshal _ = r4
  rcases r4 with ⟨data, _ | merr⟩ <;> exact ⟨trivial, rfl⟩

/-- Recording does not change what `ResetPassword` returns or does to the
state. -/
theorem traced_ResetPassword (uc : AuthUsecase σ) (req : ResetPasswordInput) (s : σ)
    (l : List Invocation) :
    (uc.traced.ResetPassword req (s, l)).1 = (uc.ResetPassword req s).1 ∧
    (uc.traced.ResetPassword req (s, l)).2.1 = (uc.ResetPassword req s).2 := by
  simp only [AuthUsecase.ResetPassword, AuthUsecase.traced, record]
  generalize uc.repository.FindValidPasswordReset (uc.passwordHasher.HashToken req.Token) s = r1
  rcases r1 with ⟨⟨_ | pr, _ | e⟩, s1⟩ <;> try exact ⟨rfl, rfl⟩
  simp only
  split
  · exact ⟨rfl, rfl⟩
  · split
    · exact ⟨rfl, rfl⟩
    · generalize uc.repository.FindUserByID pr.UserID (uc.now s1).2 = r3
      rcases r3 with ⟨⟨user, _ | e⟩, s3⟩ <;> try exact ⟨rfl, rfl⟩
      simp only
      generalize uc.passwordHasher.HashPassword req.NewPassword s3 = r4
      rcases r4 with ⟨⟨hashedPassword, _ | err⟩, s4⟩ <;> try exact ⟨rfl, rfl⟩
      rcases user with _ | user <;> exact ⟨rfl, rfl⟩

/-- Recording does not change what `Logout` returns or does to the state. -/
theorem traced_Logout (uc : AuthUsecase σ) (refreshToken : String) (s : σ)
    (l : List Invocation) :
    (uc.traced.Logout refreshToken (s, l)).1 = (uc.Logout refreshToken s).1 ∧
    (uc.traced.Logout refreshToken (s, l)).2.1 = (uc.Logout refreshToken s).2 := by
  simp only [AuthUsecase.Logout, AuthUsecase.traced, record]
  generalize uc.repository.FindValidRefreshToken (uc.passwordHasher.HashToken refreshToken) s
    = r1
  rcases r1 with ⟨⟨_ | row, _ | e⟩, s1⟩ <;> exact ⟨rfl, rfl⟩

/-- C14: `Register` with an unused email and a confirmation that differs
from the password returns `ErrPasswordNotMatch`.  The only collaborator call
it makes is the lookup `FindUserByEmail`: the password hasher is not called
and no user is created, and the state returned is the one the lookup left. -/
theorem register_password_mismatch (uc : AuthUsecase σ) (req : RegisterInput)
    (s s1 : σ) (e : Option Err) (l : List Invocation)
    (hfind : uc.repository.FindUserByEmail req.Email s = ((none, e), s1))
    (hpw : req.Password ≠ req.PasswordConfirmation) :
    uc.Register req s = (some Err.ErrPasswordNotMatch, s1) ∧
    uc.traced.Register req (s, l)
      = (some Err.ErrPasswordNotMatch, (s1, l ++ [Invocation.FindUserByEmail req.Email])) := by
  constructor
  · simp [AuthUsecase.Register, hfind, hpw]
  · simp [AuthUsecase.Register, AuthUsecase.traced, record, hfind, hpw]

/-- Witness of C14 on the test doubles (the "password confirmation mismatch"
test), from a store without users. -/
theorem register_password_mismatch_witness :
    (authUC mock.collaborators).Register
        { Name := "Test User", Email := "test@example.com", Password := "password123",
          PasswordConfirmation := "different" }
        { mock.world0 with db := { mock.world0.db with users := [] } }
      = (some Err.ErrPasswordNotMatch,
          { mock.world0 with db := { mock.world0.db with users := [] } }) ∧
    (authUC mock.collaborators).traced.Register
        { Name := "Test User", Email := "test@example.com", Password := "password123",
          PasswordConfirmation := "different" }
        ({ mock.world0 with db := { mock.world0.db with users := [] } }, [])
      = (some Err.ErrPasswordNotMatch,
          ({ mock.world0 with db := { mock.world0.db with users := [] } },
           [] ++ [Invocation.FindUserByEmail "test@example.com"])) :=
  register_password_mismatch (authUC mock.collaborators)
    { Name := "Test User", Email := "test@example.com", Password := "password123",
      PasswordConfirmation := "different" }
    { mock.world0 with db := { mock.world0.db with users := [] } }
    { mock.world0 with db := { mock.world0.db with users := [] } } none []
    (by rfl) (by decide)

/-- C13: a successful `Register`.  With an unused email, matching password
and confirmation, and the hasher and the store succeeding, `Register` returns
`nil`; the calls it makes are the lookup, `HashPassword(Password)`, the id
generator, two readings of the clock and exactly one `CreateUser`, whose user
has the input `Name` and `Email`, the hash just computed, `RoleIDUser` and the
generated id.  No token is issued and no refresh-token row is stored: such
calls do not occur in the trace. -/
theorem register_success (uc : AuthUsecase σ) (req : RegisterInput)
    (hash id : String) (t1 t2 : Time) (e : Option Err) (s s1 s2 s3 s4 s5 s6 : σ)
    (l : List Invocation)
    (hfind : uc.repository.FindUserByEmail req.Email s = ((none, e), s1))
    (hpw : req.Password = req.PasswordConfirmation)
    (hhash : uc.passwordHasher.HashPassword req.Password s1 = ((hash, none), s2))
    (hid : uc.uuid.GenerateID s2 = (id, s3))
    (hnow1 : uc.now s3 = (t1, s4)) (hnow2 : uc.now s4 = (t2, s5))
    (hcreate : uc.repository.CreateUser
      { ID := id, Name := req.Name, Email := req.Email, PasswordHash := hash,
        RoleID := RoleIDUser, CreatedAt := t1, UpdatedAt := t2 } s5 = (none, s6)) :
    uc.Register req s = (none, s6) ∧
    uc.traced.Register req (s, l)
      = (none, (s6, l ++
          [Invocation.FindUserByEmail req.Email,
           Invocation.HashPassword req.Password,
           Invocation.GenerateID,
           Invocation.now,
           Invocation.now,
           Invocation.CreateUser
             { ID := id, Name := req.Name, Email := req.Email, PasswordHash := hash,
               RoleID := RoleIDUser, CreatedAt := t1, UpdatedAt := t2 }])) := by
  rw [hpw] at hhash
  constructor
  · simp [AuthUsecase.Register, hfind, hpw, hhash, hid, hnow1, hnow2, hcreate]
  · simp [AuthUsecase.Register, AuthUsecase.traced, record, hfind, hpw, hhash, hid, hnow1,
      hnow2, hcreate]

/-- Witness of C13 on the test doubles (the "valid registration" test), from a
store without users: the user row is the only thing added. -/
theorem register_success_witness :
    (authUC mock.collaborators).Register
        { Name := "Test User", Email := "test@example.com", Password := "password123",
          PasswordConfirmation := "password123" }
        { mock.world0 with db := { mock.world0.db with users := [] } }
      = (none, { mock.world0 with db := { mock.world0.db with users :=
          [{ ID := "test-uuid-123", Name := "Test User", Email := "test@example.com",
             PasswordHash := "hashed-password123", RoleID := RoleIDUser,
             CreatedAt := mock.fixedTime, UpdatedAt := mock.fixedTime }] } }) ∧
    (authUC mock.collaborators).traced.Register
        { Name := "Test User", Email := "test@example.com", Password := "password123",
          PasswordConfirmation := "password123" }
        ({ mock.world0 with db := { mock.world0.db with users := [] } }, [])
      = (none, ({ mock.world0 with db := { mock.world0.db with users :=
          [{ ID := "test-uuid-123", Name := "Test User", Email := "test@example.com",
             PasswordHash := "hashed-password123", RoleID := RoleIDUser,
             CreatedAt := mock.fixedTime, UpdatedAt := mock.fixedTime }] } },
          [] ++
          [Invocation.FindUserByEmail "test@example.com",
           Invocation.HashPassword "password123",
           Invocation.GenerateID,
           Invocation.now,
           Invocation.now,
           Invocation.CreateUser
             { ID := "test-uuid-123", Name := "Test User", Email := "test@example.com",
               PasswordHash := "hashed-password123", RoleID := RoleIDUser,
               CreatedAt := mock.fixedTime, UpdatedAt := mock.fixedTime }])) :=
  register_success (authUC mock.collaborators)
    { Name := "Test User", Email := "test@example.com", Password := "password123",
      PasswordConfirmation := "password123" }
    "hashed-password123" "test-uuid-123" mock.fixedTime mock.fixedTime none
    { mock.world0 with db := { mock.world0.db with users := [] } }
    { mock.world0 with db := { mock.world0.db with users := [] } }
    { mock.world0 with db := { mock.world0.db with users := [] } }
    { mock.world0 with db := { mock.world0.db with users := [] } }
    { mock.world0 with db := { mock.world0.db with users := [] } }
    { mock.world0 with db := { mock.world0.db with users := [] } }
    _ [] (by rfl) (by rfl) (by rfl) (by rfl) (by rfl) (by rfl) (by rfl)

/-- C16: `ForgotPassword` for an email the store does not know returns
`ErrUserNotFound`.  The only collaborator call it makes is the lookup: no
`StorePasswordReset` and no publish occur, and the state returned is the one
the lookup left; over the SQL repository the whole service state is
unchanged. -/
theorem forgot_password_unknown_email (uc : AuthUsecase σ) (c : Collaborators γ)
    (email : String) (s s1 : σ) (e : Option Err) (l : List Invocation) (w : World γ)
    (hfind : uc.repository.FindUserByEmail email s = ((none, e), s1))
    (hrow : postgres.Query.FindUserByEmail email w.db = none) :
    uc.ForgotPassword email s = (some Err.ErrUserNotFound, s1) ∧
    uc.traced.ForgotPassword email (s, l)
      = (some Err.ErrUserNotFound, (s1, l ++ [Invocation.FindUserByEmail email])) ∧
    (authUC c).ForgotPassword email w = (some Err.ErrUserNotFound, w) := by
  refine ⟨?_, ?_, ?_⟩
  · cases e <;> simp [AuthUsecase.ForgotPassword, hfind]
  · cases e <;> simp [AuthUsecase.ForgotPassword, AuthUsecase.traced, record, hfind]
  · simp [AuthUsecase.ForgotPassword, authUC, authUCOn, postgres.NewAuthRepository, World.onDB,
      postgres.FindUserByEmail_healthy, hrow]

/-- Witness of C16 on the test doubles (the "user not found" test). -/
theorem forgot_password_unknown_email_witness :
    (authUC mock.collaborators).ForgotPassword "nonexistent@example.com" mock.world0
      = (some Err.ErrUserNotFound, mock.world0) ∧
    (authUC mock.collaborators).traced.ForgotPassword "nonexistent@example.com"
        (mock.world0, [])
      = (some Err.ErrUserNotFound,
          (mock.world0, [] ++ [Invocation.FindUserByEmail "nonexistent@example.com"])) ∧
    (authUC mock.collaborators).ForgotPassword "nonexistent@example.com" mock.world0
      = (some Err.ErrUserNotFound, mock.world0) :=
  forgot_password_unknown_email (authUC mock.collaborators) mock.collaborators
    "nonexistent@example.com" mock.world0 mock.world0 none [] mock.world0 (by rfl) (by rfl)

/-- The calls of a successful `RefreshToken` on a matched row `r`, whatever
the two writes return.  The controller
revokes by `r.TokenHash`, asks the issuer for an access token and a new
refresh-token pair, and makes exactly one `StoreRefreshToken` call, with the
row `UserID = r.UserID`, `TokenHash =` the issuer's hash of the new plaintext,
`Revoked = false`, `ExpiresAt = now + 7 days`; it returns the new plaintext.
Over the SQL repository on a handle without faults the post-state holds `r`
revoked and the table `refresh_tokens` has grown by exactly that row. -/
theorem refresh_token_rotation_success (uc : AuthUsecase σ) (c : Collaborators γ)
    (token : String) (r : RefreshToken) (accessToken plain hashNew id : String)
    (t1 t2 t3 : Time) (e2 e9 : Option Err) (s s1 s2 s3 s4 s5 s6 s7 s8 s9 : σ)
    (l : List Invocation) (w : World γ) (g1 g2 g3 g4 g5 g6 : γ)
    (hfind : uc.repository.FindValidRefreshToken (uc.passwordHasher.HashToken token) s
      = ((some r, none), s1))
    (hrevoke : uc.repository.RevokeRefreshToken r.TokenHash s1 = (e2, s2))
    (haccess : uc.token.GenerateAccessToken r.UserID "" s2 = ((accessToken, none), s3))
    (hrefresh : uc.token.GenerateRefreshToken s3 = ((plain, hashNew, none), s4))
    (hid : uc.uuid.GenerateID s4 = (id, s5))
    (hnow1 : uc.now s5 = (t1, s6)) (hnow2 : uc.now s6 = (t2, s7)) (hnow3 : uc.now s7 = (t3, s8))
    (hstore : uc.repository.StoreRefreshToken
      { ID := id, UserID := r.UserID, TokenHash := hashNew, Revoked := false,
        ExpiresAt := t1 + 7 * (24 * Hour), CreatedAt := t2, UpdatedAt := t3 } s8 = (e9, s9))
    (hfindW : postgres.Query.FindValidRefreshToken (c.passwordHasher.HashToken token) w.db
      = some r)
    (haccessW : c.token.GenerateAccessToken r.UserID "" w.env = ((accessToken, none), g1))
    (hrefreshW : c.token.GenerateRefreshToken g1 = ((plain, hashNew, none), g2))
    (hidW : c.uuid.GenerateID g2 = (id, g3))
    (hnow1W : c.now g3 = (t1, g4)) (hnow2W : c.now g4 = (t2, g5)) (hnow3W : c.now g5 = (t3, g6)) :
    uc.traced.RefreshToken token (s, l)
      = ((some { AccessToken := accessToken, RefreshToken := plain }, none),
         (s9, l ++
          [Invocation.FindValidRefreshToken (uc.passwordHasher.HashToken token),
           Invocation.RevokeRefreshToken r.TokenHash,
           Invocation.GenerateAccessToken r.UserID "",
           Invocation.GenerateRefreshToken,
           Invocation.GenerateID,
           Invocation.now,
           Invocation.now,
           Invocation.now,
           Invocation.StoreRefreshToken
             { ID := id, UserID := r.UserID, TokenHash := hashNew, Revoked := false,
               ExpiresAt := t1 + 7 * (24 * Hour), CreatedAt := t2, UpdatedAt := t3 }])) ∧
    (authUC c).RefreshToken token w
      = ((some { AccessToken := accessToken, RefreshToken := plain }, none),
         { db := { w.db with refresh_tokens :=
                    w.db.refresh_tokens.map (fun t =>
                      if t.TokenHash = r.TokenHash then { t with Revoked := true } else t) ++
                    [{ ID := id, UserID := r.UserID, TokenHash := hashNew, Revoked := false,
                       ExpiresAt := t1 + 7 * (24 * Hour), CreatedAt := t2, UpdatedAt := t3 }] }
           env := g6 }) ∧
    r ∈ w.db.refresh_tokens ∧
    { r with Revoked := true } ∈ ((authUC c).RefreshToken token w).2.db.refresh_tokens := by
  have hdur : Hour * 24 * 7 = 7 * (24 * Hour) := by ring
  have hsql : (authUC c).RefreshToken token w
      = ((some { AccessToken := accessToken, RefreshToken := plain }, none),
         { db := { w.db with refresh_tokens :=
                    w.db.refresh_tokens.map (fun t =>
                      if t.TokenHash = r.TokenHash then { t with Revoked := true } else t) ++
                    [{ ID := id, UserID := r.UserID, TokenHash := hashNew, Revoked := false,
                       ExpiresAt := t1 + 7 * (24 * Hour), CreatedAt := t2, UpdatedAt := t3 }] }
           env := g6 }) := by
    simp [AuthUsecase.RefreshToken, newRefreshTokenRow, authUC, authUCOn, postgres.NewAuthRepository,
      World.onDB, World.onEnv, postgres.FindValidRefreshToken_healthy, postgres.RevokeRefreshToken_healthy,
      postgres.StoreRefreshToken_healthy, postgres.Query.StoreRefreshToken,
      postgres.Query.RevokeRefreshToken, hfindW, haccessW, hrefreshW, hidW, hnow1W, hnow2W,
      hnow3W, Time.Add, hdur]
  have hmem := (FindValidRefreshToken_some hfindW).1
  refine ⟨?_, hsql, hmem, ?_⟩
  · simp [AuthUsecase.RefreshToken, newRefreshTokenRow, AuthUsecase.traced, record, hfind,
      hrevoke, haccess, hrefresh, hid, hnow1, hnow2, hnow3, hstore, Time.Add, hdur]
  · rw [hsql]
    simp only [List.mem_append, List.mem_map]
    exact Or.inl ⟨r, hmem, by simp⟩

/-- The calls of a successful `RefreshToken` on the test doubles: rotating
the live token of `user-123`. -/
theorem refresh_token_rotation_success_witness :
    (authUC mock.collaborators).traced.RefreshToken "valid-refresh-token" (mock.world0, [])
      = ((some { AccessToken := "access-token-user-123",
                 RefreshToken := "refresh-token-plain" }, none),
         ((authUC mock.collaborators).RefreshToken "valid-refresh-token" mock.world0).2,
          [] ++
          [Invocation.FindValidRefreshToken "sha256-valid-refresh-token",
           Invocation.RevokeRefreshToken "sha256-valid-refresh-token",
           Invocation.GenerateAccessToken "user-123" "",
           Invocation.GenerateRefreshToken,
           Invocation.GenerateID,
           Invocation.now,
           Invocation.now,
           Invocation.now,
           Invocation.StoreRefreshToken
             { ID := "test-uuid-123", UserID := "user-123", TokenHash := "refresh-token-hash",
               Revoked := false, ExpiresAt := mock.fixedTime + 7 * (24 * Hour),
               CreatedAt := mock.fixedTime, UpdatedAt := mock.fixedTime }]) ∧
    ((authUC mock.collaborators).RefreshToken "valid-refresh-token" mock.world0).2.db.refresh_tokens
      = [{ mock.token123 with Revoked := true },
         { ID := "test-uuid-123", UserID := "user-123", TokenHash := "refresh-token-hash",
           Revoked := false, ExpiresAt := mock.fixedTime + 7 * (24 * Hour),
           CreatedAt := mock.fixedTime, UpdatedAt := mock.fixedTime }] :=
  have h := refresh_token_rotation_success (authUC mock.collaborators) mock.collaborators
    "valid-refresh-token" mock.token123 "access-token-user-123" "refresh-token-plain"
    "refresh-token-hash" "test-uuid-123" mock.fixedTime mock.fixedTime mock.fixedTime none none
    mock.world0 mock.world0
    ((authUC mock.collaborators).repository.RevokeRefreshToken "sha256-valid-refresh-token"
      mock.world0).2
    ((authUC mock.collaborators).repository.RevokeRefreshToken "sha256-valid-refresh-token"
      mock.world0).2
    ((authUC mock.collaborators).repository.RevokeRefreshToken "sha256-valid-refresh-token"
      mock.world0).2
    ((authUC mock.collaborators).repository.RevokeRefreshToken "sha256-valid-refresh-token"
      mock.world0).2
    ((authUC mock.collaborators).repository.RevokeRefreshToken "sha256-valid-refresh-token"
      mock.world0).2
    ((authUC mock.collaborators).repository.RevokeRefreshToken "sha256-valid-refresh-token"
      mock.world0).2
    ((authUC mock.collaborators).repository.RevokeRefreshToken "sha256-valid-refresh-token"
      mock.world0).2
    ((authUC mock.collaborators).RefreshToken "valid-refresh-token" mock.world0).2
    [] mock.world0 mock.bus0 mock.bus0 mock.bus0 mock.bus0 mock.bus0 mock.bus0
    (by rfl) (by rfl) (by rfl) (by rfl) (by rfl) (by rfl) (by rfl) (by rfl) (by rfl)
    (by rfl) (by rfl) (by rfl) (by rfl) (by rfl) (by rfl) (by rfl)
  ⟨h.1, by decide⟩

/-- C12 (the code departs from the claim): `RefreshToken` mints the access
token with an empty role.  For `user-123`, whose role identifier is `user`,
`Login` asks the issuer for `(user-123, user)`, while `RefreshToken` on a live
token of the same user asks for `(user-123, "")`: the subject is the row's
user id, the role is the empty string and not the user's role identifier. -/
theorem refresh_token_mints_empty_role :
    mock.user123.ID = "user-123" ∧ mock.user123.RoleID = "user" ∧
    mock.token123.UserID = mock.user123.ID ∧
    ((authUC mock.collaborators).traced.Login
        { Email := "test@example.com", Password := "password123" } (mock.world0, [])).1.2
      = none ∧
    ((authUC mock.collaborators).traced.Login
        { Email := "test@example.com", Password := "password123" } (mock.world0, [])).2.2
      = [Invocation.FindUserByEmail "test@example.com",
         Invocation.GenerateAccessToken "user-123" "user",
         Invocation.GenerateRefreshToken,
         Invocation.GenerateID,
         Invocation.now,
         Invocation.now,
         Invocation.now,
         Invocation.StoreRefreshToken
           { ID := "test-uuid-123", UserID := "user-123", TokenHash := "refresh-token-hash",
             Revoked := false, ExpiresAt := mock.fixedTime + 7 * (24 * Hour),
             CreatedAt := mock.fixedTime, UpdatedAt := mock.fixedTime }] ∧
    ((authUC mock.collaborators).traced.RefreshToken "valid-refresh-token"
        (mock.world0, [])).1.2 = none ∧
    ((authUC mock.collaborators).traced.RefreshToken "valid-refresh-token"
        (mock.world0, [])).2.2.filter
          (fun call => call matches Invocation.GenerateAccessToken _ _)
      = [Invocation.GenerateAccessToken "user-123" ""] := by
  refine ⟨by rfl, by rfl, by rfl, by rfl, by decide, by rfl, by decide⟩

/-- The calls of a successful `ResetPassword` on the reset row `pr` owned by
`user`, for every controller and every input: the three store writes are
`UpdateUserPassword(user.ID, hash)`, `MarkPasswordResetUsed(user.ID)` and
`RevokeRefreshToken(pr.TokenHash)`, and their results are not looked at. -/
theorem ResetPassword_success_calls (uc : AuthUsecase σ) (req : ResetPasswordInput)
    (pr : PasswordReset) (user : User) (now : Time) (hashedPassword : String)
    (e5 e6 e7 : Option Err) (s s1 s2 s3 s4 s5 s6 s7 : σ) (l : List Invocation)
    (hfind : uc.repository.FindValidPasswordReset (uc.passwordHasher.HashToken req.Token) s
      = ((some pr, none), s1))
    (hnow : uc.now s1 = (now, s2))
    (hexp : Time.Before pr.ExpiresAt now = false) (hused : pr.Used = false)
    (huser : uc.repository.FindUserByID pr.UserID s2 = ((some user, none), s3))
    (hhash : uc.passwordHasher.HashPassword req.NewPassword s3 = ((hashedPassword, none), s4))
    (hupdate : uc.repository.UpdateUserPassword user.ID hashedPassword s4 = (e5, s5))
    (hmark : uc.repository.MarkPasswordResetUsed user.ID s5 = (e6, s6))
    (hrevoke : uc.repository.RevokeRefreshToken pr.TokenHash s6 = (e7, s7)) :
    uc.traced.ResetPassword req (s, l)
      = (Outcome.returned none, (s7, l ++
          [Invocation.FindValidPasswordReset (uc.passwordHasher.HashToken req.Token),
           Invocation.now,
           Invocation.FindUserByID pr.UserID,
           Invocation.HashPassword req.NewPassword,
           Invocation.UpdateUserPassword user.ID hashedPassword,
           Invocation.MarkPasswordResetUsed user.ID,
           Invocation.RevokeRefreshToken pr.TokenHash])) := by
  simp [AuthUsecase.ResetPassword, AuthUsecase.traced, record, hfind, hnow, hexp, hused, huser,
    hhash, hupdate, hmark, hrevoke]

/-- C20 (the code departs from the claim): `ResetPassword` passes the user's
id to `MarkPasswordResetUsed`.  On the reset row `reset-123` owned by
`user-123` the call succeeds and the store receives
`UpdateUserPassword(user-123, HashPassword(newPassword))`, as claimed, and
then `MarkPasswordResetUsed(user-123)`: the id of the consumed row,
`reset-123`, is never passed. -/
theorem reset_password_marks_user_id :
    mock.reset123.ID = "reset-123" ∧ mock.reset123.UserID = "user-123" ∧
    ((authUC mock.collaborators).traced.ResetPassword
        { Token := "valid-token", NewPassword := "newpassword123" } (mock.world0, [])).1
      = Outcome.returned none ∧
    ((authUC mock.collaborators).traced.ResetPassword
        { Token := "valid-token", NewPassword := "newpassword123" } (mock.world0, [])).2.2
      = [Invocation.FindValidPasswordReset "sha256-valid-token",
         Invocation.now,
         Invocation.FindUserByID "user-123",
         Invocation.HashPassword "newpassword123",
         Invocation.UpdateUserPassword "user-123" "hashed-newpassword123",
         Invocation.MarkPasswordResetUsed "user-123",
         Invocation.RevokeRefreshToken "sha256-valid-token"] := by
  refine ⟨by rfl, by rfl, by rfl, by decide⟩

theorem rawURLEncode_length (l : List Nat) :
    (helper.rawURLEncode l).length = (4 * l.length + 2) / 3 := by
  induction l using helper.rawURLEncode.induct with
  | case1 a b c rest ih =>
    simp only [helper.rawURLEncode, List.length_cons, ih]
    omega
  | case2 a b => simp [helper.rawURLEncode]
  | case3 a => simp [helper.rawURLEncode]
  | case4 => simp [helper.rawURLEncode]

theorem hexEncodeToString_length (l : List Nat) :
    (helper.hexEncodeToString l).length = 2 * l.length := by
  unfold helper.hexEncodeToString
  rw [String.length_mk]
  induction l with
  | nil => rfl
  | cons b l ih =>
    simp only [List.flatMap_cons, List.length_append, List.length_cons, List.length_nil, ih]
    omega

/-- For `helper.BcryptHasher` the lookup hash of a token has 64 characters and
a generated token has 43, so the lookup hash of a generated token is never
the token itself. -/
theorem BcryptHasher_HashToken_ne (lib : helper.Libraries σ) (s : σ)
    (hgen : ((helper.BcryptHasher lib).GenerateRandomToken s).1.2 = none) :
    (∀ token, ((helper.BcryptHasher lib).HashToken token).length = 64) ∧
    ((helper.BcryptHasher lib).GenerateRandomToken s).1.1.length = 43 ∧
    (helper.BcryptHasher lib).HashToken ((helper.BcryptHasher lib).GenerateRandomToken s).1.1
      ≠ ((helper.BcryptHasher lib).GenerateRandomToken s).1.1 := by
  have h64 : ∀ token, ((helper.BcryptHasher lib).HashToken token).length = 64 := by
    intro token
    simp [helper.BcryptHasher, hexEncodeToString_length]
  have h43 : ((helper.BcryptHasher lib).GenerateRandomToken s).1.1.length = 43 := by
    revert hgen
    simp only [helper.BcryptHasher]
    generalize lib.randRead s = r
    rcases r with ⟨⟨bytes, _ | err⟩, s1⟩
    · intro _
      simp [rawURLEncode_length]
    · intro h
      simp at h
  refine ⟨h64, h43, ?_⟩
  intro heq
  have hlen := congrArg String.length heq
  rw [h64, h43] at hlen
  omega

/-- The store calls of a `ForgotPassword` whose `StorePasswordReset` succeeds:
the lookup and that one write, whatever the publisher does; the call returns
`nil`. -/
theorem ForgotPassword_store_calls (uc : AuthUsecase σ) (email : String) (u : User)
    (k id : String) (t1 t2 t3 : Time) (s s1 s2 s3 s4 s5 s6 s7 : σ)
    (hfind : uc.repository.FindUserByEmail email s = ((some u, none), s1))
    (hgen : uc.passwordHasher.GenerateRandomToken s1 = ((k, none), s2))
    (hid : uc.uuid.GenerateID s2 = (id, s3))
    (hnow1 : uc.now s3 = (t1, s4)) (hnow2 : uc.now s4 = (t2, s5)) (hnow3 : uc.now s5 = (t3, s6))
    (hstore : uc.repository.StorePasswordReset
      { ID := id, UserID := u.ID, TokenHash := uc.passwordHasher.HashToken k, Used := false,
        ExpiresAt := t1 + 15 * Minute, CreatedAt := t2, UpdatedAt := t3 } s6 = (none, s7)) :
    (uc.ForgotPassword email s).1 = none ∧
    (uc.traced.ForgotPassword email (s, [])).1 = none ∧
    (uc.traced.ForgotPassword email (s, [])).2.2.filter Invocation.isStore
      = [Invocation.FindUserByEmail email,
         Invocation.StorePasswordReset
           { ID := id, UserID := u.ID, TokenHash := uc.passwordHasher.HashToken k, Used := false,
             ExpiresAt := t1 + 15 * Minute, CreatedAt := t2, UpdatedAt := t3 }] := by
  refine ⟨?_, ?_, ?_⟩
  · simp [AuthUsecase.ForgotPassword, hfind, hgen, hid, hnow1, hnow2, hnow3, hstore, Time.Add]
  · simp [AuthUsecase.ForgotPassword, AuthUsecase.traced, record, hfind, hgen, hid, hnow1,
      hnow2, hnow3, hstore, Time.Add]
  · simp only [AuthUsecase.ForgotPassword, AuthUsecase.traced, record, hfind, hgen, hid, hnow1,
      hnow2, hnow3, hstore, Time.Add, event.Publisher.ForgotPassword]
    rcases uc.eventPub.marshal
      { Email := u.Email, Token := k, ExpiredAt := (uc.now s7).1 + 15 * Minute }
      with ⟨data, _ | merr⟩ <;> simp [Invocation.isStore]

/-- A `ForgotPassword` that returns an error has made no publish. -/
theorem ForgotPassword_error_no_publish (uc : AuthUsecase σ) (email : String) (s : σ)
    (h : (uc.traced.ForgotPassword email (s, [])).1 ≠ none) :
    ∀ call ∈ (uc.traced.ForgotPassword email (s, [])).2.2, call.isPublish = false := by
  revert h
  simp only [AuthUsecase.ForgotPassword, AuthUsecase.traced, record]
  generalize uc.repository.FindUserByEmail email s = r1
  rcases r1 with ⟨⟨_ | user, _ | e⟩, s1⟩
  · simp [Invocation.isPublish]
  · simp [Invocation.isPublish]
  · simp only
    generalize uc.passwordHasher.GenerateRandomToken s1 = r2
    rcases r2 with ⟨⟨token, _ | err⟩, s2⟩
    · simp only
      generalize uc.repository.StorePasswordReset _ _ = r3
      rcases r3 with ⟨_ | err, s7⟩
      · simp
      · simp [Invocation.isPublish]
    · simp [Invocation.isPublish]
  · simp [Invocation.isPublish]

/-- C17: the reset plaintext never reaches the store.  In a successful
`ForgotPassword` for user `u` with generated token `k`, the store calls are
the lookup by email and one `StorePasswordReset`, of the row with
`UserID = u.ID`, `TokenHash = HashToken(k)`, `Used = false` and
`ExpiresAt = now + 15 minutes`.  When `k` differs from its own lookup hash
and from the values fixed without it (the email, the user's id, the generated
row id), no text argument of any store call equals `k`. -/
theorem forgot_password_stores_only_hash (uc : AuthUsecase σ) (email : String) (u : User)
    (k id : String) (t1 t2 t3 : Time) (s s1 s2 s3 s4 s5 s6 s7 : σ)
    (hfind : uc.repository.FindUserByEmail email s = ((some u, none), s1))
    (hgen : uc.passwordHasher.GenerateRandomToken s1 = ((k, none), s2))
    (hid : uc.uuid.GenerateID s2 = (id, s3))
    (hnow1 : uc.now s3 = (t1, s4)) (hnow2 : uc.now s4 = (t2, s5)) (hnow3 : uc.now s5 = (t3, s6))
    (hstore : uc.repository.StorePasswordReset
      { ID := id, UserID := u.ID, TokenHash := uc.passwordHasher.HashToken k, Used := false,
        ExpiresAt := t1 + 15 * Minute, CreatedAt := t2, UpdatedAt := t3 } s6 = (none, s7))
    (hk_hash : uc.passwordHasher.HashToken k ≠ k)
    (hk_email : email ≠ k) (hk_user : u.ID ≠ k) (hk_id : id ≠ k) :
    (uc.traced.ForgotPassword email (s, [])).1 = none ∧
    (uc.traced.ForgotPassword email (s, [])).2.2.filter Invocation.isStore
      = [Invocation.FindUserByEmail email,
         Invocation.StorePasswordReset
           { ID := id, UserID := u.ID, TokenHash := uc.passwordHasher.HashToken k, Used := false,
             ExpiresAt := t1 + 15 * Minute, CreatedAt := t2, UpdatedAt := t3 }] ∧
    (∀ call ∈ (uc.traced.ForgotPassword email (s, [])).2.2,
      call.isStore = true → k ∉ call.strings) := by
  have h := ForgotPassword_store_calls uc email u k id t1 t2 t3 s s1 s2 s3 s4 s5 s6 s7
    hfind hgen hid hnow1 hnow2 hnow3 hstore
  refine ⟨h.2.1, h.2.2, ?_⟩
  intro call hcall hst
  have hmem : call ∈ (uc.traced.ForgotPassword email (s, [])).2.2.filter Invocation.isStore :=
    List.mem_filter.mpr ⟨hcall, hst⟩
  rw [h.2.2] at hmem
  simp only [List.mem_cons, List.mem_singleton, List.not_mem_nil, or_false] at hmem
  rcases hmem with rfl | rfl
  · simpa [Invocation.strings] using hk_email.symm
  · simp only [Invocation.strings, List.mem_cons, List.mem_singleton, List.not_mem_nil,
      or_false, not_or]
    exact ⟨hk_id.symm, hk_user.symm, hk_hash.symm⟩

/-- Witness of C17 on the test doubles (the "user exists" test). -/
theorem forgot_password_stores_only_hash_witness :
    ((authUC mock.collaborators).traced.ForgotPassword "test@example.com"
        (mock.world0, [])).1 = none ∧
    ((authUC mock.collaborators).traced.ForgotPassword "test@example.com"
        (mock.world0, [])).2.2.filter Invocation.isStore
      = [Invocation.FindUserByEmail "test@example.com",
         Invocation.StorePasswordReset
           { ID := "test-uuid-123", UserID := "user-123", TokenHash := "sha256-random-token",
             Used := false, ExpiresAt := mock.fixedTime + 15 * Minute,
             CreatedAt := mock.fixedTime, UpdatedAt := mock.fixedTime }] ∧
    (∀ call ∈ ((authUC mock.collaborators).traced.ForgotPassword "test@example.com"
        (mock.world0, [])).2.2,
      call.isStore = true → "random-token" ∉ call.strings) :=
  forgot_password_stores_only_hash (authUC mock.collaborators) "test@example.com" mock.user123
    "random-token" "test-uuid-123" mock.fixedTime mock.fixedTime mock.fixedTime
    mock.world0 mock.world0 mock.world0 mock.world0 mock.world0 mock.world0 mock.world0 _
    (by rfl) (by rfl) (by rfl) (by rfl) (by rfl) (by rfl) (by rfl)
    (by decide) (by decide) (by decide) (by decide)

/-- C18: `ForgotPassword` publishes exactly once, and only after the reset row
is stored.  When `StorePasswordReset` has succeeded, the trace ends with one
`Publish` on subject `auth.forgot_password` whose payload encodes the user's
email, the plaintext token `k` (the stored `TokenHash` is `HashToken(k)`) and
`ExpiredAt = now + 15 minutes`, and there is no other publish; the encoding
of the event is taken to succeed.  A call that returns an error (it failed
before or at the store write) has made no publish. -/
theorem forgot_password_publishes_once (uc : AuthUsecase σ) (email : String) (u : User)
    (k id data : String) (t1 t2 t3 t4 : Time) (pe : Option Err)
    (s s1 s2 s3 s4 s5 s6 s7 s8 s9 : σ)
    (hfind : uc.repository.FindUserByEmail email s = ((some u, none), s1))
    (hgen : uc.passwordHasher.GenerateRandomToken s1 = ((k, none), s2))
    (hid : uc.uuid.GenerateID s2 = (id, s3))
    (hnow1 : uc.now s3 = (t1, s4)) (hnow2 : uc.now s4 = (t2, s5)) (hnow3 : uc.now s5 = (t3, s6))
    (hstore : uc.repository.StorePasswordReset
      { ID := id, UserID := u.ID, TokenHash := uc.passwordHasher.HashToken k, Used := false,
        ExpiresAt := t1 + 15 * Minute, CreatedAt := t2, UpdatedAt := t3 } s6 = (none, s7))
    (hnow4 : uc.now s7 = (t4, s8))
    (hmarshal : uc.eventPub.marshal
      { Email := u.Email, Token := k, ExpiredAt := t4 + 15 * Minute } = (data, none))
    (hpub : uc.eventPub.bus.Publish "auth.forgot_password" data s8 = (pe, s9)) :
    uc.traced.ForgotPassword email (s, [])
      = (none, (s9,
          [Invocation.FindUserByEmail email,
           Invocation.GenerateRandomToken,
           Invocation.GenerateID,
           Invocation.now,
           Invocation.now,
           Invocation.now,
           Invocation.StorePasswordReset
             { ID := id, UserID := u.ID, TokenHash := uc.passwordHasher.HashToken k,
               Used := false, ExpiresAt := t1 + 15 * Minute, CreatedAt := t2, UpdatedAt := t3 },
           Invocation.now,
           Invocation.Publish "auth.forgot_password" data])) ∧
    (uc.traced.ForgotPassword email (s, [])).2.2.filter Invocation.isPublish
      = [Invocation.Publish "auth.forgot_password" data] ∧
    (∀ (email1 : String) (s0 : σ), (uc.traced.ForgotPassword email1 (s0, [])).1 ≠ none →
      ∀ call ∈ (uc.traced.ForgotPassword email1 (s0, [])).2.2, call.isPublish = false) := by
  have hsubject : event.ForgotPasswordSubject = "auth.forgot_password" := rfl
  have htrace : uc.traced.ForgotPassword email (s, [])
      = (none, (s9,
          [Invocation.FindUserByEmail email,
           Invocation.GenerateRandomToken,
           Invocation.GenerateID,
           Invocation.now,
           Invocation.now,
           Invocation.now,
           Invocation.StorePasswordReset
             { ID := id, UserID := u.ID, TokenHash := uc.passwordHasher.HashToken k,
               Used := false, ExpiresAt := t1 + 15 * Minute, CreatedAt := t2, UpdatedAt := t3 },
           Invocation.now,
           Invocation.Publish "auth.forgot_password" data])) := by
    simp [AuthUsecase.ForgotPassword, AuthUsecase.traced, record, hfind, hgen, hid, hnow1,
      hnow2, hnow3, hstore, hnow4, Time.Add, event.Publisher.ForgotPassword, hmarshal,
      hsubject, hpub]
  refine ⟨htrace, ?_, fun email1 s0 h => ForgotPassword_error_no_publish uc email1 s0 h⟩
  rw [htrace]
  simp [Invocation.isPublish]

/-- Witness of C18 on the test doubles (the "user exists" test, with the mock
event bus). -/
theorem forgot_password_publishes_once_witness :
    (authUC mock.collaborators).traced.ForgotPassword "test@example.com" (mock.world0, [])
      = (none,
          ({ db := { mock.world0.db with password_resets := mock.world0.db.password_resets ++
                [{ ID := "test-uuid-123", UserID := "user-123",
                   TokenHash := "sha256-random-token", Used := false,
                   ExpiresAt := mock.fixedTime + 15 * Minute,
                   CreatedAt := mock.fixedTime, UpdatedAt := mock.fixedTime }] }
             env := { publishedSubject := "auth.forgot_password",
                      publishedData := "test@example.com random-token" } },
           [Invocation.FindUserByEmail "test@example.com",
            Invocation.GenerateRandomToken,
            Invocation.GenerateID,
            Invocation.now,
            Invocation.now,
            Invocation.now,
            Invocation.StorePasswordReset
              { ID := "test-uuid-123", UserID := "user-123", TokenHash := "sha256-random-token",
                Used := false, ExpiresAt := mock.fixedTime + 15 * Minute,
                CreatedAt := mock.fixedTime, UpdatedAt := mock.fixedTime },
            Invocation.now,
            Invocation.Publish "auth.forgot_password" "test@example.com random-token"])) ∧
    (∀ call ∈ ((authUC mock.collaborators).traced.ForgotPassword "nonexistent@example.com"
        (mock.world0, [])).2.2, call.isPublish = false) :=
  have h := forgot_password_publishes_once (authUC mock.collaborators) "test@example.com"
    mock.user123 "random-token" "test-uuid-123" "test@example.com random-token"
    mock.fixedTime mock.fixedTime mock.fixedTime mock.fixedTime none
    mock.world0 mock.world0 mock.world0 mock.world0 mock.world0 mock.world0 mock.world0
    ((authUC mock.collaborators).repository.StorePasswordReset
      { ID := "test-uuid-123", UserID := "user-123", TokenHash := "sha256-random-token",
        Used := false, ExpiresAt := mock.fixedTime + 15 * Minute,
        CreatedAt := mock.fixedTime, UpdatedAt := mock.fixedTime } mock.world0).2
    ((authUC mock.collaborators).repository.StorePasswordReset
      { ID := "test-uuid-123", UserID := "user-123", TokenHash := "sha256-random-token",
        Used := false, ExpiresAt := mock.fixedTime + 15 * Minute,
        CreatedAt := mock.fixedTime, UpdatedAt := mock.fixedTime } mock.world0).2
    { db := { mock.world0.db with password_resets := mock.world0.db.password_resets ++
          [{ ID := "test-uuid-123", UserID := "user-123",
             TokenHash := "sha256-random-token", Used := false,
             ExpiresAt := mock.fixedTime + 15 * Minute,
             CreatedAt := mock.fixedTime, UpdatedAt := mock.fixedTime }] }
      env := { publishedSubject := "auth.forgot_password",
               publishedData := "test@example.com random-token" } }
    (by rfl) (by rfl) (by rfl) (by rfl) (by rfl) (by rfl) (by rfl) (by rfl) (by rfl) (by rfl)
  ⟨h.1, h.2.2 "nonexistent@example.com" mock.world0 (by decide)⟩

/-- C19: publishing is best-effort.  Once `StorePasswordReset` has succeeded,
`ForgotPassword` returns `nil` both with a publisher that returns `nil` and
with one that returns an error, and in both cases the store calls are the
same: the lookup and the write of the same row. -/
theorem forgot_password_publish_best_effort (uc : AuthUsecase σ)
    (pubOk pubErr : event.Publisher σ) (email : String) (u : User) (k id : String)
    (t1 t2 t3 t4 : Time) (err : Err) (s s1 s2 s3 s4 s5 s6 s7 s8 sOk sErr : σ)
    (hfind : uc.repository.FindUserByEmail email s = ((some u, none), s1))
    (hgen : uc.passwordHasher.GenerateRandomToken s1 = ((k, none), s2))
    (hid : uc.uuid.GenerateID s2 = (id, s3))
    (hnow1 : uc.now s3 = (t1, s4)) (hnow2 : uc.now s4 = (t2, s5)) (hnow3 : uc.now s5 = (t3, s6))
    (hstore : uc.repository.StorePasswordReset
      { ID := id, UserID := u.ID, TokenHash := uc.passwordHasher.HashToken k, Used := false,
        ExpiresAt := t1 + 15 * Minute, CreatedAt := t2, UpdatedAt := t3 } s6 = (none, s7))
    (hnow4 : uc.now s7 = (t4, s8))
    (hok : pubOk.ForgotPassword
      { Email := u.Email, Token := k, ExpiredAt := t4 + 15 * Minute } s8 = (none, sOk))
    (herr : pubErr.ForgotPassword
      { Email := u.Email, Token := k, ExpiredAt := t4 + 15 * Minute } s8 = (some err, sErr)) :
    ({ uc with eventPub := pubOk }).ForgotPassword email s = (none, sOk) ∧
    ({ uc with eventPub := pubErr }).ForgotPassword email s = (none, sErr) ∧
    (({ uc with eventPub := pubOk }).traced.ForgotPassword email (s, [])).2.2.filter
        Invocation.isStore
      = [Invocation.FindUserByEmail email,
         Invocation.StorePasswordReset
           { ID := id, UserID := u.ID, TokenHash := uc.passwordHasher.HashToken k, Used := false,
             ExpiresAt := t1 + 15 * Minute, CreatedAt := t2, UpdatedAt := t3 }] ∧
    (({ uc with eventPub := pubErr }).traced.ForgotPassword email (s, [])).2.2.filter
        Invocation.isStore
      = (({ uc with eventPub := pubOk }).traced.ForgotPassword email (s, [])).2.2.filter
          Invocation.isStore := by
  have hA := ForgotPassword_store_calls { uc with eventPub := pubOk } email u k id t1 t2 t3
    s s1 s2 s3 s4 s5 s6 s7 hfind hgen hid hnow1 hnow2 hnow3 hstore
  have hB := ForgotPassword_store_calls { uc with eventPub := pubErr } email u k id t1 t2 t3
    s s1 s2 s3 s4 s5 s6 s7 hfind hgen hid hnow1 hnow2 hnow3 hstore
  refine ⟨?_, ?_, hA.2.2, hB.2.2.trans hA.2.2.symm⟩
  · simp [AuthUsecase.ForgotPassword, hfind, hgen, hid, hnow1, hnow2, hnow3, hstore, hnow4,
      Time.Add, hok]
  · simp [AuthUsecase.ForgotPassword, hfind, hgen, hid, hnow1, hnow2, hnow3, hstore, hnow4,
      Time.Add, herr]

/-- Witness of C19 on the test doubles: the mock event bus against a bus that
is down. -/
theorem forgot_password_publish_best_effort_witness :
    ({ authUC mock.collaborators with eventPub := (authUC mock.collaborators).eventPub }
        ).ForgotPassword "test@example.com" mock.world0
      = (none,
          { db := { mock.world0.db with password_resets := mock.world0.db.password_resets ++
                [{ ID := "test-uuid-123", UserID := "user-123",
                   TokenHash := "sha256-random-token", Used := false,
                   ExpiresAt := mock.fixedTime + 15 * Minute,
                   CreatedAt := mock.fixedTime, UpdatedAt := mock.fixedTime }] }
            env := { publishedSubject := "auth.forgot_password",
                     publishedData := "test@example.com random-token" } }) ∧
    ({ authUC mock.collaborators with eventPub := mock.failingPublisher _ }
        ).ForgotPassword "test@example.com" mock.world0
      = (none,
          { db := { mock.world0.db with password_resets := mock.world0.db.password_resets ++
                [{ ID := "test-uuid-123", UserID := "user-123",
                   TokenHash := "sha256-random-token", Used := false,
                   ExpiresAt := mock.fixedTime + 15 * Minute,
                   CreatedAt := mock.fixedTime, UpdatedAt := mock.fixedTime }] }
            env := mock.bus0 }) :=
  have h := forgot_password_publish_best_effort (authUC mock.collaborators)
    (authUC mock.collaborators).eventPub (mock.failingPublisher _)
    "test@example.com" mock.user123 "random-token" "test-uuid-123"
    mock.fixedTime mock.fixedTime mock.fixedTime mock.fixedTime
    (Err.other "nats: no servers available")
    mock.world0 mock.world0 mock.world0 mock.world0 mock.world0 mock.world0 mock.world0
    ((authUC mock.collaborators).repository.StorePasswordReset
      { ID := "test-uuid-123", UserID := "user-123", TokenHash := "sha256-random-token",
        Used := false, ExpiresAt := mock.fixedTime + 15 * Minute,
        CreatedAt := mock.fixedTime, UpdatedAt := mock.fixedTime } mock.world0).2
    ((authUC mock.collaborators).repository.StorePasswordReset
      { ID := "test-uuid-123", UserID := "user-123", TokenHash := "sha256-random-token",
        Used := false, ExpiresAt := mock.fixedTime + 15 * Minute,
        CreatedAt := mock.fixedTime, UpdatedAt := mock.fixedTime } mock.world0).2
    { db := { mock.world0.db with password_resets := mock.world0.db.password_resets ++
          [{ ID := "test-uuid-123", UserID := "user-123",
             TokenHash := "sha256-random-token", Used := false,
             ExpiresAt := mock.fixedTime + 15 * Minute,
             CreatedAt := mock.fixedTime, UpdatedAt := mock.fixedTime }] }
      env := { publishedSubject := "auth.forgot_password",
               publishedData := "test@example.com random-token" } }
    { db := { mock.world0.db with password_resets := mock.world0.db.password_resets ++
          [{ ID := "test-uuid-123", UserID := "user-123",
             TokenHash := "sha256-random-token", Used := false,
             ExpiresAt := mock.fixedTime + 15 * Minute,
             CreatedAt := mock.fixedTime, UpdatedAt := mock.fixedTime }] }
      env := mock.bus0 }
    (by rfl) (by rfl) (by rfl) (by rfl) (by rfl) (by rfl) (by rfl) (by rfl) (by rfl) (by rfl)
  ⟨h.1, h.2.1⟩

end traces

section round_trip

variable {γ : Type}

open usecase

/-- A user appended to a table without that email is the one the lookup by
email finds. -/
theorem FindUserByEmail_CreateUser (user : User) (db : postgres.DB)
    (hnone : postgres.Query.FindUserByEmail user.Email db = none) :
    postgres.Query.FindUserByEmail user.Email (postgres.Query.CreateUser user db) = some user := by
  unfold postgres.Query.FindUserByEmail at hnone ⊢
  simp [postgres.Query.CreateUser, List.find?_append, hnone]

/-- `Register` over the SQL repository, for an unused email and a matching
confirmation: it fails with the hasher's error, or appends the new user. -/
theorem authUC_Register_unused (c : Collaborators γ) (name email password : String)
    (w : World γ) (hnone : postgres.Query.FindUserByEmail email w.db = none) :
    (authUC c).Register
        { Name := name, Email := email, Password := password,
          PasswordConfirmation := password } w
      = match (c.passwordHasher.HashPassword password w.env).1.2 with
        | some err => (some err, ⟨w.db, (c.passwordHasher.HashPassword password w.env).2⟩)
        | none =>
          (none,
            ⟨postgres.Query.CreateUser
              { ID := (c.uuid.GenerateID (c.passwordHasher.HashPassword password w.env).2).1
                Name := name
                Email := email
                PasswordHash := (c.passwordHasher.HashPassword password w.env).1.1
                RoleID := RoleIDUser
                CreatedAt := (c.now
                  (c.uuid.GenerateID (c.passwordHasher.HashPassword password w.env).2).2).1
                UpdatedAt := (c.now (c.now
                  (c.uuid.GenerateID (c.passwordHasher.HashPassword password w.env).2).2).2).1 }
              w.db,
             (c.now (c.now
               (c.uuid.GenerateID (c.passwordHasher.HashPassword password w.env).2).2).2).2⟩) := by
  simp only [AuthUsecase.Register, authUC, authUCOn, postgres.NewAuthRepository, World.onDB, World.onEnv,
    postgres.FindUserByEmail_healthy, hnone, ne_eq, not_true_eq_false, if_false]
  generalize c.passwordHasher.HashPassword password w.env = r
  rcases r with ⟨⟨hash, _ | err⟩, g⟩
  · simp [postgres.CreateUser_healthy, postgres.FindUserByEmail_healthy, hnone]
  · rfl

/-- `Login` over the SQL repository succeeds when the user is found, the
password verifies and the issuer succeeds; it returns what the issuer
returned. -/
theorem authUC_Login_found (c : Collaborators γ) (req : LoginInput) (user : User) (w : World γ)
    (hfind : postgres.Query.FindUserByEmail req.Email w.db = some user)
    (hpw : c.passwordHasher.VerifyPassword req.Password user.PasswordHash = true)
    (haccess : (c.token.GenerateAccessToken user.ID user.RoleID w.env).1.2 = none)
    (hrefresh : (c.token.GenerateRefreshToken
      (c.token.GenerateAccessToken user.ID user.RoleID w.env).2).1.2.2 = none) :
    ((authUC c).Login req w).1
      = (some { AccessToken := (c.token.GenerateAccessToken user.ID user.RoleID w.env).1.1
                RefreshToken := (c.token.GenerateRefreshToken
                  (c.token.GenerateAccessToken user.ID user.RoleID w.env).2).1.1 }, none) := by
  simp only [AuthUsecase.Login, newRefreshTokenRow, authUC, authUCOn, postgres.NewAuthRepository,
    World.onDB, World.onEnv, postgres.FindUserByEmail_healthy, hfind, hpw, Bool.not_true,
    Bool.false_eq_true, if_false, postgres.StoreRefreshToken_healthy]
  generalize c.token.GenerateAccessToken user.ID user.RoleID w.env = r1 at haccess hrefresh ⊢
  rcases r1 with ⟨⟨accessToken, e1⟩, g1⟩
  simp only at haccess hrefresh
  subst haccess
  simp only
  generalize c.token.GenerateRefreshToken g1 = r2 at hrefresh ⊢
  rcases r2 with ⟨⟨plain, hash, e2⟩, g2⟩
  simp only at hrefresh
  subst hrefresh
  rfl

/-- Register then login over the SQL repository on a handle without faults,
for any issuer that succeeds with non-empty tokens.  Starting
with no user for the email, with a hasher for which
`VerifyPassword(p, HashPassword(p))` holds and an issuer that succeeds with
non-empty tokens: after `Register(name, email, password, password)` has
returned `nil`, `Login(email, password)` returns a token pair and no error,
and both tokens are non-empty. -/
theorem register_then_login (c : Collaborators γ) (name email password : String) (w : World γ)
    (hnone : postgres.Query.FindUserByEmail email w.db = none)
    (hverify : ∀ p g, (c.passwordHasher.HashPassword p g).1.2 = none →
      c.passwordHasher.VerifyPassword p (c.passwordHasher.HashPassword p g).1.1 = true)
    (haccess : ∀ userID role g, (c.token.GenerateAccessToken userID role g).1.2 = none ∧
      (c.token.GenerateAccessToken userID role g).1.1 ≠ "")
    (hrefresh : ∀ g, (c.token.GenerateRefreshToken g).1.2.2 = none ∧
      (c.token.GenerateRefreshToken g).1.1 ≠ "")
    (hreg : ((authUC c).Register
      { Name := name, Email := email, Password := password,
        PasswordConfirmation := password } w).1 = none) :
    ∃ out : AuthOutput,
      ((authUC c).Login { Email := email, Password := password }
        ((authUC c).Register
          { Name := name, Email := email, Password := password,
            PasswordConfirmation := password } w).2).1 = (some out, none) ∧
      out.AccessToken ≠ "" ∧ out.RefreshToken ≠ "" := by
  rw [authUC_Register_unused c name email password w hnone] at hreg ⊢
  cases hh : (c.passwordHasher.HashPassword password w.env).1.2 with
  | some err => simp [hh] at hreg
  | none =>
    simp only [hh]
    have key : ∀ (user : User) (g : γ), user.Email = email →
        user.PasswordHash = (c.passwordHasher.HashPassword password w.env).1.1 →
        ∃ out : AuthOutput,
          ((authUC c).Login { Email := email, Password := password }
            ⟨postgres.Query.CreateUser user w.db, g⟩).1 = (some out, none) ∧
          out.AccessToken ≠ "" ∧ out.RefreshToken ≠ "" := by
      intro user g hemail hhash
      have hfind : postgres.Query.FindUserByEmail email (postgres.Query.CreateUser user w.db)
          = some user := by
        have h := FindUserByEmail_CreateUser user w.db (by rw [hemail]; exact hnone)
        rwa [hemail] at h
      have hpw : c.passwordHasher.VerifyPassword password user.PasswordHash = true := by
        rw [hhash]
        exact hverify password w.env hh
      exact ⟨_, authUC_Login_found c { Email := email, Password := password } user
        ⟨postgres.Query.CreateUser user w.db, g⟩ hfind hpw (haccess _ _ _).1 (hrefresh _).1,
        (haccess _ _ _).2, (hrefresh _).2⟩
    exact key _ _ rfl rfl

/-- Register then login on the test doubles, the scenario of the specification:
`Register("Ann", "ann@x.com", "pw123456", "pw123456")`, then
`Login("ann@x.com", "pw123456")`. -/
theorem register_then_login_witness :
    ∃ out : AuthOutput,
      ((authUC mock.collaborators).Login { Email := "ann@x.com", Password := "pw123456" }
        ((authUC mock.collaborators).Register
          { Name := "Ann", Email := "ann@x.com", Password := "pw123456",
            PasswordConfirmation := "pw123456" } mock.world0).2).1 = (some out, none) ∧
      out.AccessToken ≠ "" ∧ out.RefreshToken ≠ "" :=
  register_then_login mock.collaborators "Ann" "ann@x.com" "pw123456" mock.world0
    (by rfl)
    (fun p g _ => by simp [mock.collaborators, mock.mockPasswordHasher])
    (fun userID role g => ⟨rfl, by
      simp only [mock.collaborators, mock.mockTokenService]
      intro h
      have hlen := congrArg String.length h
      simp only [String.length_append] at hlen
      have h13 : ("access-token-" : String).length = 13 := by decide
      have h0 : ("" : String).length = 0 := by decide
      omega⟩)
    (fun _ => ⟨rfl, by simp [mock.collaborators, mock.mockTokenService]⟩)
    (by rfl)

end round_trip

section boundary

variable {σ : Type}

open usecase handler

theorem RequireRole_loop_eq_none (roleName : String) (allowedRoles : List String) :
    middleware.RequireRole.loop roleName allowedRoles = none ↔ roleName ∈ allowedRoles := by
  induction allowedRoles with
  | nil => simp [middleware.RequireRole.loop]
  | cons r rest ih =>
    by_cases h : roleName = r
    · simp [middleware.RequireRole.loop, h]
    · simp [middleware.RequireRole.loop, h, ih]

theorem RequireRole_loop_forbidden (roleName : String) (allowedRoles : List String)
    (h : roleName ∉ allowedRoles) :
    middleware.RequireRole.loop roleName allowedRoles
      = some { code := Code.PermissionDenied, message := "forbidden" } := by
  induction allowedRoles with
  | nil => rfl
  | cons r rest ih =>
    simp only [List.mem_cons, not_or] at h
    simp [middleware.RequireRole.loop, h.1, ih h.2]

/-- C22: authorization fails closed.  `RequireRole(allowed...)(ctx)` returns
`nil` exactly when the context carries a user id and a role id (both
strings), the role id is a key of `RoleIDToName` and the mapped name is in
the allowed list.  It returns `Unauthenticated` when the context does not
carry the user, and `PermissionDenied` when the role id is unknown or the
name is not allowed.  The keys of `RoleIDToName` are the three seeded role
ids. -/
theorem require_role_fails_closed (allowedRoles : List String) (ctx : middleware.Context) :
    (middleware.RequireRole allowedRoles ctx = none ↔
      ∃ userID roleID roleName,
        ctx.user_id = some (middleware.Value.string userID) ∧
        ctx.role = some (middleware.Value.string roleID) ∧
        RoleIDToName roleID = some roleName ∧ roleName ∈ allowedRoles) ∧
    ((middleware.FromContext ctx).2.2 = false →
      middleware.RequireRole allowedRoles ctx
        = some { code := Code.Unauthenticated, message := "unauthorized" }) ∧
    (∀ userID roleID, middleware.FromContext ctx = (userID, roleID, true) →
      RoleIDToName roleID = none →
      middleware.RequireRole allowedRoles ctx
        = some { code := Code.PermissionDenied, message := "invalid role id" }) ∧
    (∀ userID roleID roleName, middleware.FromContext ctx = (userID, roleID, true) →
      RoleIDToName roleID = some roleName → roleName ∉ allowedRoles →
      middleware.RequireRole allowedRoles ctx
        = some { code := Code.PermissionDenied, message := "forbidden" }) ∧
    (∀ roleID, (RoleIDToName roleID).isSome = true ↔
      roleID = RoleIDUser ∨ roleID = RoleIDAdmin ∨ roleID = RoleIDSuperAdmin) := by
  refine ⟨?_, ?_, ?_, ?_, ?_⟩
  · rcases ctx with ⟨_ | (uid | _), _ | (rid | _)⟩
    case mk.some.string.some.string =>
      cases hname : RoleIDToName rid with
      | none => simp [middleware.RequireRole, middleware.FromContext, hname]
      | some name =>
        simp [middleware.RequireRole, middleware.FromContext, hname, RequireRole_loop_eq_none]
    all_goals simp [middleware.RequireRole, middleware.FromContext]
  · intro h
    rcases ctx with ⟨_ | (uid | _), _ | (rid | _)⟩ <;>
      simp_all [middleware.RequireRole, middleware.FromContext]
  · intro userID roleID hctx hnone
    simp [middleware.RequireRole, hctx, hnone]
  · intro userID roleID roleName hctx hsome hnot
    simp [middleware.RequireRole, hctx, hsome, RequireRole_loop_forbidden roleName _ hnot]
  · intro roleID
    unfold RoleIDToName
    split_ifs <;> simp_all

/-- Witness of C22: an admin is let through where admins are allowed, a
context without user is unauthenticated, an unknown role id and a role that
is not allowed are denied. -/
theorem require_role_fails_closed_witness :
    middleware.RequireRole ["admin", "super_admin"]
        (middleware.WithUser ⟨none, none⟩ "user-123" RoleIDAdmin) = none ∧
    middleware.RequireRole ["admin"] ⟨none, none⟩
      = some { code := Code.Unauthenticated, message := "unauthorized" } ∧
    middleware.RequireRole ["admin"] (middleware.WithUser ⟨none, none⟩ "user-123" "user")
      = some { code := Code.PermissionDenied, message := "invalid role id" } ∧
    middleware.RequireRole ["admin"] (middleware.WithUser ⟨none, none⟩ "user-123" RoleIDUser)
      = some { code := Code.PermissionDenied, message := "forbidden" } :=
  ⟨(require_role_fails_closed ["admin", "super_admin"]
      (middleware.WithUser ⟨none, none⟩ "user-123" RoleIDAdmin)).1.mpr
      ⟨"user-123", RoleIDAdmin, "admin", rfl, rfl, by decide, by decide⟩,
   (require_role_fails_closed ["admin"] ⟨none, none⟩).2.1 (by rfl),
   (require_role_fails_closed ["admin"]
      (middleware.WithUser ⟨none, none⟩ "user-123" "user")).2.2.1 "user-123" "user"
      (by rfl) (by decide),
   (require_role_fails_closed ["admin"]
      (middleware.WithUser ⟨none, none⟩ "user-123" RoleIDUser)).2.2.2.1 "user-123" RoleIDUser
      "user" (by rfl) (by decide) (by decide)⟩

end boundary

section terminal_states

variable {γ : Type}

open usecase

/-- A predicate on the database that every statement of the SQL repository
keeps is kept by every collaborator call of the controller. -/
theorem authUC_keeps_tables (c : Collaborators γ) (Q : postgres.DB → Prop)
    (hCreateUser : ∀ user db, Q db → Q (postgres.Query.CreateUser user db))
    (hStoreRefreshToken : ∀ row db, Q db → Q (postgres.Query.StoreRefreshToken row db))
    (hRevokeRefreshToken : ∀ h db, Q db → Q (postgres.Query.RevokeRefreshToken h db))
    (hStorePasswordReset : ∀ pr db, Q db → Q (postgres.Query.StorePasswordReset pr db))
    (hMarkPasswordResetUsed : ∀ id db, Q db → Q (postgres.Query.MarkPasswordResetUsed id db))
    (hUpdateUserPassword : ∀ newHash userID db, Q db →
      Q (postgres.Query.UpdateUserPassword newHash userID db)) :
    (authUC c).Keeps (fun w => Q w.db) where
  CreateUser user s hs := by
    simp only [authUC, authUCOn, postgres.NewAuthRepository, World.onDB, postgres.CreateUser_healthy,
      postgres.FindUserByEmail_healthy]
    cases postgres.Query.FindUserByEmail user.Email s.db
    · exact hCreateUser user s.db hs
    · exact hs
  FindUserByEmail email s hs := by
    simp only [authUC, authUCOn, postgres.NewAuthRepository, World.onDB, postgres.FindUserByEmail_healthy]
    cases postgres.Query.FindUserByEmail email s.db <;> exact hs
  FindUserByID id s hs := by
    simp only [authUC, authUCOn, postgres.NewAuthRepository, World.onDB, postgres.FindUserByID_healthy]
    cases postgres.Query.FindUserByID id s.db <;> exact hs
  StoreRefreshToken _ row s _ hs _ := hStoreRefreshToken row s.db hs
  FindValidRefreshToken tokenHash s hs := by
    simp only [authUC, authUCOn, postgres.NewAuthRepository, World.onDB, postgres.FindValidRefreshToken_healthy]
    cases postgres.Query.FindValidRefreshToken tokenHash s.db <;> exact hs
  RevokeRefreshToken tokenHash s hs := hRevokeRefreshToken tokenHash s.db hs
  StorePasswordReset pr s hs := hStorePasswordReset pr s.db hs
  FindValidPasswordReset tokenHash s hs := by
    simp only [authUC, authUCOn, postgres.NewAuthRepository, World.onDB, postgres.FindValidPasswordReset_healthy]
    cases postgres.Query.FindValidPasswordReset tokenHash s.db <;> exact hs
  MarkPasswordResetUsed id s hs := hMarkPasswordResetUsed id s.db hs
  UpdateUserPassword userID newHash s hs := hUpdateUserPassword newHash userID s.db hs
  GenerateAccessToken _ _ _ hs := hs
  GenerateRefreshToken _ hs := hs
  now _ hs := hs
  HashPassword _ _ hs := hs
  GenerateRandomToken _ hs := hs
  GenerateID _ hs := hs
  Publish _ _ _ hs := hs

/-- Every `Call` keeps a predicate that every statement keeps and that does
not read the database clock. -/
theorem exec_keeps_tables (c : Collaborators γ) (Q : postgres.DB → Prop)
    (hP : (authUC c).Keeps (fun w => Q w.db))
    (hTick : ∀ now db, Q db → Q { db with now := now })
    (call : Call) (w : World γ) (hw : Q w.db) : Q (call.exec c w).db := by
  cases call with
  | Register req => exact Register_keeps hP req w hw
  | Login req => exact Login_keeps hP req w hw
  | RefreshToken token => exact RefreshToken_keeps hP token w hw
  | Logout refreshToken => exact Logout_keeps hP refreshToken w hw
  | ForgotPassword email => exact ForgotPassword_keeps hP email w hw
  | ResetPassword req => exact ResetPassword_keeps hP req w hw
  | Tick now => exact hTick now w.db hw

/-- Every history keeps such a predicate. -/
theorem run_keeps_tables (c : Collaborators γ) (Q : postgres.DB → Prop)
    (hP : (authUC c).Keeps (fun w => Q w.db))
    (hTick : ∀ now db, Q db → Q { db with now := now })
    (calls : List Call) (w : World γ) (hw : Q w.db) : Q (run c calls w).db := by
  induction calls generalizing w with
  | nil => exact hw
  | cons call calls ih => exact ih (call.exec c w) (exec_keeps_tables c Q hP hTick call w hw)

/-- A refresh-token row stays in the table, as it is or revoked, under every
collaborator call. -/
theorem authUC_keeps_refresh_row (c : Collaborators γ) (t : RefreshToken) :
    (authUC c).Keeps (fun w =>
      t ∈ w.db.refresh_tokens ∨ { t with Revoked := true } ∈ w.db.refresh_tokens) := by
  refine authUC_keeps_tables c
    (fun db => t ∈ db.refresh_tokens ∨ { t with Revoked := true } ∈ db.refresh_tokens)
    ?_ ?_ ?_ ?_ ?_ ?_
  case refine_1 => exact fun _ _ h => h
  case refine_4 => exact fun _ _ h => h
  case refine_5 => exact fun _ _ h => h
  case refine_6 => exact fun _ _ _ h => h
  · intro row db h
    simp only [postgres.Query.StoreRefreshToken, List.mem_append]
    rcases h with h | h
    · exact Or.inl (Or.inl h)
    · exact Or.inr (Or.inl h)
  · intro hash db h
    simp only [postgres.Query.RevokeRefreshToken, List.mem_map]
    rcases h with h | h
    · by_cases hc : t.TokenHash = hash
      · exact Or.inr ⟨t, h, by simp [hc]⟩
      · exact Or.inl ⟨t, h, by simp [hc]⟩
    · exact Or.inr ⟨_, h, by simp⟩

/-- A password-reset row stays in the table, as it is or used, under every
collaborator call. -/
theorem authUC_keeps_reset_row (c : Collaborators γ) (pr : PasswordReset) :
    (authUC c).Keeps (fun w =>
      pr ∈ w.db.password_resets ∨ { pr with Used := true } ∈ w.db.password_resets) := by
  refine authUC_keeps_tables c
    (fun db => pr ∈ db.password_resets ∨ { pr with Used := true } ∈ db.password_resets)
    ?_ ?_ ?_ ?_ ?_ ?_
  case refine_1 => exact fun _ _ h => h
  case refine_2 => exact fun _ _ h => h
  case refine_3 => exact fun _ _ h => h
  case refine_6 => exact fun _ _ _ h => h
  · intro row db h
    simp only [postgres.Query.StorePasswordReset, List.mem_append]
    rcases h with h | h
    · exact Or.inl (Or.inl h)
    · exact Or.inr (Or.inl h)
  · intro id db h
    simp only [postgres.Query.MarkPasswordResetUsed, List.mem_map]
    rcases h with h | h
    · by_cases hc : pr.ID = id
      · exact Or.inr ⟨pr, h, by simp [hc]⟩
      · exact Or.inl ⟨pr, h, by simp [hc]⟩
    · exact Or.inr ⟨_, h, by simp⟩

/-- C21: terminal states are final.  Over the SQL repository, for each of the
six controller operations (and for the database clock moving) and for every
service state: every refresh-token row that is revoked before is in the table
after, unchanged and so still revoked, and every password-reset row that is
used before is in the table after, still used.  No row is deleted: every row
of either table is in the table after as it was or with its flag set.  The
same holds after every history of calls. -/
theorem terminal_states_final (c : Collaborators γ) (call : Call) (calls : List Call)
    (w : World γ) :
    (∀ t ∈ w.db.refresh_tokens, t.Revoked = true → t ∈ (call.exec c w).db.refresh_tokens) ∧
    (∀ pr ∈ w.db.password_resets, pr.Used = true → pr ∈ (call.exec c w).db.password_resets) ∧
    (∀ t ∈ w.db.refresh_tokens,
      t ∈ (call.exec c w).db.refresh_tokens ∨
      { t with Revoked := true } ∈ (call.exec c w).db.refresh_tokens) ∧
    (∀ pr ∈ w.db.password_resets,
      pr ∈ (call.exec c w).db.password_resets ∨
      { pr with Used := true } ∈ (call.exec c w).db.password_resets) ∧
    (∀ t ∈ w.db.refresh_tokens, t.Revoked = true → t ∈ (run c calls w).db.refresh_tokens) ∧
    (∀ pr ∈ w.db.password_resets, pr.Used = true → pr ∈ (run c calls w).db.password_resets) := by
  have hrt : ∀ t : RefreshToken, t.Revoked = true → { t with Revoked := true } = t := by
    intro t ht
    cases t
    simp_all
  have hpr : ∀ pr : PasswordReset, pr.Used = true → { pr with Used := true } = pr := by
    intro pr hp
    cases pr
    simp_all
  have h1 : ∀ t ∈ w.db.refresh_tokens,
      t ∈ (call.exec c w).db.refresh_tokens ∨
      { t with Revoked := true } ∈ (call.exec c w).db.refresh_tokens := fun t ht =>
    exec_keeps_tables c
      (fun db => t ∈ db.refresh_tokens ∨ { t with Revoked := true } ∈ db.refresh_tokens)
      (authUC_keeps_refresh_row c t) (fun _ _ h => h) call w (Or.inl ht)
  have h2 : ∀ pr ∈ w.db.password_resets,
      pr ∈ (call.exec c w).db.password_resets ∨
      { pr with Used := true } ∈ (call.exec c w).db.password_resets := fun pr hp =>
    exec_keeps_tables c
      (fun db => pr ∈ db.password_resets ∨ { pr with Used := true } ∈ db.password_resets)
      (authUC_keeps_reset_row c pr) (fun _ _ h => h) call w (Or.inl hp)
  have h3 : ∀ t ∈ w.db.refresh_tokens,
      t ∈ (run c calls w).db.refresh_tokens ∨
      { t with Revoked := true } ∈ (run c calls w).db.refresh_tokens := fun t ht =>
    run_keeps_tables c
      (fun db => t ∈ db.refresh_tokens ∨ { t with Revoked := true } ∈ db.refresh_tokens)
      (authUC_keeps_refresh_row c t) (fun _ _ h => h) calls w (Or.inl ht)
  have h4 : ∀ pr ∈ w.db.password_resets,
      pr ∈ (run c calls w).db.password_resets ∨
      { pr with Used := true } ∈ (run c calls w).db.password_resets := fun pr hp =>
    run_keeps_tables c
      (fun db => pr ∈ db.password_resets ∨ { pr with Used := true } ∈ db.password_resets)
      (authUC_keeps_reset_row c pr) (fun _ _ h => h) calls w (Or.inl hp)
  refine ⟨?_, ?_, h1, h2, ?_, ?_⟩
  · intro t ht hrev
    rcases h1 t ht with h | h
    · exact h
    · rwa [hrt t hrev] at h
  · intro pr hp hused
    rcases h2 pr hp with h | h
    · exact h
    · rwa [hpr pr hused] at h
  · intro t ht hrev
    rcases h3 t ht with h | h
    · exact h
    · rwa [hrt t hrev] at h
  · intro pr hp hused
    rcases h4 pr hp with h | h
    · exact h
    · rwa [hpr pr hused] at h

/-- Witness of C21 on the test doubles, from a state whose refresh-token row
is revoked and whose reset row is used: the revoked row is still there after
a `Logout` with its plaintext, and the used row is still there after a
history of a reset attempt, a login and a rotation. -/
theorem terminal_states_final_witness :
    { mock.token123 with Revoked := true } ∈
      ((Call.Logout "valid-refresh-token").exec mock.collaborators
        { mock.world0 with db := { mock.world0.db with
            refresh_tokens := [{ mock.token123 with Revoked := true }]
            password_resets := [{ mock.reset123 with Used := true }] } }).db.refresh_tokens ∧
    { mock.reset123 with Used := true } ∈
      (run mock.collaborators
        [Call.ResetPassword { Token := "valid-token", NewPassword := "newpassword123" },
         Call.Login { Email := "test@example.com", Password := "password123" },
         Call.RefreshToken "refresh-token-plain"]
        { mock.world0 with db := { mock.world0.db with
            refresh_tokens := [{ mock.token123 with Revoked := true }]
            password_resets := [{ mock.reset123 with Used := true }] } }).db.password_resets :=
  ⟨(terminal_states_final mock.collaborators (Call.Logout "valid-refresh-token")
      [Call.ResetPassword { Token := "valid-token", NewPassword := "newpassword123" },
       Call.Login { Email := "test@example.com", Password := "password123" },
       Call.RefreshToken "refresh-token-plain"]
      { mock.world0 with db := { mock.world0.db with
          refresh_tokens := [{ mock.token123 with Revoked := true }]
          password_resets := [{ mock.reset123 with Used := true }] } }).1
      { mock.token123 with Revoked := true } (List.mem_singleton.mpr rfl) rfl,
   (terminal_states_final mock.collaborators (Call.Logout "valid-refresh-token")
      [Call.ResetPassword { Token := "valid-token", NewPassword := "newpassword123" },
       Call.Login { Email := "test@example.com", Password := "password123" },
       Call.RefreshToken "refresh-token-plain"]
      { mock.world0 with db := { mock.world0.db with
          refresh_tokens := [{ mock.token123 with Revoked := true }]
          password_resets := [{ mock.reset123 with Used := true }] } }).2.2.2.2.2
      { mock.reset123 with Used := true } (List.mem_singleton.mpr rfl) rfl⟩

end terminal_states

section boundary_errors

variable {σ : Type}

open usecase handler

/-- For every controller and every non-empty token with no valid row,
`AuthHandler.Refresh` over `AuthUsecase.RefreshToken` answers `Internal`: the
controller returns `ErrInvalidToken`, which is not one of the two errors the
handler maps to `Unauthenticated`. -/
theorem Refresh_of_no_row (uc : AuthUsecase σ) (token : String) (s s1 : σ) (e : Option Err)
    (htoken : token ≠ "")
    (hfind : uc.repository.FindValidRefreshToken (uc.passwordHasher.HashToken token) s
      = ((none, e), s1)) :
    (NewAuthHandler uc).Refresh { RefreshToken := token } s
      = (Outcome.returned (none, some { code := Code.Internal, message := "internal error" }),
          s1) := by
  have h : uc.RefreshToken token s = ((none, some Err.ErrInvalidToken), s1) := by
    cases e <;> simp [AuthUsecase.RefreshToken, hfind]
  simp [AuthHandler.Refresh, NewAuthHandler, htoken, h]

/-- C23 (the code departs from the claim): an invalid refresh token is
answered as `Internal`.  For the non-empty token `invalid-token`, which has
no row, `AuthUsecase.RefreshToken` returns `ErrInvalidToken` and
`AuthHandler.Refresh` over it returns code `Internal` with message
`internal error`, not `Unauthenticated`; the handler answers
`Unauthenticated` only to `ErrInvalidRefreshToken` and `ErrTokenExpired`,
which the controller never returns here. -/
theorem refresh_invalid_token_answered_internal :
    ((authUC mock.collaborators).RefreshToken "invalid-token" mock.world0).1
      = (none, some Err.ErrInvalidToken) ∧
    ((NewAuthHandler (authUC mock.collaborators)).Refresh
        { RefreshToken := "invalid-token" } mock.world0).1
      = Outcome.returned (none, some { code := Code.Internal, message := "internal error" }) ∧
    ((AuthHandler.mk (mock.mockAuthUsecase (some Err.ErrInvalidRefreshToken))).Refresh
        { RefreshToken := "invalid-token" } ()).1
      = Outcome.returned
          (none, some { code := Code.Unauthenticated, message := "invalid refresh token" }) := by
  refine ⟨by rfl, by rfl, by rfl⟩

/-- C24: internal errors are opaque.  For each of the six handlers, a request
that passes the handler's own validation and a controller error outside the
handler's classified set get the response `Internal` with the message
`internal error` and no payload; the response does not depend on the error,
so it is the same for any two such errors. -/
theorem internal_errors_opaque (h : AuthHandler σ) :
    (∀ (req : RegisterRequest) (s s1 : σ) (e : Err), req.Email ≠ "" → req.Password ≠ "" →
      h.authUC.Register
        { Name := req.Name, Email := req.Email, Password := req.Password,
          PasswordConfirmation := req.PasswordConfirmation } s = (some e, s1) →
      e ≠ Err.ErrUserAlreadyExists → e ≠ Err.ErrEmailAlreadyUsed →
      e ≠ Err.ErrPasswordNotMatch →
      h.Register req s
        = ((none, some { code := Code.Internal, message := "internal error" }), s1)) ∧
    (∀ (req : LoginRequest) (s s1 : σ) (e : Err) (out : Option AuthOutput),
      req.Email ≠ "" → req.Password ≠ "" →
      h.authUC.Login { Email := req.Email, Password := req.Password } s = ((out, some e), s1) →
      e ≠ Err.ErrInvalidCredentials →
      h.Login req s
        = (Outcome.returned (none, some { code := Code.Internal, message := "internal error" }),
            s1)) ∧
    (∀ (req : RefreshRequest) (s s1 : σ) (e : Err) (out : Option AuthOutput),
      req.RefreshToken ≠ "" →
      h.authUC.RefreshToken req.RefreshToken s = ((out, some e), s1) →
      e ≠ Err.ErrInvalidRefreshToken → e ≠ Err.ErrTokenExpired →
      h.Refresh req s
        = (Outcome.returned (none, some { code := Code.Internal, message := "internal error" }),
            s1)) ∧
    (∀ (req : LogoutRequest) (s s1 : σ) (e : Err), req.RefreshToken ≠ "" →
      h.authUC.Logout req.RefreshToken s = (some e, s1) →
      h.Logout req s
        = ((none, some { code := Code.Internal, message := "internal error" }), s1)) ∧
    (∀ (req : ForgotPasswordRequest) (s s1 : σ) (e : Err), req.Email ≠ "" →
      h.authUC.ForgotPassword req.Email s = (some e, s1) →
      e ≠ Err.ErrUserNotFound →
      h.ForgotPassword req s
        = ((none, some { code := Code.Internal, message := "internal error" }), s1)) ∧
    (∀ (req : ResetPasswordRequest) (s s1 : σ) (e : Err), req.Token ≠ "" →
      req.NewPassword ≠ "" →
      h.authUC.ResetPassword { Token := req.Token, NewPassword := req.NewPassword } s
        = (Outcome.returned (some e), s1) →
      e ≠ Err.ErrInvalidToken → e ≠ Err.ErrPasswordResetExpired →
      e ≠ Err.ErrPasswordResetUsed →
      h.ResetPassword req s
        = (Outcome.returned (none, some { code := Code.Internal, message := "internal error" }),
            s1)) := by
  refine ⟨?_, ?_, ?_, ?_, ?_, ?_⟩
  · intro req s s1 e h1 h2 hcall n1 n2 n3
    simp only [AuthHandler.Register, h1, h2, or_self, if_false, hcall]
  · intro req s s1 e out h1 h2 hcall n1
    simp only [AuthHandler.Login, h1, h2, or_self, if_false, hcall]
  · intro req s s1 e out h1 hcall n1 n2
    simp only [AuthHandler.Refresh, h1, if_false, hcall]
  · intro req s s1 e h1 hcall
    simp only [AuthHandler.Logout, h1, if_false, hcall]
  · intro req s s1 e h1 hcall n1
    simp only [AuthHandler.ForgotPassword, h1, if_false, hcall]
  · intro req s s1 e h1 h2 hcall n1 n2 n3
    simp only [AuthHandler.ResetPassword, h1, h2, or_self, if_false, hcall]

/-- Witness of C24 on the test double of the handler tests, with the
controller returning `errors.New("database error")`: all six handlers answer
alike. -/
theorem internal_errors_opaque_witness :
    (AuthHandler.mk (mock.mockAuthUsecase (some (Err.other "database error")))).Register
        { Name := "", Email := "test@example.com", Password := "password123",
          PasswordConfirmation := "" } ()
      = ((none, some { code := Code.Internal, message := "internal error" }), ()) ∧
    (AuthHandler.mk (mock.mockAuthUsecase (some (Err.other "database error")))).Login
        { Email := "test@example.com", Password := "password123" } ()
      = (Outcome.returned (none, some { code := Code.Internal, message := "internal error" }),
          ()) ∧
    (AuthHandler.mk (mock.mockAuthUsecase (some (Err.other "database error")))).Refresh
        { RefreshToken := "valid-token" } ()
      = (Outcome.returned (none, some { code := Code.Internal, message := "internal error" }),
          ()) ∧
    (AuthHandler.mk (mock.mockAuthUsecase (some (Err.other "database error")))).Logout
        { RefreshToken := "valid-token" } ()
      = ((none, some { code := Code.Internal, message := "internal error" }), ()) ∧
    (AuthHandler.mk (mock.mockAuthUsecase (some (Err.other "database error")))).ForgotPassword
        { Email := "test@example.com" } ()
      = ((none, some { code := Code.Internal, message := "internal error" }), ()) ∧
    (AuthHandler.mk (mock.mockAuthUsecase (some (Err.other "database error")))).ResetPassword
        { Token := "valid-token", NewPassword := "newpassword123" } ()
      = (Outcome.returned (none, some { code := Code.Internal, message := "internal error" }),
          ()) :=
  have h := internal_errors_opaque
    (AuthHandler.mk (mock.mockAuthUsecase (some (Err.other "database error"))))
  ⟨h.1 { Name := "", Email := "test@example.com", Password := "password123",
         PasswordConfirmation := "" } () () (Err.other "database error")
      (by decide) (by decide) (by rfl) (by decide) (by decide) (by decide),
   h.2.1 { Email := "test@example.com", Password := "password123" } () ()
      (Err.other "database error") none (by decide) (by decide) (by rfl) (by decide),
   h.2.2.1 { RefreshToken := "valid-token" } () () (Err.other "database error") none
      (by decide) (by rfl) (by decide) (by decide),
   h.2.2.2.1 { RefreshToken := "valid-token" } () () (Err.other "database error")
      (by decide) (by rfl),
   h.2.2.2.2.1 { Email := "test@example.com" } () () (Err.other "database error")
      (by decide) (by rfl) (by decide),
   h.2.2.2.2.2 { Token := "valid-token", NewPassword := "newpassword123" } () ()
      (Err.other "database error") (by decide) (by decide) (by rfl) (by decide) (by decide)
      (by decide)⟩

end boundary_errors

section rotation_failures

variable {σ γ : Type}

open usecase

/-- In every execution of `RefreshToken` that finds a row `r`, the first two
collaborator calls are the lookup and `RevokeRefreshToken(r.TokenHash)`. -/
theorem RefreshToken_revokes_first (uc : AuthUsecase σ) (token : String) (r : RefreshToken)
    (s s1 : σ)
    (hfind : uc.repository.FindValidRefreshToken (uc.passwordHasher.HashToken token) s
      = ((some r, none), s1)) :
    (uc.traced.RefreshToken token (s, [])).2.2.take 3
      = [Invocation.FindValidRefreshToken (uc.passwordHasher.HashToken token),
         Invocation.RevokeRefreshToken r.TokenHash,
         Invocation.GenerateAccessToken r.UserID ""] := by
  simp only [AuthUsecase.RefreshToken, newRefreshTokenRow, AuthUsecase.traced, record, hfind]
  generalize uc.token.GenerateAccessToken r.UserID ""
    (uc.repository.RevokeRefreshToken r.TokenHash s1).2 = r2
  rcases r2 with ⟨⟨accessToken, _ | err⟩, s3⟩
  · simp only
    generalize uc.token.GenerateRefreshToken s3 = r3
    rcases r3 with ⟨⟨plain, hash, _ | err⟩, s4⟩ <;> simp
  · simp

/-- The order of the calls of `RefreshToken`.  In every execution
that finds a valid row `r`, the calls start with the lookup,
`RevokeRefreshToken(r.TokenHash)` and only then the first token generation.
When the access-token generation fails, or the refresh-token generation
after it, the operation returns that error and no token pair, and its trace
ends there: no `StoreRefreshToken` was called.  Over the SQL repository on a
handle without faults the state it leaves has `r` revoked and no new row. -/
theorem revocation_precedes_issuance (uc : AuthUsecase σ) (c : Collaborators γ)
    (token : String) (r : RefreshToken) (e2 : Option Err) (s s1 s2 : σ) (w : World γ)
    (hfind : uc.repository.FindValidRefreshToken (uc.passwordHasher.HashToken token) s
      = ((some r, none), s1))
    (hrevoke : uc.repository.RevokeRefreshToken r.TokenHash s1 = (e2, s2))
    (hfindW : postgres.Query.FindValidRefreshToken (c.passwordHasher.HashToken token) w.db
      = some r) :
    (uc.traced.RefreshToken token (s, [])).2.2.take 3
      = [Invocation.FindValidRefreshToken (uc.passwordHasher.HashToken token),
         Invocation.RevokeRefreshToken r.TokenHash,
         Invocation.GenerateAccessToken r.UserID ""] ∧
    (∀ (accessToken : String) (err : Err) (s3 : σ),
      uc.token.GenerateAccessToken r.UserID "" s2 = ((accessToken, some err), s3) →
      uc.traced.RefreshToken token (s, [])
        = ((none, some err), (s3,
            [Invocation.FindValidRefreshToken (uc.passwordHasher.HashToken token),
             Invocation.RevokeRefreshToken r.TokenHash,
             Invocation.GenerateAccessToken r.UserID ""]))) ∧
    (∀ (accessToken plain hashNew : String) (err : Err) (s3 s4 : σ),
      uc.token.GenerateAccessToken r.UserID "" s2 = ((accessToken, none), s3) →
      uc.token.GenerateRefreshToken s3 = ((plain, hashNew, some err), s4) →
      uc.traced.RefreshToken token (s, [])
        = ((none, some err), (s4,
            [Invocation.FindValidRefreshToken (uc.passwordHasher.HashToken token),
             Invocation.RevokeRefreshToken r.TokenHash,
             Invocation.GenerateAccessToken r.UserID "",
             Invocation.GenerateRefreshToken]))) ∧
    (∀ (accessToken : String) (err : Err) (g1 : γ),
      c.token.GenerateAccessToken r.UserID "" w.env = ((accessToken, some err), g1) →
      (authUC c).RefreshToken token w
        = ((none, some err), ⟨postgres.Query.RevokeRefreshToken r.TokenHash w.db, g1⟩)) ∧
    (∀ (accessToken plain hashNew : String) (err : Err) (g1 g2 : γ),
      c.token.GenerateAccessToken r.UserID "" w.env = ((accessToken, none), g1) →
      c.token.GenerateRefreshToken g1 = ((plain, hashNew, some err), g2) →
      (authUC c).RefreshToken token w
        = ((none, some err), ⟨postgres.Query.RevokeRefreshToken r.TokenHash w.db, g2⟩)) ∧
    { r with Revoked := true } ∈ (postgres.Query.RevokeRefreshToken r.TokenHash w.db).refresh_tokens ∧
    (postgres.Query.RevokeRefreshToken r.TokenHash w.db).refresh_tokens.length
      = w.db.refresh_tokens.length := by
  refine ⟨RefreshToken_revokes_first uc token r s s1 hfind, ?_, ?_, ?_, ?_, ?_, ?_⟩
  · intro accessToken err s3 haccess
    simp [AuthUsecase.RefreshToken, AuthUsecase.traced, record, hfind, hrevoke, haccess]
  · intro accessToken plain hashNew err s3 s4 haccess hrefresh
    simp [AuthUsecase.RefreshToken, AuthUsecase.traced, record, hfind, hrevoke, haccess,
      hrefresh]
  · intro accessToken err g1 haccess
    simp [AuthUsecase.RefreshToken, authUC, authUCOn, postgres.NewAuthRepository, World.onDB, World.onEnv,
      postgres.FindValidRefreshToken_healthy, postgres.RevokeRefreshToken_healthy, hfindW, haccess]
  · intro accessToken plain hashNew err g1 g2 haccess hrefresh
    simp [AuthUsecase.RefreshToken, authUC, authUCOn, postgres.NewAuthRepository, World.onDB, World.onEnv,
      postgres.FindValidRefreshToken_healthy, postgres.RevokeRefreshToken_healthy, hfindW, haccess, hrefresh]
  · simp only [postgres.Query.RevokeRefreshToken, List.mem_map]
    exact ⟨r, (FindValidRefreshToken_some hfindW).1, by simp⟩
  · simp [postgres.Query.RevokeRefreshToken]

/-- The order of the calls on the test doubles with a failing issuer: the
access-token generation fails, and the refresh-token generation fails; in both runs the
live row of `user-123` is left revoked and nothing is added. -/
theorem revocation_precedes_issuance_witness :
    (authUC mock.failingAccessToken).traced.RefreshToken "valid-refresh-token" (mock.world0, [])
      = ((none, some (Err.other "signing failed")),
          ({ mock.world0 with db := { mock.world0.db with
              refresh_tokens := [{ mock.token123 with Revoked := true }] } },
           [Invocation.FindValidRefreshToken "sha256-valid-refresh-token",
            Invocation.RevokeRefreshToken "sha256-valid-refresh-token",
            Invocation.GenerateAccessToken "user-123" ""])) ∧
    (authUC mock.failingRefreshToken).RefreshToken "valid-refresh-token" mock.world0
      = ((none, some (Err.other "entropy failed")),
          { mock.world0 with db := { mock.world0.db with
              refresh_tokens := [{ mock.token123 with Revoked := true }] } }) :=
  ⟨(revocation_precedes_issuance (authUC mock.failingAccessToken) mock.failingAccessToken
      "valid-refresh-token" mock.token123 none mock.world0 mock.world0
      { mock.world0 with db := { mock.world0.db with
          refresh_tokens := [{ mock.token123 with Revoked := true }] } }
      mock.world0 (by rfl) (by rfl) (by rfl)).2.1 "" (Err.other "signing failed") _ (by rfl),
   (revocation_precedes_issuance (authUC mock.failingRefreshToken) mock.failingRefreshToken
      "valid-refresh-token" mock.token123 none mock.world0 mock.world0
      { mock.world0 with db := { mock.world0.db with
          refresh_tokens := [{ mock.token123 with Revoked := true }] } }
      mock.world0 (by rfl) (by rfl) (by rfl)).2.2.2.2.1 "access-token-user-123" "" ""
      (Err.other "entropy failed") mock.bus0 mock.bus0 (by rfl) (by rfl)⟩

/-- C27 (the code departs from the claim): `RefreshToken` reports success
after failed store writes.  Over a repository whose `RevokeRefreshToken` and
`StoreRefreshToken` both return an error and change nothing, `RefreshToken`
on the live token of `user-123` makes both calls, discards their errors and
returns a token pair with a nil error; the presented row is still live and
the returned refresh token is stored nowhere. -/
theorem refresh_token_success_after_failed_writes :
    ({ authUC mock.collaborators with repository := mock.brokenWrites _ }).traced.RefreshToken
        "valid-refresh-token" (mock.world0, [])
      = ((some { AccessToken := "access-token-user-123",
                 RefreshToken := "refresh-token-plain" }, none),
          (mock.world0,
           [Invocation.FindValidRefreshToken "sha256-valid-refresh-token",
            Invocation.RevokeRefreshToken "sha256-valid-refresh-token",
            Invocation.GenerateAccessToken "user-123" "",
            Invocation.GenerateRefreshToken,
            Invocation.GenerateID,
            Invocation.now,
            Invocation.now,
            Invocation.now,
            Invocation.StoreRefreshToken
              { ID := "test-uuid-123", UserID := "user-123", TokenHash := "refresh-token-hash",
                Revoked := false, ExpiresAt := mock.fixedTime + 7 * (24 * Hour),
                CreatedAt := mock.fixedTime, UpdatedAt := mock.fixedTime }])) ∧
    (mock.brokenWrites mock.mockEventBus).RevokeRefreshToken "sha256-valid-refresh-token"
        mock.world0
      = (some (Err.other "database error"), mock.world0) ∧
    (mock.brokenWrites mock.mockEventBus).StoreRefreshToken
        { ID := "test-uuid-123", UserID := "user-123", TokenHash := "refresh-token-hash",
          Revoked := false, ExpiresAt := mock.fixedTime + 7 * (24 * Hour),
          CreatedAt := mock.fixedTime, UpdatedAt := mock.fixedTime } mock.world0
      = (some (Err.other "database error"), mock.world0) ∧
    mock.world0.db.refresh_tokens = [mock.token123] ∧ mock.token123.Revoked = false := by
  refine ⟨by rfl, by rfl, by rfl, by rfl, by rfl⟩

/-- C28 (the code departs from the claim): `ResetPassword` reports success
after failed store writes.  Over a repository whose `UpdateUserPassword` and
`MarkPasswordResetUsed` both return an error and change nothing,
`ResetPassword` on the pending reset of `user-123` makes the calls, discards
their errors and returns `nil`; the password hash is the old one and the
reset row is still unused. -/
theorem reset_password_success_after_failed_writes :
    ({ authUC mock.collaborators with repository := mock.brokenWrites _ }).traced.ResetPassword
        { Token := "valid-token", NewPassword := "newpassword123" } (mock.world0, [])
      = (Outcome.returned none,
          (mock.world0,
           [Invocation.FindValidPasswordReset "sha256-valid-token",
            Invocation.now,
            Invocation.FindUserByID "user-123",
            Invocation.HashPassword "newpassword123",
            Invocation.UpdateUserPassword "user-123" "hashed-newpassword123",
            Invocation.MarkPasswordResetUsed "user-123",
            Invocation.RevokeRefreshToken "sha256-valid-token"])) ∧
    (mock.brokenWrites mock.mockEventBus).UpdateUserPassword "user-123" "hashed-newpassword123"
        mock.world0
      = (some (Err.other "database error"), mock.world0) ∧
    (mock.brokenWrites mock.mockEventBus).MarkPasswordResetUsed "user-123" mock.world0
      = (some (Err.other "database error"), mock.world0) ∧
    mock.world0.db.users = [mock.user123] ∧
    mock.user123.PasswordHash = "hashed-password123" ∧
    mock.world0.db.password_resets = [mock.reset123] ∧ mock.reset123.Used = false := by
  refine ⟨by rfl, by rfl, by rfl, by rfl, by rfl, by rfl, by rfl⟩

/-- Counterexample to C29: `ResetPassword` panics on a user reported missing
by the empty result.  For the valid, unexpired, unused reset
row of `user-123` and a store without that user: when the store reports the
missing user as an error, `ResetPassword` returns `ErrUserNotFound` and leaves
the state as it was; when the store returns a nil user with a nil error, the
call goes on to hash the new password and then panics on the nil user. -/
theorem reset_password_panics_on_empty_result :
    (authUC mock.collaborators).ResetPassword
        { Token := "valid-token", NewPassword := "newpassword123" }
        { mock.world0 with db := { mock.world0.db with users := [] } }
      = (Outcome.returned (some Err.ErrUserNotFound),
          { mock.world0 with db := { mock.world0.db with users := [] } }) ∧
    (mock.emptyResult mock.mockEventBus).FindUserByID "user-123"
        { mock.world0 with db := { mock.world0.db with users := [] } }
      = ((none, none), { mock.world0 with db := { mock.world0.db with users := [] } }) ∧
    ({ authUC mock.collaborators with repository := mock.emptyResult _ }).traced.ResetPassword
        { Token := "valid-token", NewPassword := "newpassword123" }
        ({ mock.world0 with db := { mock.world0.db with users := [] } }, [])
      = (Outcome.panicked,
          ({ mock.world0 with db := { mock.world0.db with users := [] } },
           [Invocation.FindValidPasswordReset "sha256-valid-token",
            Invocation.now,
            Invocation.FindUserByID "user-123",
            Invocation.HashPassword "newpassword123"])) := by
  refine ⟨by rfl, by rfl, by rfl⟩

end rotation_failures

section rotation_race

variable {σ γ : Type}

open usecase

/-- When the lookup finds a row and the issuer does not fail, `RefreshToken`
returns a token pair: nothing the two store writes report is looked at. -/
theorem RefreshToken_succeeds_of_found (uc : AuthUsecase σ) (token : String) (r : RefreshToken)
    (s s1 : σ)
    (hfind : uc.repository.FindValidRefreshToken (uc.passwordHasher.HashToken token) s
      = ((some r, none), s1))
    (hacc : ∀ u role g, (uc.token.GenerateAccessToken u role g).1.2 = none)
    (href : ∀ g, (uc.token.GenerateRefreshToken g).1.2.2 = none) :
    (uc.RefreshToken token s).1.2 = none ∧ (uc.RefreshToken token s).1.1.isSome = true := by
  simp only [AuthUsecase.RefreshToken, hfind]
  have h2 := hacc r.UserID "" (uc.repository.RevokeRefreshToken r.TokenHash s1).2
  generalize uc.token.GenerateAccessToken r.UserID ""
    (uc.repository.RevokeRefreshToken r.TokenHash s1).2 = r2 at h2 ⊢
  rcases r2 with ⟨⟨accessToken, _ | err⟩, s3⟩
  · simp only
    have h3 := href s3
    generalize uc.token.GenerateRefreshToken s3 = r3 at h3 ⊢
    rcases r3 with ⟨⟨plain, hash, _ | err⟩, s4⟩
    · simp
    · simp at h3
  · simp at h2

/-- Counterexample to C25 with the counting issuer.  `Login` hands out the
token `plain 0`.  Request A looks it up, then request B with the same token
is served from lookup to store, then A goes on with its revoke: B returns a
new token pair and A returns a new token pair, and afterwards both new
refresh tokens are live. -/
theorem rotation_race_both_succeed :
    ((authUC counting.collaborators).RefreshToken (counting.plain 0)
        ((authUC counting.collaborators).Login
          { Email := "test@example.com", Password := "password123" } counting.world0).2).1
      = (some { AccessToken := "access-token-user-123", RefreshToken := counting.plain 1 },
          none) ∧
    (((authUC counting.collaborators).overlappedBy
        (fun w => ((authUC counting.collaborators).RefreshToken (counting.plain 0) w).2)).RefreshToken
        (counting.plain 0)
        ((authUC counting.collaborators).Login
          { Email := "test@example.com", Password := "password123" } counting.world0).2).1
      = (some { AccessToken := "access-token-user-123", RefreshToken := counting.plain 2 },
          none) ∧
    ((((authUC counting.collaborators).overlappedBy
        (fun w => ((authUC counting.collaborators).RefreshToken (counting.plain 0) w).2)).RefreshToken
        (counting.plain 0)
        ((authUC counting.collaborators).Login
          { Email := "test@example.com", Password := "password123" }
          counting.world0).2).2.db.refresh_tokens.map
      (fun row => (row.TokenHash, row.Revoked)))
      = [("sha256-" ++ counting.plain 0, true), ("sha256-" ++ counting.plain 1, false),
         ("sha256-" ++ counting.plain 2, false)] := by
  refine ⟨by rfl, by rfl, by rfl⟩

/-- C25 as amended: the rotation race without and with overlap.  For a token
`t` with a valid row, over the SQL repository.  When the two calls follow one
another (the second lookup runs after the first revoke) and the first returns
success, the second returns `(nil, ErrInvalidToken)`, provided the issuer
does not return the lookup hash of `t` again.  When the second call is
served between the lookup and the revoke of the first and the issuer does
not fail, both calls return a token pair. -/
theorem rotation_race_sequential_or_overlapped (c : Collaborators γ) (t : String)
    (w : World γ) (r : RefreshToken)
    (hrow : postgres.Query.FindValidRefreshToken (c.passwordHasher.HashToken t) w.db = some r) :
    (∀ I : γ → Prop, c.Keeps I →
      (∀ g, I g → (c.token.GenerateRefreshToken g).1.2.1 ≠ c.passwordHasher.HashToken t) →
      I w.env → ((authUC c).RefreshToken t w).1.2 = none →
      ((authUC c).RefreshToken t ((authUC c).RefreshToken t w).2).1
        = (none, some Err.ErrInvalidToken)) ∧
    ((∀ u role g, (c.token.GenerateAccessToken u role g).1.2 = none) →
      (∀ g, (c.token.GenerateRefreshToken g).1.2.2 = none) →
      (((authUC c).RefreshToken t w).1.2 = none ∧
        ((authUC c).RefreshToken t w).1.1.isSome = true) ∧
      ((((authUC c).overlappedBy
          (fun w => ((authUC c).RefreshToken t w).2)).RefreshToken t w).1.2 = none ∧
        (((authUC c).overlappedBy
          (fun w => ((authUC c).RefreshToken t w).2)).RefreshToken t w).1.1.isSome = true)) := by
  have hfind := authUC_FindValidRefreshToken c (c.passwordHasher.HashToken t) w
  rw [hrow] at hfind
  refine ⟨?_, ?_⟩
  · intro I hI hfresh h0 hsucc
    have h1 := RefreshToken_success_AllRevoked c I hI t hfresh w h0 hsucc
    rw [RefreshToken_of_no_row c t _ (FindValidRefreshToken_of_AllRevoked h1.1)]
  · intro hacc href
    have hacc' : ∀ u role (g : World γ),
        ((authUC c).token.GenerateAccessToken u role g).1.2 = none :=
      fun u role g => hacc u role g.env
    have href' : ∀ g : World γ, ((authUC c).token.GenerateRefreshToken g).1.2.2 = none :=
      fun g => href g.env
    exact ⟨RefreshToken_succeeds_of_found (authUC c) t r w w hfind hacc' href',
      RefreshToken_succeeds_of_found
        ((authUC c).overlappedBy (fun w => ((authUC c).RefreshToken t w).2)) t r w w
        hfind hacc' href'⟩

/-- Witness of C25 as amended with the counting issuer, for the token handed
out by `Login`: presented twice in a row it is rejected the second time;
presented by two overlapping requests it is accepted by both. -/
theorem rotation_race_sequential_or_overlapped_witness :
    ((authUC counting.collaborators).RefreshToken (counting.plain 0)
      ((authUC counting.collaborators).RefreshToken (counting.plain 0)
        ((authUC counting.collaborators).Login
          { Email := "test@example.com", Password := "password123" } counting.world0).2).2).1
      = (none, some Err.ErrInvalidToken) ∧
    (((authUC counting.collaborators).overlappedBy
        (fun w => ((authUC counting.collaborators).RefreshToken (counting.plain 0) w).2)).RefreshToken
        (counting.plain 0)
        ((authUC counting.collaborators).Login
          { Email := "test@example.com", Password := "password123" }
          counting.world0).2).1.2 = none :=
  ⟨(rotation_race_sequential_or_overlapped counting.collaborators (counting.plain 0)
      ((authUC counting.collaborators).Login
        { Email := "test@example.com", Password := "password123" } counting.world0).2
      { ID := "test-uuid-123", UserID := "user-123", TokenHash := "sha256-" ++ counting.plain 0,
        Revoked := false, ExpiresAt := mock.fixedTime + 7 * (24 * Hour),
        CreatedAt := mock.fixedTime, UpdatedAt := mock.fixedTime }
      (by rfl)).1 (fun n => 0 < n) (counting_keeps 0) (counting_fresh 0) (by decide) (by rfl),
   ((rotation_race_sequential_or_overlapped counting.collaborators (counting.plain 0)
      ((authUC counting.collaborators).Login
        { Email := "test@example.com", Password := "password123" } counting.world0).2
      { ID := "test-uuid-123", UserID := "user-123", TokenHash := "sha256-" ++ counting.plain 0,
        Revoked := false, ExpiresAt := mock.fixedTime + 7 * (24 * Hour),
        CreatedAt := mock.fixedTime, UpdatedAt := mock.fixedTime }
      (by rfl)).2 (fun _ _ _ => rfl) (fun _ => rfl)).2.1⟩

end rotation_race

section issued_hash

variable {σ γ : Type}

open usecase

theorem hexDigit_mem (n : Nat) : helper.hexDigit n ∈ helper.hextable := by
  have h : n % 16 < helper.hextable.length := by
    have : helper.hextable.length = 16 := by decide
    omega
  unfold helper.hexDigit
  rw [List.getD_eq_getElem _ _ h]
  exact List.getElem_mem h

/-- The text of `hex.EncodeToString` is made of the sixteen lowercase hex
digits. -/
theorem hexEncodeToString_lower (l : List Nat) :
    ∀ ch ∈ (helper.hexEncodeToString l).data, ch ∈ helper.hextable := by
  intro ch hch
  simp only [helper.hexEncodeToString, List.mem_flatMap, List.mem_cons, List.mem_singleton,
    List.not_mem_nil, or_false] at hch
  obtain ⟨b, _, rfl | rfl⟩ := hch
  · exact hexDigit_mem _
  · exact hexDigit_mem _

/-- The hash `Service.GenerateRefreshToken` returns is `HashToken` of the
plaintext it returns. -/
theorem GenerateRefreshToken_hash (svc : token.Service) (lib : helper.Libraries σ) (g : σ)
    (hsucc : (svc.GenerateRefreshToken lib g).1.2.2 = none) :
    (svc.GenerateRefreshToken lib g).1.2.1
      = (helper.BcryptHasher lib).HashToken (svc.GenerateRefreshToken lib g).1.1 := by
  revert hsucc
  simp only [token.Service.GenerateRefreshToken, helper.BcryptHasher]
  generalize lib.randRead g = r
  rcases r with ⟨⟨bytes, _ | err⟩, g1⟩
  · intro _
    rfl
  · intro h
    simp at h

/-- A row appended to a table with no row under its lookup hash is the row
the lookup by that hash finds, when it is neither revoked nor expired. -/
theorem FindValidRefreshToken_appended (db : postgres.DB) (old : List RefreshToken)
    (row : RefreshToken) (h : String) (hrows : db.refresh_tokens = old ++ [row])
    (hold : ∀ t ∈ old, t.TokenHash ≠ h) (hhash : row.TokenHash = h)
    (hrev : row.Revoked = false) (hexp : Time.After row.ExpiresAt db.now = true) :
    postgres.Query.FindValidRefreshToken h db = some row := by
  unfold postgres.Query.FindValidRefreshToken
  rw [hrows, List.find?_append]
  have hnone : old.find? (fun t =>
      decide (t.TokenHash = h) && !t.Revoked && Time.After t.ExpiresAt db.now) = none := by
    rw [List.find?_eq_none]
    intro t ht
    simp [hold t ht]
  rw [hnone]
  simp [hhash, hrev, hexp]

/-- A successful `Login` over the SQL repository appends one row, live and
stored under the issuer's hash. -/
theorem Login_row_stored (c : Collaborators γ) (req : LoginInput) (w : World γ)
    (hsucc : ((authUC c).Login req w).1.2 = none) :
    ∃ (out : AuthOutput) (row : RefreshToken) (g : γ),
      ((authUC c).Login req w).1.1 = some out ∧
      ((authUC c).Login req w).2.db.refresh_tokens = w.db.refresh_tokens ++ [row] ∧
      ((authUC c).Login req w).2.db.now = w.db.now ∧
      (c.token.GenerateRefreshToken g).1.2.2 = none ∧
      out.RefreshToken = (c.token.GenerateRefreshToken g).1.1 ∧
      row.TokenHash = (c.token.GenerateRefreshToken g).1.2.1 ∧ row.Revoked = false := by
  revert hsucc
  simp only [AuthUsecase.Login, newRefreshTokenRow, authUC, authUCOn, postgres.NewAuthRepository,
    World.onDB, World.onEnv, postgres.FindUserByEmail_healthy, postgres.StoreRefreshToken_healthy]
  cases hq : postgres.Query.FindUserByEmail req.Email w.db with
  | none => simp
  | some user =>
    simp only
    by_cases hpw : c.passwordHasher.VerifyPassword req.Password user.PasswordHash = true
    · simp only [hpw, Bool.not_true, Bool.false_eq_true, if_false]
      generalize hr1 : c.token.GenerateAccessToken user.ID user.RoleID w.env = r1
      rcases r1 with ⟨⟨accessToken, _ | e⟩, g1⟩
      · simp only
        generalize hr2 : c.token.GenerateRefreshToken g1 = r2
        rcases r2 with ⟨⟨plain, hash, _ | e⟩, g2⟩
        · intro _
          refine ⟨_, _, g1, rfl, rfl, rfl, ?_, ?_, ?_, rfl⟩ <;> simp [hr2]
        · simp
      · simp
    · simp [hpw]

/-- A successful `RefreshToken` over the SQL repository revokes by one hash
and appends one row, live and stored under the issuer's hash. -/
theorem RefreshToken_row_stored (c : Collaborators γ) (t : String) (w : World γ)
    (hsucc : ((authUC c).RefreshToken t w).1.2 = none) :
    ∃ (out : AuthOutput) (row : RefreshToken) (g : γ) (h0 : String),
      ((authUC c).RefreshToken t w).1.1 = some out ∧
      ((authUC c).RefreshToken t w).2.db.refresh_tokens
        = (postgres.Query.RevokeRefreshToken h0 w.db).refresh_tokens ++ [row] ∧
      ((authUC c).RefreshToken t w).2.db.now = w.db.now ∧
      (c.token.GenerateRefreshToken g).1.2.2 = none ∧
      out.RefreshToken = (c.token.GenerateRefreshToken g).1.1 ∧
      row.TokenHash = (c.token.GenerateRefreshToken g).1.2.1 ∧ row.Revoked = false := by
  revert hsucc
  simp only [AuthUsecase.RefreshToken, newRefreshTokenRow, authUC, authUCOn, postgres.NewAuthRepository,
    World.onDB, World.onEnv, postgres.FindValidRefreshToken_healthy, postgres.StoreRefreshToken_healthy,
    postgres.RevokeRefreshToken_healthy]
  cases hq : postgres.Query.FindValidRefreshToken (c.passwordHasher.HashToken t) w.db with
  | none => simp
  | some r =>
    simp only
    generalize hr1 : c.token.GenerateAccessToken r.UserID "" w.env = r1
    rcases r1 with ⟨⟨accessToken, _ | e⟩, g1⟩
    · simp only
      generalize hr2 : c.token.GenerateRefreshToken g1 = r2
      rcases r2 with ⟨⟨plain, hash, _ | e⟩, g2⟩
      · intro _
        refine ⟨_, _, g1, r.TokenHash, rfl, rfl, rfl, ?_, ?_, ?_, rfl⟩ <;> simp [hr2]
      · simp
    · simp

/-- Revoking rows leaves every lookup hash as it was. -/
theorem RevokeRefreshToken_hashes (h0 h : String) (db : postgres.DB)
    (hold : ∀ t ∈ db.refresh_tokens, t.TokenHash ≠ h) :
    ∀ t ∈ (postgres.Query.RevokeRefreshToken h0 db).refresh_tokens, t.TokenHash ≠ h := by
  intro t ht
  simp only [postgres.Query.RevokeRefreshToken, List.mem_map] at ht
  obtain ⟨t0, ht0, rfl⟩ := ht
  by_cases hc : t0.TokenHash = h0
  · simpa [hc] using hold t0 ht0
  · simpa [hc] using hold t0 ht0

/-- C30: the issued hash equals the lookup hash.  For the controller wired as
in `main`, with `token.Service` as issuer and `helper.BcryptHasher` as
hasher, over any random source and any digest function.  Whenever
`GenerateRefreshToken` returns `(plain, hash)` without error, `hash` is
`HashToken(plain)`; `HashToken` is a function of the text alone, the hex
encoding of its digest: 64 characters, all lowercase hex digits.  So a
successful `Login`, and a successful `RefreshToken`, append a live row stored
under `HashToken` of the plaintext they return, and when no earlier row has
that hash and the row is not expired, the lookup `RefreshToken` and `Logout`
start with, `FindValidRefreshToken(HashToken(plaintext))`, returns exactly
that row. -/
theorem issued_hash_equals_lookup_hash (svc : token.Service) (lib : helper.Libraries γ)
    (jwt : token.Jwt γ) (c : Collaborators γ)
    (htoken : c.token = svc.TokenService lib jwt)
    (hhasher : c.passwordHasher = helper.BcryptHasher lib) :
    (∀ g, (svc.GenerateRefreshToken lib g).1.2.2 = none →
      (svc.GenerateRefreshToken lib g).1.2.1
        = (helper.BcryptHasher lib).HashToken (svc.GenerateRefreshToken lib g).1.1) ∧
    (∀ plain,
      (helper.BcryptHasher lib).HashToken plain
        = helper.hexEncodeToString (List.ofFn (lib.sha256Sum256 plain)) ∧
      ((helper.BcryptHasher lib).HashToken plain).length = 64 ∧
      ∀ ch ∈ ((helper.BcryptHasher lib).HashToken plain).data, ch ∈ helper.hextable) ∧
    (∀ req w, ((authUC c).Login req w).1.2 = none →
      ∃ (out : AuthOutput) (row : RefreshToken),
        ((authUC c).Login req w).1.1 = some out ∧
        ((authUC c).Login req w).2.db.refresh_tokens = w.db.refresh_tokens ++ [row] ∧
        row.TokenHash = c.passwordHasher.HashToken out.RefreshToken ∧
        row.Revoked = false ∧
        ((∀ t ∈ w.db.refresh_tokens,
            t.TokenHash ≠ c.passwordHasher.HashToken out.RefreshToken) →
          Time.After row.ExpiresAt w.db.now = true →
          (authUC c).repository.FindValidRefreshToken
              (c.passwordHasher.HashToken out.RefreshToken) ((authUC c).Login req w).2
            = ((some row, none), ((authUC c).Login req w).2))) ∧
    (∀ t w, ((authUC c).RefreshToken t w).1.2 = none →
      ∃ (out : AuthOutput) (row : RefreshToken) (h0 : String),
        ((authUC c).RefreshToken t w).1.1 = some out ∧
        ((authUC c).RefreshToken t w).2.db.refresh_tokens
          = (postgres.Query.RevokeRefreshToken h0 w.db).refresh_tokens ++ [row] ∧
        row.TokenHash = c.passwordHasher.HashToken out.RefreshToken ∧
        row.Revoked = false ∧
        ((∀ t ∈ w.db.refresh_tokens,
            t.TokenHash ≠ c.passwordHasher.HashToken out.RefreshToken) →
          Time.After row.ExpiresAt w.db.now = true →
          (authUC c).repository.FindValidRefreshToken
              (c.passwordHasher.HashToken out.RefreshToken) ((authUC c).RefreshToken t w).2
            = ((some row, none), ((authUC c).RefreshToken t w).2))) := by
  have hissue : ∀ g, (c.token.GenerateRefreshToken g).1.2.2 = none →
      (c.token.GenerateRefreshToken g).1.2.1
        = c.passwordHasher.HashToken (c.token.GenerateRefreshToken g).1.1 := by
    rw [htoken, hhasher]
    exact fun g hg => GenerateRefreshToken_hash svc lib g hg
  refine ⟨fun g hg => GenerateRefreshToken_hash svc lib g hg, ?_, ?_, ?_⟩
  · intro plain
    refine ⟨rfl, ?_, ?_⟩
    · simp [helper.BcryptHasher, hexEncodeToString_length]
    · exact hexEncodeToString_lower _
  · intro req w hsucc
    obtain ⟨out, row, g, hout, hrows, hnow, hg, hplain, hhash, hrev⟩ :=
      Login_row_stored c req w hsucc
    have hpair : row.TokenHash = c.passwordHasher.HashToken out.RefreshToken := by
      rw [hhash, hplain]
      exact hissue g hg
    refine ⟨out, row, hout, hrows, hpair, hrev, ?_⟩
    intro hfresh hexp
    rw [authUC_FindValidRefreshToken,
      FindValidRefreshToken_appended _ _ row _ hrows hfresh hpair hrev (by rw [hnow]; exact hexp)]
  · intro t w hsucc
    obtain ⟨out, row, g, h0, hout, hrows, hnow, hg, hplain, hhash, hrev⟩ :=
      RefreshToken_row_stored c t w hsucc
    have hpair : row.TokenHash = c.passwordHasher.HashToken out.RefreshToken := by
      rw [hhash, hplain]
      exact hissue g hg
    refine ⟨out, row, h0, hout, hrows, hpair, hrev, ?_⟩
    intro hfresh hexp
    rw [authUC_FindValidRefreshToken,
      FindValidRefreshToken_appended _ _ row _ hrows
        (RevokeRefreshToken_hashes h0 _ w.db hfresh) hpair hrev (by rw [hnow]; exact hexp)]

/-- Witness of C30 over the stand-in libraries, whose random source yields
the bytes 0 to 31 first: the plaintext is their padded base64url text, the
hash returned with it is `HashToken` of that text, and after a `Login` the
lookup by `HashToken` of the returned plaintext finds the row just stored. -/
theorem issued_hash_equals_lookup_hash_witness :
    ((token.NewService "secret").GenerateRefreshToken counting.libraries 0).1.1
      = "AAECAwQFBgcICQoLDA0ODxAREhMUFRYXGBkaGxwdHh8=" ∧
    ((token.NewService "secret").GenerateRefreshToken counting.libraries 0).1.2.1
      = (helper.BcryptHasher counting.libraries).HashToken
          ((token.NewService "secret").GenerateRefreshToken counting.libraries 0).1.1 ∧
    ∃ (out : AuthOutput) (row : RefreshToken),
      ((authUC counting.wired).Login
        { Email := "test@example.com", Password := "password123" } counting.world0).1.1
        = some out ∧
      ((authUC counting.wired).Login
        { Email := "test@example.com", Password := "password123" }
        counting.world0).2.db.refresh_tokens = counting.world0.db.refresh_tokens ++ [row] ∧
      row.TokenHash = counting.wired.passwordHasher.HashToken out.RefreshToken ∧
      row.Revoked = false ∧
      ((∀ t ∈ counting.world0.db.refresh_tokens,
          t.TokenHash ≠ counting.wired.passwordHasher.HashToken out.RefreshToken) →
        Time.After row.ExpiresAt counting.world0.db.now = true →
        (authUC counting.wired).repository.FindValidRefreshToken
            (counting.wired.passwordHasher.HashToken out.RefreshToken)
            ((authUC counting.wired).Login
              { Email := "test@example.com", Password := "password123" } counting.world0).2
          = ((some row, none),
              ((authUC counting.wired).Login
                { Email := "test@example.com", Password := "password123" }
                counting.world0).2)) :=
  ⟨by decide,
   (issued_hash_equals_lookup_hash (token.NewService "secret") counting.libraries counting.jwt
      counting.wired rfl rfl).1 0 (by rfl),
   (issued_hash_equals_lookup_hash (token.NewService "secret") counting.libraries counting.jwt
      counting.wired rfl rfl).2.2.1
      { Email := "test@example.com", Password := "password123" } counting.world0 (by rfl)⟩

end issued_hash

section failed_writes

open usecase

/-- C11 (the code departs from the claim): a successful `RefreshToken` that
rotated nothing.  Over the SQL repository on a handle whose two writes to
`refresh_tokens` fail, `RefreshToken` on the live token of `user-123` returns
a token pair and a nil error, and the state is the one before the call: the
matched row is not revoked and no new row is stored.  Both writes returned
the driver's error, which the controller does not look at. -/
theorem refresh_token_success_without_rotation :
    (authUCOn mock.tokenWritesFail mock.collaborators).RefreshToken "valid-refresh-token"
        mock.world0
      = ((some { AccessToken := "access-token-user-123",
                 RefreshToken := "refresh-token-plain" }, none), mock.world0) ∧
    postgres.Query.FindValidRefreshToken "sha256-valid-refresh-token" mock.world0.db
      = some mock.token123 ∧
    mock.world0.db.refresh_tokens = [mock.token123] ∧ mock.token123.Revoked = false ∧
    postgres.RevokeRefreshToken mock.tokenWritesFail "sha256-valid-refresh-token"
        mock.world0.db
      = (some (Err.other "driver: bad connection"), mock.world0.db) ∧
    postgres.StoreRefreshToken mock.tokenWritesFail
        { ID := "test-uuid-123", UserID := "user-123", TokenHash := "refresh-token-hash",
          Revoked := false, ExpiresAt := mock.fixedTime + 7 * (24 * Hour),
          CreatedAt := mock.fixedTime, UpdatedAt := mock.fixedTime } mock.world0.db
      = (some (Err.other "driver: bad connection"), mock.world0.db) := by
  refine ⟨by rfl, by rfl, by rfl, by rfl, by rfl, by rfl⟩

/-- C26 (the code departs from the claim): an issuer's error returned with
the matched row still live.  Over the SQL repository on a handle whose write
`RevokeRefreshToken` fails, `RefreshToken` on the live token of `user-123`
calls the lookup, the revoke and then the issuer; when the access-token
generation fails, and when the refresh-token generation fails, it returns
that error, and the state is the one before the call: the matched row is not
revoked. -/
theorem refresh_token_error_with_row_live :
    (authUCOn mock.tokenWritesFail mock.failingAccessToken).traced.RefreshToken
        "valid-refresh-token" (mock.world0, [])
      = ((none, some (Err.other "signing failed")),
          (mock.world0,
           [Invocation.FindValidRefreshToken "sha256-valid-refresh-token",
            Invocation.RevokeRefreshToken "sha256-valid-refresh-token",
            Invocation.GenerateAccessToken "user-123" ""])) ∧
    (authUCOn mock.tokenWritesFail mock.failingRefreshToken).traced.RefreshToken
        "valid-refresh-token" (mock.world0, [])
      = ((none, some (Err.other "entropy failed")),
          (mock.world0,
           [Invocation.FindValidRefreshToken "sha256-valid-refresh-token",
            Invocation.RevokeRefreshToken "sha256-valid-refresh-token",
            Invocation.GenerateAccessToken "user-123" "",
            Invocation.GenerateRefreshToken])) ∧
    postgres.Query.FindValidRefreshToken "sha256-valid-refresh-token" mock.world0.db
      = some mock.token123 ∧
    mock.world0.db.refresh_tokens = [mock.token123] ∧ mock.token123.Revoked = false ∧
    postgres.RevokeRefreshToken mock.tokenWritesFail "sha256-valid-refresh-token"
        mock.world0.db
      = (some (Err.other "driver: bad connection"), mock.world0.db) := by
  refine ⟨by rfl, by rfl, by rfl, by rfl, by rfl, by rfl⟩

end failed_writes

section vanished_user

variable {σ γ : Type}

open usecase

/-- The method `FindUserByID` of the SQL repository never returns the empty
result: a nil user comes with an error, on every handle. -/
theorem FindUserByID_not_empty (conn : postgres.Conn) (id : String) (db : postgres.DB) :
    (postgres.FindUserByID conn id db).1 ≠ (none, none) := by
  unfold postgres.FindUserByID
  generalize conn.Scan (postgres.Statement.FindUserByID id)
    (postgres.Query.FindUserByID id db) db = r
  rcases r with err | user <;> simp

/-- The method `FindUserByID` of the SQL repository reports a missing row as
an error, on every handle, and leaves the database as it is. -/
theorem FindUserByID_missing (conn : postgres.Conn) (id : String) (db : postgres.DB)
    (hrow : postgres.Query.FindUserByID id db = none) :
    ∃ err, postgres.FindUserByID conn id db = ((none, some err), db) := by
  unfold postgres.FindUserByID postgres.Conn.Scan
  rw [hrow]
  cases conn.fault (postgres.Statement.FindUserByID id) db with
  | none => exact ⟨postgres.ErrNoRows, rfl⟩
  | some err => exact ⟨err, rfl⟩

/-- `ResetPassword` does not panic over a repository whose `FindUserByID`
never returns the empty result. -/
theorem ResetPassword_no_panic (uc : AuthUsecase σ)
    (hrepo : ∀ id s, (uc.repository.FindUserByID id s).1 ≠ (none, none))
    (req : ResetPasswordInput) (s : σ) :
    (uc.ResetPassword req s).1 ≠ Outcome.panicked := by
  unfold AuthUsecase.ResetPassword
  generalize uc.repository.FindValidPasswordReset (uc.passwordHasher.HashToken req.Token) s = r1
  rcases r1 with ⟨⟨_ | pr, _ | e1⟩, s1⟩
  · simp
  · simp
  · simp only
    split
    · simp
    · split
      · simp
      · generalize hr3 : uc.repository.FindUserByID pr.UserID _ = r3
        have h : r3.1 ≠ (none, none) := by
          rw [← hr3]
          exact hrepo _ _
        rcases r3 with ⟨⟨_ | user, _ | e3⟩, s3⟩
        · simp at h
        · simp
        · simp only
          generalize uc.passwordHasher.HashPassword req.NewPassword s3 = r4
          rcases r4 with ⟨⟨hashed, _ | e4⟩, s4⟩ <;> simp
        · simp
  · simp

/-- C29 as amended: `ResetPassword` on a vanished user that the store reports
as an error.  For a valid, unexpired, unused reset row whose owning user is
missing: over any repository whose `FindUserByID` returns an error,
`ResetPassword` returns `ErrUserNotFound` after the three calls
`FindValidPasswordReset`, `now`, `FindUserByID` and makes no write call.  The
SQL repository of the service reports the missing row as an error on every
handle (`sql.ErrNoRows`, or the driver's error), so over it `ResetPassword`
returns `ErrUserNotFound` and the database is unchanged; and for every
handle, request and state `ResetPassword` over it does not panic. -/
theorem reset_password_vanished_user (uc : AuthUsecase σ) (conn : postgres.Conn)
    (c : Collaborators γ) (req : ResetPasswordInput) (pr : PasswordReset) (now : Time)
    (u : Option User) (e : Err) (s s1 s2 s3 : σ) (w : World γ)
    (hfind : uc.repository.FindValidPasswordReset (uc.passwordHasher.HashToken req.Token) s
      = ((some pr, none), s1))
    (hnow : uc.now s1 = (now, s2))
    (hexp : Time.Before pr.ExpiresAt now = false) (hused : pr.Used = false)
    (huser : uc.repository.FindUserByID pr.UserID s2 = ((u, some e), s3))
    (hfaultW : conn.fault
      (postgres.Statement.FindValidPasswordReset (c.passwordHasher.HashToken req.Token)) w.db
      = none)
    (hrowW : postgres.Query.FindValidPasswordReset (c.passwordHasher.HashToken req.Token) w.db
      = some pr)
    (hexpW : Time.Before pr.ExpiresAt (c.now w.env).1 = false)
    (huserW : postgres.Query.FindUserByID pr.UserID w.db = none) :
    uc.traced.ResetPassword req (s, [])
      = (Outcome.returned (some Err.ErrUserNotFound),
          (s3, [Invocation.FindValidPasswordReset (uc.passwordHasher.HashToken req.Token),
                Invocation.now,
                Invocation.FindUserByID pr.UserID])) ∧
    (authUCOn conn c).ResetPassword req w
      = (Outcome.returned (some Err.ErrUserNotFound), { w with env := (c.now w.env).2 }) ∧
    (∀ (conn' : postgres.Conn) (c' : Collaborators γ) (req' : ResetPasswordInput)
        (w' : World γ),
      ((authUCOn conn' c').ResetPassword req' w').1 ≠ Outcome.panicked) := by
  refine ⟨?_, ?_, ?_⟩
  · simp [AuthUsecase.ResetPassword, AuthUsecase.traced, record, hfind, hnow, hexp, hused,
      huser]
  · obtain ⟨err, herr⟩ := FindUserByID_missing conn pr.UserID w.db huserW
    simp [AuthUsecase.ResetPassword, authUCOn, postgres.NewAuthRepository, World.onDB,
      World.onEnv, postgres.FindValidPasswordReset, postgres.Conn.Scan, hfaultW, hrowW, hexpW,
      hused, herr]
  · intro conn' c' req' w'
    refine ResetPassword_no_panic (authUCOn conn' c') ?_ req' w'
    intro id s0
    exact FindUserByID_not_empty conn' id s0.db

/-- Witness of C29 as amended on the test doubles: the pending reset of
`user-123` in a store without that user; the SQL lookup answers
`sql.ErrNoRows` and `ResetPassword` returns `ErrUserNotFound`, the state
unchanged. -/
theorem reset_password_vanished_user_witness :
    (authUC mock.collaborators).traced.ResetPassword
        { Token := "valid-token", NewPassword := "newpassword123" }
        ({ mock.world0 with db := { mock.world0.db with users := [] } }, [])
      = (Outcome.returned (some Err.ErrUserNotFound),
          ({ mock.world0 with db := { mock.world0.db with users := [] } },
           [Invocation.FindValidPasswordReset "sha256-valid-token",
            Invocation.now,
            Invocation.FindUserByID "user-123"])) ∧
    (authUCOn postgres.Conn.healthy mock.collaborators).ResetPassword
        { Token := "valid-token", NewPassword := "newpassword123" }
        { mock.world0 with db := { mock.world0.db with users := [] } }
      = (Outcome.returned (some Err.ErrUserNotFound),
          { mock.world0 with db := { mock.world0.db with users := [] } }) :=
  ⟨(reset_password_vanished_user (authUC mock.collaborators) postgres.Conn.healthy
      mock.collaborators { Token := "valid-token", NewPassword := "newpassword123" }
      mock.reset123 mock.fixedTime none postgres.ErrNoRows
      { mock.world0 with db := { mock.world0.db with users := [] } }
      { mock.world0 with db := { mock.world0.db with users := [] } }
      { mock.world0 with db := { mock.world0.db with users := [] } }
      { mock.world0 with db := { mock.world0.db with users := [] } }
      { mock.world0 with db := { mock.world0.db with users := [] } }
      (by rfl) (by rfl) (by decide) (by rfl) (by rfl) (by rfl) (by rfl) (by decide)
      (by rfl)).1,
   (reset_password_vanished_user (authUC mock.collaborators) postgres.Conn.healthy
      mock.collaborators { Token := "valid-token", NewPassword := "newpassword123" }
      mock.reset123 mock.fixedTime none postgres.ErrNoRows
      { mock.world0 with db := { mock.world0.db with users := [] } }
      { mock.world0 with db := { mock.world0.db with users := [] } }
      { mock.world0 with db := { mock.world0.db with users := [] } }
      { mock.world0 with db := { mock.world0.db with users := [] } }
      { mock.world0 with db := { mock.world0.db with users := [] } }
      (by rfl) (by rfl) (by decide) (by rfl) (by rfl) (by rfl) (by rfl) (by decide)
      (by rfl)).2.1⟩

end vanished_user

section register_login

variable {γ : Type}

open usecase

/-- The lookup by email of the SQL repository returns no user when no row
has the email, on every handle, and leaves the database as it is. -/
theorem FindUserByEmail_none (conn : postgres.Conn) (email : String) (db : postgres.DB)
    (hrow : postgres.Query.FindUserByEmail email db = none) :
    ∃ e, postgres.FindUserByEmail conn email db = ((none, e), db) := by
  unfold postgres.FindUserByEmail postgres.Conn.Scan
  rw [hrow]
  cases conn.fault (postgres.Statement.FindUserByEmail email) db with
  | none => exact ⟨none, by simp⟩
  | some err =>
    by_cases h : err = postgres.ErrNoRows
    · exact ⟨none, by simp [h]⟩
    · exact ⟨some err, by simp [h]⟩

/-- The method `CreateUser` of the SQL repository for an email without a row
is the insert statement. -/
theorem CreateUser_unused (conn : postgres.Conn) (user : User) (db : postgres.DB)
    (hrow : postgres.Query.FindUserByEmail user.Email db = none) :
    postgres.CreateUser conn user db
      = conn.Exec (postgres.Statement.CreateUser user) (postgres.Query.CreateUser user) db := by
  obtain ⟨e, he⟩ := FindUserByEmail_none conn user.Email db hrow
  simp [postgres.CreateUser, he]

/-- A `Register` that succeeds for an unused email, on any handle, has
appended the new user, with role `RoleIDUser` and the hash of the password. -/
theorem authUCOn_Register_success (conn : postgres.Conn) (c : Collaborators γ)
    (name email password : String) (w : World γ)
    (hnone : postgres.Query.FindUserByEmail email w.db = none)
    (hreg : ((authUCOn conn c).Register
      { Name := name, Email := email, Password := password,
        PasswordConfirmation := password } w).1 = none) :
    ∃ (user : User) (g : γ),
      ((authUCOn conn c).Register
        { Name := name, Email := email, Password := password,
          PasswordConfirmation := password } w).2
        = ⟨postgres.Query.CreateUser user w.db, g⟩ ∧
      user.Name = name ∧ user.Email = email ∧ user.RoleID = RoleIDUser ∧
      (c.passwordHasher.HashPassword password w.env).1.2 = none ∧
      user.PasswordHash = (c.passwordHasher.HashPassword password w.env).1.1 := by
  obtain ⟨e, he⟩ := FindUserByEmail_none conn email w.db hnone
  revert hreg
  simp only [AuthUsecase.Register, authUCOn, postgres.NewAuthRepository, World.onDB,
    World.onEnv, he, ne_eq, not_true_eq_false, if_false]
  generalize c.passwordHasher.HashPassword password w.env = r
  rcases r with ⟨⟨hash, _ | err⟩, g⟩
  · simp only
    rw [CreateUser_unused conn _ w.db hnone]
    unfold postgres.Conn.Exec
    split
    · intro h
      simp at h
    · intro _
      exact ⟨_, _, rfl, rfl, rfl, rfl, trivial, rfl⟩
  · intro h
    simp at h

/-- `Login` over the SQL repository, on a handle that runs the lookup and the
write of `Login`, succeeds when the user is found, the password verifies and
the issuer succeeds; it returns what the issuer returned. -/
theorem authUCOn_Login_found (conn : postgres.Conn) (c : Collaborators γ) (req : LoginInput)
    (user : User) (w : World γ)
    (hlookup : conn.fault (postgres.Statement.FindUserByEmail req.Email) w.db = none)
    (hstore : ∀ row, conn.fault (postgres.Statement.StoreRefreshToken row) w.db = none)
    (hfind : postgres.Query.FindUserByEmail req.Email w.db = some user)
    (hpw : c.passwordHasher.VerifyPassword req.Password user.PasswordHash = true)
    (haccess : (c.token.GenerateAccessToken user.ID user.RoleID w.env).1.2 = none)
    (hrefresh : (c.token.GenerateRefreshToken
      (c.token.GenerateAccessToken user.ID user.RoleID w.env).2).1.2.2 = none) :
    ((authUCOn conn c).Login req w).1
      = (some { AccessToken := (c.token.GenerateAccessToken user.ID user.RoleID w.env).1.1
                RefreshToken := (c.token.GenerateRefreshToken
                  (c.token.GenerateAccessToken user.ID user.RoleID w.env).2).1.1 }, none) := by
  simp only [AuthUsecase.Login, newRefreshTokenRow, authUCOn, postgres.NewAuthRepository,
    World.onDB, World.onEnv, postgres.FindUserByEmail, postgres.Conn.Scan, hlookup, hfind, hpw,
    Bool.not_true, Bool.false_eq_true, if_false, postgres.StoreRefreshToken,
    postgres.Conn.Exec, hstore]
  generalize c.token.GenerateAccessToken user.ID user.RoleID w.env = r1 at haccess hrefresh ⊢
  rcases r1 with ⟨⟨accessToken, e1⟩, g1⟩
  simp only at haccess hrefresh
  subst haccess
  simp only
  generalize c.token.GenerateRefreshToken g1 = r2 at hrefresh ⊢
  rcases r2 with ⟨⟨plain, hash, e2⟩, g2⟩
  simp only at hrefresh
  subst hrefresh
  simp [hstore]

theorem urlEncode_length (l : List Nat) :
    (helper.urlEncode l).length = 4 * ((l.length + 2) / 3) := by
  induction l using helper.urlEncode.induct with
  | case1 a b c rest ih =>
    simp only [helper.urlEncode, List.length_cons, ih]
    omega
  | case2 a b => simp [helper.urlEncode]
  | case3 a => simp [helper.urlEncode]
  | case4 => simp [helper.urlEncode]

/-- When `rand.Read` succeeds, `Service.GenerateRefreshToken` succeeds and its
plaintext has 44 characters. -/
theorem GenerateRefreshToken_length (svc : token.Service) (lib : helper.Libraries γ) (g : γ)
    (hrand : (lib.randRead g).1.2 = none) :
    (svc.GenerateRefreshToken lib g).1.2.2 = none ∧
    (svc.GenerateRefreshToken lib g).1.1.length = 44 := by
  revert hrand
  simp only [token.Service.GenerateRefreshToken]
  generalize lib.randRead g = r
  rcases r with ⟨⟨bytes, _ | err⟩, g1⟩
  · intro _
    simp [urlEncode_length]
  · intro h
    simp at h

/-- The access token of `Service.GenerateAccessToken` is what `SignedString`
returns for the service's secret and claims with `sub = userID` and
`role = role`. -/
theorem GenerateAccessToken_claims (svc : token.Service) (jwt : token.Jwt γ)
    (userID role : String) (g : γ) :
    ∃ (claims : token.MapClaims) (g1 : γ),
      svc.GenerateAccessToken jwt userID role g = jwt.SignedString svc.secret claims g1 ∧
      claims.sub = userID ∧ claims.role = role := by
  unfold token.Service.GenerateAccessToken
  exact ⟨_, _, rfl, rfl, rfl⟩

/-- Counterexample to C15 on the test doubles, over the SQL repository on a
handle whose write `StoreRefreshToken` fails.  The store has no user for
`ann@x.com` and the hasher verifies every password against its own hash;
`Register("Ann", "ann@x.com", "pw123456", "pw123456")` returns `nil`, and the
`Login("ann@x.com", "pw123456")` that follows returns the driver's error and
no token pair. -/
theorem register_then_login_store_fails :
    postgres.Query.FindUserByEmail "ann@x.com" mock.world0.db = none ∧
    (∀ p g, mock.collaborators.passwordHasher.VerifyPassword p
      (mock.collaborators.passwordHasher.HashPassword p g).1.1 = true) ∧
    ((authUCOn mock.tokenWritesFail mock.collaborators).Register
      { Name := "Ann", Email := "ann@x.com", Password := "pw123456",
        PasswordConfirmation := "pw123456" } mock.world0).1 = none ∧
    ((authUCOn mock.tokenWritesFail mock.collaborators).Login
      { Email := "ann@x.com", Password := "pw123456" }
      ((authUCOn mock.tokenWritesFail mock.collaborators).Register
        { Name := "Ann", Email := "ann@x.com", Password := "pw123456",
          PasswordConfirmation := "pw123456" } mock.world0).2).1
      = (none, some (Err.other "driver: bad connection")) := by
  refine ⟨by rfl, ?_, by rfl, by rfl⟩
  intro p g
  simp [mock.collaborators, mock.mockPasswordHasher]

/-- C15 as amended: register then login round-trips when the statements of
`Login` run and the issuer's libraries succeed.  Over the SQL repository on
any handle, with `token.Service` as issuer and a hasher for which
`VerifyPassword(p, HashPassword(p))` holds, starting with no user for the
email: after `Register(name, email, password, password)` has returned `nil`
the new user is stored with role `RoleIDUser`, and when the handle runs the
lookup and the write `StoreRefreshToken`, `rand.Read` succeeds and
`SignedString` returns a non-empty text, `Login(email, password)` returns no
error and the pair of the access token signed for the new user's id and
`RoleIDUser`, which is not empty, and a refresh token of 44 characters. -/
theorem register_then_login_issued (conn : postgres.Conn) (svc : token.Service)
    (lib : helper.Libraries γ) (jwt : token.Jwt γ) (c : Collaborators γ)
    (name email password : String) (w : World γ)
    (htoken : c.token = svc.TokenService lib jwt)
    (hnone : postgres.Query.FindUserByEmail email w.db = none)
    (hverify : ∀ p g, (c.passwordHasher.HashPassword p g).1.2 = none →
      c.passwordHasher.VerifyPassword p (c.passwordHasher.HashPassword p g).1.1 = true)
    (hreg : ((authUCOn conn c).Register
      { Name := name, Email := email, Password := password,
        PasswordConfirmation := password } w).1 = none)
    (hlookup : ∀ db, conn.fault (postgres.Statement.FindUserByEmail email) db = none)
    (hstore : ∀ row db, conn.fault (postgres.Statement.StoreRefreshToken row) db = none)
    (hrand : ∀ g, (lib.randRead g).1.2 = none)
    (hsign : ∀ secret claims g, (jwt.SignedString secret claims g).1.2 = none ∧
      (jwt.SignedString secret claims g).1.1 ≠ "") :
    ∃ (user : User) (out : AuthOutput) (claims : token.MapClaims) (g : γ),
      postgres.Query.FindUserByEmail email
        ((authUCOn conn c).Register
          { Name := name, Email := email, Password := password,
            PasswordConfirmation := password } w).2.db = some user ∧
      user.Name = name ∧ user.RoleID = RoleIDUser ∧
      ((authUCOn conn c).Login { Email := email, Password := password }
        ((authUCOn conn c).Register
          { Name := name, Email := email, Password := password,
            PasswordConfirmation := password } w).2).1 = (some out, none) ∧
      out.AccessToken = (jwt.SignedString svc.secret claims g).1.1 ∧
      claims.sub = user.ID ∧ claims.role = RoleIDUser ∧
      out.AccessToken ≠ "" ∧ out.RefreshToken.length = 44 := by
  obtain ⟨user, g0, hpost, hname, hemail, hrole, hhashed, hhash⟩ :=
    authUCOn_Register_success conn c name email password w hnone hreg
  rw [hpost]
  have hfind : postgres.Query.FindUserByEmail email (postgres.Query.CreateUser user w.db)
      = some user := by
    have h := FindUserByEmail_CreateUser user w.db (by rw [hemail]; exact hnone)
    rwa [hemail] at h
  have hpw : c.passwordHasher.VerifyPassword password user.PasswordHash = true := by
    rw [hhash]
    exact hverify password w.env hhashed
  obtain ⟨claims, g1, hclaims, hsub, hroleC⟩ :=
    GenerateAccessToken_claims svc jwt user.ID user.RoleID g0
  have hacc : c.token.GenerateAccessToken user.ID user.RoleID g0
      = jwt.SignedString svc.secret claims g1 := by
    rw [htoken]
    exact hclaims
  have href : ∀ g, (c.token.GenerateRefreshToken g).1.2.2 = none ∧
      (c.token.GenerateRefreshToken g).1.1.length = 44 := by
    intro g
    rw [htoken]
    exact GenerateRefreshToken_length svc lib g (hrand g)
  have hlogin := authUCOn_Login_found conn c { Email := email, Password := password } user
    ⟨postgres.Query.CreateUser user w.db, g0⟩ (hlookup _) (fun row => hstore row _) hfind hpw
    (by rw [hacc]; exact (hsign _ _ _).1) (href _).1
  refine ⟨user, _, claims, g1, hfind, hname, hrole, hlogin, ?_, hsub, ?_, ?_, (href _).2⟩
  · simp only [hacc]
  · rw [hroleC, hrole]
  · simp only [hacc]
    exact (hsign _ _ _).2

/-- Witness of C15 as amended, the scenario of the specification over the
stand-in libraries: `Register("Ann", "ann@x.com", "pw123456", "pw123456")`,
then `Login("ann@x.com", "pw123456")`, on a handle without faults. -/
theorem register_then_login_issued_witness :
    ∃ (user : User) (out : AuthOutput) (claims : token.MapClaims) (g : Nat),
      postgres.Query.FindUserByEmail "ann@x.com"
        ((authUCOn postgres.Conn.healthy counting.wired).Register
          { Name := "Ann", Email := "ann@x.com", Password := "pw123456",
            PasswordConfirmation := "pw123456" } counting.world0).2.db = some user ∧
      user.Name = "Ann" ∧ user.RoleID = RoleIDUser ∧
      ((authUCOn postgres.Conn.healthy counting.wired).Login
        { Email := "ann@x.com", Password := "pw123456" }
        ((authUCOn postgres.Conn.healthy counting.wired).Register
          { Name := "Ann", Email := "ann@x.com", Password := "pw123456",
            PasswordConfirmation := "pw123456" } counting.world0).2).1 = (some out, none) ∧
      out.AccessToken = (counting.jwt.SignedString (token.NewService "secret").secret
        claims g).1.1 ∧
      claims.sub = user.ID ∧ claims.role = RoleIDUser ∧
      out.AccessToken ≠ "" ∧ out.RefreshToken.length = 44 :=
  register_then_login_issued postgres.Conn.healthy (token.NewService "secret")
    counting.libraries counting.jwt counting.wired "Ann" "ann@x.com" "pw123456"
    counting.world0 rfl (by rfl)
    (fun p g _ => by
      simp [counting.wired, helper.BcryptHasher, counting.libraries])
    (by rfl) (fun _ => rfl) (fun _ _ => rfl) (fun _ => rfl)
    (fun secret claims g => ⟨rfl, by
      simp only [counting.jwt]
      intro h
      have hlen := congrArg String.length h
      simp only [String.length_append] at hlen
      have h4 : ("jwt." : String).length = 4 := by decide
      have h0 : ("" : String).length = 0 := by decide
      omega⟩)

end register_login

end AuthService
